import Mathlib

/-!
# A shallow embedding of the 6502 core (`Cpu6502.cpp`, `FlatBus.cpp`, `Ram.cpp`)

Machine integers are natural numbers.  A value stored into a `uint8_t`
(`byte`) is reduced `% 256`, a value stored into a `uint16_t` (`memAddress`)
is reduced `% 65536`; arithmetic in between happens on promoted `int`s and is
therefore exact.  A decrement `x--` of an unsigned value of width `w` is
written `(x + 2^w - 1) % 2^w`.

Member-function pointers stored in the opcode table become the tags
`Operation` (the 57 instruction handlers) and `AddrFn` (the 12 addressing-mode
handlers).  The table itself (`OPCODES_6502`, defined in a translation unit
that is not part of the sources at hand) is a parameter of `clock`.
-/

namespace Emu6502

/-! ## Constants (`Cpu6502.cpp`, lines 7-11) -/

def HIGH_BYTE_MASK : Nat := 0xFF00
def LOW_BYTE_MASK : Nat := 0x00FF
def ZERO_PAGE_BOUNDARY : Nat := 0x00FF
def STACK_BASE_ADDRESS : Nat := 0x0100
def SIGN_BIT_MASK : Nat := 0x80

/-! ## `Flags.h`, `AddressingMode.h`, `Opcodes.h` -/

/-- The status bits of `enum class Flags`. -/
inductive Flags where
  | C | Z | I | D | B | U | V | N
  deriving DecidableEq, Repr

/-- The enumerator values of `Flags`, i.e. `static_cast<uint8_t>(flag)`. -/
def Flags.mask : Flags → Nat
  | .C => 1 <<< 0
  | .Z => 1 <<< 1
  | .I => 1 <<< 2
  | .D => 1 <<< 3
  | .B => 1 <<< 4
  | .U => 1 <<< 5
  | .V => 1 <<< 6
  | .N => 1 <<< 7

/-- The bit position of each flag: `mask = 1 << bit`. -/
def Flags.bit : Flags → Nat
  | .C => 0
  | .Z => 1
  | .I => 2
  | .D => 3
  | .B => 4
  | .U => 5
  | .V => 6
  | .N => 7

/-- The tags of `enum class AddressingMode`. -/
inductive AddressingMode where
  | IMP | IMM | ZP0 | ZPX | ZPY | REL | ABS | ABX | ABY | IND | IZX | IZY
  deriving DecidableEq, Repr

/-- The addressing-mode member functions a table entry can point to. -/
inductive AddrFn where
  | IMP | IMM | ZP0 | ZPX | ZPY | REL | ABS | ABX | ABY | IND | IZX | IZY
  deriving DecidableEq, Repr

/-- The instruction member functions a table entry can point to. -/
inductive Operation where
  | ADC | AND | ASL | BCC | BCS | BEQ | BIT | BMI | BNE | BPL | BRK | BVC | BVS | CLC
  | CLD | CLI | CLV | CMP | CPX | CPY | DEC | DEX | DEY | EOR | INC | INX | INY | JMP
  | JSR | LDA | LDX | LDY | LSR | NOP | ORA | PHA | PHP | PLA | PLP | ROL | ROR | RTI
  | RTS | SBC | SEC | SED | SEI | STA | STX | STY | TAX | TAY | TSX | TXA | TXS | TYA
  | XXX
  deriving DecidableEq, Repr

/-- One entry of the opcode table (`struct Opcode6502`). -/
structure Opcode6502 where
  name : String
  cycles : Nat
  operate : Operation
  addrmode : AddrFn

/-! ## `Ram.cpp`, `FlatBus.cpp` -/

/-- The 64 KiB array of `class RAM`; cell `a` is `memory a`. -/
structure RAM where
  memory : Nat → Nat

/-- Embeds `RAM::read`: `return memory[addr]`. -/
def RAM.read (r : RAM) (addr : Nat) : Nat :=
  r.memory addr

/-- Embeds `RAM::write`: `memory[addr] = data`. -/
def RAM.write (r : RAM) (addr data : Nat) : RAM :=
  { memory := fun a => if a = addr then data else r.memory a }

/-- The only `Bus` implementation, `class FlatBus`, wraps one `RAM`. -/
structure FlatBus where
  ram : RAM

/-- Embeds `FlatBus::read(uint16_t addr)`: the argument is converted to 16 bits. -/
def FlatBus.read (b : FlatBus) (addr : Nat) : Nat :=
  b.ram.read (addr % 65536)

/-- Embeds `FlatBus::write(uint16_t addr, uint8_t data)`: both arguments are converted
to their parameter types. -/
def FlatBus.write (b : FlatBus) (addr data : Nat) : FlatBus :=
  { ram := b.ram.write (addr % 65536) (data % 256) }

/-! ## `Cpu6502.h`: the processor state -/

/-- The data members of `class Cpu6502`; `bus` is the memory it points to. -/
structure Cpu6502 where
  A : Nat
  X : Nat
  Y : Nat
  SP : Nat
  PC : Nat
  status : Nat
  bus : FlatBus
  currentByte : Nat
  opcode : Nat
  currentAddressingMode : AddressingMode
  cycles : Nat
  currentAddress : Nat
  relativeAddress : Nat
  readFlag : Bool
  tempByte : Nat
  tempWord : Nat

namespace Cpu6502

/-! ## `Cpu6502.cpp`, lines 15-48: bus access and flag helpers -/

/-- Embeds `Cpu6502::read`: the latched byte in implicit mode, the bus otherwise. -/
def read (s : Cpu6502) (addr : Nat) : Nat :=
  if s.currentAddressingMode = AddressingMode.IMP then s.currentByte
  else s.bus.read addr

/-- Embeds `Cpu6502::write`. -/
def write (s : Cpu6502) (addr data : Nat) : Cpu6502 :=
  { s with bus := s.bus.write addr data }

/-- Embeds `Cpu6502::getFlag`: `(status & flag) != 0`. -/
def getFlag (s : Cpu6502) (flag : Flags) : Bool :=
  (s.status &&& flag.mask) != 0

/-- Embeds `Cpu6502::setFlag` on a status byte: `status |= flag`. -/
def setFlag (status : Nat) (flag : Flags) : Nat :=
  (status ||| flag.mask) % 256

/-- Embeds `Cpu6502::clearFlag` on a status byte: `status &= ~flag`, the complement
being taken on the promoted 32-bit `int`. -/
def clearFlag (status : Nat) (flag : Flags) : Nat :=
  (status &&& (0xFFFFFFFF ^^^ flag.mask)) % 256

/-- Embeds `Cpu6502::updateFlag`: set or clear `flag` in the status register. -/
def updateFlag (s : Cpu6502) (condition : Bool) (flag : Flags) : Cpu6502 :=
  if condition then { s with status := setFlag s.status flag }
  else { s with status := clearFlag s.status flag }

/-! ## Lines 50-102: reset and interrupts -/

/-- Embeds `Cpu6502::reset`. -/
def reset (s : Cpu6502) : Cpu6502 :=
  { s with
    PC := (s.bus.read 0xFFFC ||| (s.bus.read 0xFFFD <<< 8)) % 65536
    A := 0
    X := 0
    Y := 0
    SP := 0xFD
    status := (0x00 ||| Flags.U.mask) % 256
    currentAddress := 0
    currentByte := 0
    relativeAddress := 0
    cycles := 8 }

/-- Embeds `Cpu6502::executeInterrupt`: three pushes, then the vector at
0xFFFE/0xFFFF. -/
def executeInterrupt (s : Cpu6502) : Cpu6502 :=
  let s := { s.write ((STACK_BASE_ADDRESS + s.SP) % 65536)
      (((s.PC >>> 8) &&& LOW_BYTE_MASK) % 256) with SP := (s.SP + 256 - 1) % 256 }
  let s := { s.write ((STACK_BASE_ADDRESS + s.SP) % 65536)
      ((s.PC &&& LOW_BYTE_MASK) % 256) with SP := (s.SP + 256 - 1) % 256 }
  let s := s.updateFlag false Flags.B
  let s := s.updateFlag true Flags.U
  let s := { s.write ((STACK_BASE_ADDRESS + s.SP) % 65536) s.status with
      SP := (s.SP + 256 - 1) % 256 }
  let s := s.updateFlag true Flags.I
  { s with PC := (s.bus.read 0xFFFE ||| (s.bus.read 0xFFFF <<< 8)) % 65536 }

/-- Embeds `Cpu6502::interrupt` (the public `irq()`): maskable interrupt request. -/
def interrupt (s : Cpu6502) : Cpu6502 :=
  if !s.getFlag Flags.I then
    { s.executeInterrupt with cycles := 7 }
  else s

/-- Embeds `Cpu6502::nonMaskableInterrupt` (the public `nmi()`). -/
def nonMaskableInterrupt (s : Cpu6502) : Cpu6502 :=
  { s.executeInterrupt with cycles := 8 }

/-- Embeds `Cpu6502::mapAddressMode`: handler pointer to mode tag. -/
def mapAddressMode : AddrFn → AddressingMode
  | .IMP => .IMP
  | .IMM => .IMM
  | .ZP0 => .ZP0
  | .ZPX => .ZPX
  | .ZPY => .ZPY
  | .REL => .REL
  | .ABS => .ABS
  | .ABX => .ABX
  | .ABY => .ABY
  | .IND => .IND
  | .IZX => .IZX
  | .IZY => .IZY

/-- Embeds `Cpu6502::instructionComplete`. -/
def instructionComplete (s : Cpu6502) : Bool :=
  s.cycles == 0

/-! ## Lines 165-203: helpers -/

/-- Embeds `zeroPage(byte addr)`: the argument is converted to a byte, then masked. -/
def zeroPage (addr : Nat) : Nat :=
  ((addr % 256) &&& LOW_BYTE_MASK) % 65536

/-- Embeds `getAbsolute(byte lowByte, byte highByte)`. -/
def getAbsolute (lowByte highByte : Nat) : Nat :=
  (((highByte % 256) <<< 8) ||| (lowByte % 256)) % 65536

/-- Embeds `Cpu6502::updateZeroAndNegativeFlags`. -/
def updateZeroAndNegativeFlags (s : Cpu6502) (zeroCondition negativeCondition : Bool) :
    Cpu6502 :=
  (s.updateFlag zeroCondition Flags.Z).updateFlag negativeCondition Flags.N

/-- Embeds `Cpu6502::checkPageCrossing`: one more cycle when the branch target lies in
another page than `PC`. -/
def checkPageCrossing (s : Cpu6502) : Cpu6502 :=
  if (s.currentAddress &&& HIGH_BYTE_MASK) ≠ (s.PC &&& HIGH_BYTE_MASK) then
    { s with cycles := (s.cycles + 1) % 256 }
  else s

/-- Embeds `Cpu6502::CompareLogic`, on the operand already latched in `currentByte`. -/
def CompareLogic (s : Cpu6502) (registerValue : Nat) : Cpu6502 :=
  let temp := (registerValue + 65536 - s.currentByte) % 65536
  let s := s.updateFlag (decide (registerValue ≥ s.currentByte)) Flags.C
  s.updateZeroAndNegativeFlags ((temp &&& LOW_BYTE_MASK) == 0) ((temp &&& SIGN_BIT_MASK) != 0)

/-! ## Lines 205-333: addressing modes

Each returns the new state and the `bool` it reports (page crossed). -/

/-- Embeds `Cpu6502::IMP`. -/
def IMP (s : Cpu6502) : Cpu6502 × Bool :=
  ({ s with currentByte := s.A }, false)

/-- Embeds `Cpu6502::IMM`: `currentAddress = PC++`. -/
def IMM (s : Cpu6502) : Cpu6502 × Bool :=
  ({ s with currentAddress := s.PC, PC := (s.PC + 1) % 65536 }, false)

/-- Embeds `Cpu6502::ZP0`. -/
def ZP0 (s : Cpu6502) : Cpu6502 × Bool :=
  ({ s with currentAddress := zeroPage (s.bus.read s.PC), PC := (s.PC + 1) % 65536 }, false)

/-- Embeds `Cpu6502::ZPX`. -/
def ZPX (s : Cpu6502) : Cpu6502 × Bool :=
  ({ s with currentAddress := zeroPage (s.bus.read s.PC + s.X), PC := (s.PC + 1) % 65536 },
    false)

/-- Embeds `Cpu6502::ZPY`. -/
def ZPY (s : Cpu6502) : Cpu6502 × Bool :=
  ({ s with currentAddress := zeroPage (s.bus.read s.PC + s.Y), PC := (s.PC + 1) % 65536 },
    false)

/-- Embeds `Cpu6502::REL`: the offset byte, sign-extended to 16 bits. -/
def REL (s : Cpu6502) : Cpu6502 × Bool :=
  let s := { s with relativeAddress := s.bus.read s.PC }
  let s := { s with PC := (s.PC + 1) % 65536 }
  let s := if (s.relativeAddress &&& SIGN_BIT_MASK) ≠ 0 then
      { s with relativeAddress := (s.relativeAddress ||| HIGH_BYTE_MASK) % 65536 }
    else s
  (s, false)

/-- Embeds `Cpu6502::ABS`. -/
def ABS (s : Cpu6502) : Cpu6502 × Bool :=
  ({ s with
      currentAddress := getAbsolute (s.bus.read s.PC) (s.bus.read (s.PC + 1))
      PC := (s.PC + 2) % 65536 }, false)

/-- Embeds `Cpu6502::ABX`. -/
def ABX (s : Cpu6502) : Cpu6502 × Bool :=
  let base := getAbsolute (s.bus.read s.PC) (s.bus.read (s.PC + 1))
  let s := { s with PC := (s.PC + 2) % 65536 }
  let s := { s with currentAddress := (base + s.X) % 65536 }
  if (base &&& HIGH_BYTE_MASK) ≠ (s.currentAddress &&& HIGH_BYTE_MASK) then (s, true)
  else (s, false)

/-- Embeds `Cpu6502::ABY`. -/
def ABY (s : Cpu6502) : Cpu6502 × Bool :=
  let base := getAbsolute (s.bus.read s.PC) (s.bus.read (s.PC + 1))
  let s := { s with PC := (s.PC + 2) % 65536 }
  let s := { s with currentAddress := (base + s.Y) % 65536 }
  if (base &&& HIGH_BYTE_MASK) ≠ (s.currentAddress &&& HIGH_BYTE_MASK) then (s, true)
  else (s, false)

/-- Embeds `Cpu6502::IND`, with the page-wrap of the pointer's high byte. -/
def IND (s : Cpu6502) : Cpu6502 × Bool :=
  let pointer := getAbsolute (s.bus.read s.PC) (s.bus.read (s.PC + 1))
  let s := { s with PC := (s.PC + 2) % 65536 }
  if (pointer &&& LOW_BYTE_MASK) = ZERO_PAGE_BOUNDARY then
    ({ s with currentAddress :=
        getAbsolute (s.bus.read pointer) (s.bus.read (pointer &&& HIGH_BYTE_MASK)) }, false)
  else
    ({ s with currentAddress :=
        getAbsolute (s.bus.read pointer) (s.bus.read (pointer + 1)) }, false)

/-- Embeds `Cpu6502::IZX`. -/
def IZX (s : Cpu6502) : Cpu6502 × Bool :=
  let t := s.bus.read s.PC
  let s := { s with PC := (s.PC + 1) % 65536 }
  let t := (t + s.X) % 256
  ({ s with currentAddress :=
      getAbsolute (s.bus.read (zeroPage t)) (s.bus.read (zeroPage (t + 1))) }, false)

/-- Embeds `Cpu6502::IZY`. -/
def IZY (s : Cpu6502) : Cpu6502 × Bool :=
  let t := s.bus.read s.PC
  let s := { s with PC := (s.PC + 1) % 65536 }
  let base := getAbsolute (s.bus.read (zeroPage t)) (s.bus.read (zeroPage (t + 1)))
  let s := { s with currentAddress := (base + s.Y) % 65536 }
  if (base &&& HIGH_BYTE_MASK) ≠ (s.currentAddress &&& HIGH_BYTE_MASK) then (s, true)
  else (s, false)

/-- Calling through an `addrmode` member-function pointer. -/
def runAddrFn : AddrFn → Cpu6502 → Cpu6502 × Bool
  | .IMP => IMP
  | .IMM => IMM
  | .ZP0 => ZP0
  | .ZPX => ZPX
  | .ZPY => ZPY
  | .REL => REL
  | .ABS => ABS
  | .ABX => ABX
  | .ABY => ABY
  | .IND => IND
  | .IZX => IZX
  | .IZY => IZY

/-! ## Lines 335-1014: instructions

Each returns the new state and the `bool` it reports (always `false`). -/

/-- Embeds `Cpu6502::ADC`. -/
def ADC (s : Cpu6502) : Cpu6502 × Bool :=
  let s := { s with currentByte := s.read s.currentAddress }
  let s := { s with tempWord := (s.A + s.currentByte + (s.getFlag Flags.C).toNat) % 65536 }
  let s := s.updateFlag (decide (s.tempWord > LOW_BYTE_MASK)) Flags.C
  let s := s.updateZeroAndNegativeFlags ((s.tempWord &&& LOW_BYTE_MASK) == 0)
    ((s.tempWord &&& SIGN_BIT_MASK) != 0)
  let s := s.updateFlag
    (((0xFFFFFFFF ^^^ (s.A ^^^ s.currentByte)) &&& (s.A ^^^ s.tempWord) &&& SIGN_BIT_MASK) != 0)
    Flags.V
  ({ s with A := (s.tempWord &&& LOW_BYTE_MASK) % 256 }, false)

/-- Embeds `Cpu6502::AND`. -/
def AND (s : Cpu6502) : Cpu6502 × Bool :=
  let s := { s with currentByte := s.read s.currentAddress }
  let s := { s with A := (s.A &&& s.currentByte) % 256 }
  (s.updateZeroAndNegativeFlags (s.A == 0) ((s.A &&& SIGN_BIT_MASK) != 0), false)

/-- Embeds `Cpu6502::ASL`. -/
def ASL (s : Cpu6502) : Cpu6502 × Bool :=
  let s := { s with currentByte := s.read s.currentAddress }
  let s := s.updateFlag ((s.currentByte &&& SIGN_BIT_MASK) != 0) Flags.C
  let s := { s with currentByte := (s.currentByte <<< 1) % 256 }
  let s := s.updateZeroAndNegativeFlags (s.currentByte == 0)
    ((s.currentByte &&& SIGN_BIT_MASK) != 0)
  if s.currentAddressingMode = AddressingMode.IMP then
    ({ s with A := s.currentByte % 256 }, false)
  else
    (s.write s.currentAddress (s.currentByte % 256), false)

/-- The body shared by the eight branch handlers once the predicate holds. -/
def branchTaken (s : Cpu6502) : Cpu6502 :=
  let s := { s with cycles := (s.cycles + 1) % 256 }
  let s := { s with currentAddress := (s.PC + s.relativeAddress) % 65536 }
  let s := s.checkPageCrossing
  { s with PC := s.currentAddress }

/-- Embeds `Cpu6502::BCC`. -/
def BCC (s : Cpu6502) : Cpu6502 × Bool :=
  if !s.getFlag Flags.C then (s.branchTaken, false) else (s, false)

/-- Embeds `Cpu6502::BCS`. -/
def BCS (s : Cpu6502) : Cpu6502 × Bool :=
  if s.getFlag Flags.C then (s.branchTaken, false) else (s, false)

/-- Embeds `Cpu6502::BEQ`. -/
def BEQ (s : Cpu6502) : Cpu6502 × Bool :=
  if s.getFlag Flags.Z then (s.branchTaken, false) else (s, false)

/-- Embeds `Cpu6502::BIT`. -/
def BIT (s : Cpu6502) : Cpu6502 × Bool :=
  let s := { s with currentByte := s.read s.currentAddress }
  let s := s.updateZeroAndNegativeFlags ((s.A &&& s.currentByte) == 0)
    ((s.currentByte &&& (1 <<< 7)) != 0)
  (s.updateFlag ((s.currentByte &&& (1 <<< 6)) != 0) Flags.V, false)

/-- Embeds `Cpu6502::BMI`. -/
def BMI (s : Cpu6502) : Cpu6502 × Bool :=
  if s.getFlag Flags.N then (s.branchTaken, false) else (s, false)

/-- Embeds `Cpu6502::BNE`. -/
def BNE (s : Cpu6502) : Cpu6502 × Bool :=
  if !s.getFlag Flags.Z then (s.branchTaken, false) else (s, false)

/-- Embeds `Cpu6502::BPL`. -/
def BPL (s : Cpu6502) : Cpu6502 × Bool :=
  if !s.getFlag Flags.N then (s.branchTaken, false) else (s, false)

/-- Embeds `Cpu6502::BRK`. -/
def BRK (s : Cpu6502) : Cpu6502 × Bool :=
  let s := { s with PC := (s.PC + 1) % 65536 }
  let s := { s with status := setFlag s.status Flags.I }
  let s := { s.write ((0x0100 + s.SP) % 65536) ((s.PC >>> 8) &&& LOW_BYTE_MASK) with
      SP := (s.SP + 256 - 1) % 256 }
  let s := { s.write ((0x0100 + s.SP) % 65536) (s.PC &&& LOW_BYTE_MASK) with
      SP := (s.SP + 256 - 1) % 256 }
  let s := { s with status := setFlag s.status Flags.B }
  let s := { s.write ((0x0100 + s.SP) % 65536) s.status with SP := (s.SP + 256 - 1) % 256 }
  let s := { s with status := clearFlag s.status Flags.B }
  let s := { s with status := setFlag s.status Flags.I }
  ({ s with PC := getAbsolute (s.bus.read 0xFFFE) (s.bus.read 0xFFFF) }, false)

/-- Embeds `Cpu6502::BVC`. -/
def BVC (s : Cpu6502) : Cpu6502 × Bool :=
  if !s.getFlag Flags.V then (s.branchTaken, false) else (s, false)

/-- Embeds `Cpu6502::BVS`. -/
def BVS (s : Cpu6502) : Cpu6502 × Bool :=
  if s.getFlag Flags.V then (s.branchTaken, false) else (s, false)

/-- Embeds `Cpu6502::CLC`. -/
def CLC (s : Cpu6502) : Cpu6502 × Bool :=
  ({ s with status := clearFlag s.status Flags.C }, false)

/-- Embeds `Cpu6502::CLD`. -/
def CLD (s : Cpu6502) : Cpu6502 × Bool :=
  ({ s with status := clearFlag s.status Flags.D }, false)

/-- Embeds `Cpu6502::CLI`. -/
def CLI (s : Cpu6502) : Cpu6502 × Bool :=
  ({ s with status := clearFlag s.status Flags.I }, false)

/-- Embeds `Cpu6502::CLV`. -/
def CLV (s : Cpu6502) : Cpu6502 × Bool :=
  ({ s with status := clearFlag s.status Flags.V }, false)

/-- Embeds `Cpu6502::CMP`. -/
def CMP (s : Cpu6502) : Cpu6502 × Bool :=
  let s := { s with currentByte := s.read s.currentAddress }
  (s.CompareLogic s.A, false)

/-- Embeds `Cpu6502::CPX`. -/
def CPX (s : Cpu6502) : Cpu6502 × Bool :=
  let s := { s with currentByte := s.read s.currentAddress }
  (s.CompareLogic s.X, false)

/-- Embeds `Cpu6502::CPY`. -/
def CPY (s : Cpu6502) : Cpu6502 × Bool :=
  let s := { s with currentByte := s.read s.currentAddress }
  (s.CompareLogic s.Y, false)

/-- Embeds `Cpu6502::DEC`. -/
def DEC (s : Cpu6502) : Cpu6502 × Bool :=
  let s := { s with currentByte := s.read s.currentAddress }
  let s := { s with tempByte := (s.currentByte + 256 - 1) % 256 }
  let s := s.write s.currentAddress (s.tempByte &&& LOW_BYTE_MASK)
  (s.updateZeroAndNegativeFlags ((s.tempByte &&& LOW_BYTE_MASK) == 0)
    ((s.tempByte &&& SIGN_BIT_MASK) != 0), false)

/-- Embeds `Cpu6502::DEX`. -/
def DEX (s : Cpu6502) : Cpu6502 × Bool :=
  let s := { s with X := (s.X + 256 - 1) % 256 }
  (s.updateZeroAndNegativeFlags (s.X == 0) ((s.X &&& SIGN_BIT_MASK) != 0), false)

/-- Embeds `Cpu6502::DEY`. -/
def DEY (s : Cpu6502) : Cpu6502 × Bool :=
  let s := { s with Y := (s.Y + 256 - 1) % 256 }
  (s.updateZeroAndNegativeFlags (s.Y == 0) ((s.Y &&& SIGN_BIT_MASK) != 0), false)

/-- Embeds `Cpu6502::EOR`. -/
def EOR (s : Cpu6502) : Cpu6502 × Bool :=
  let s := { s with currentByte := s.read s.currentAddress }
  let s := { s with A := (s.A ^^^ s.currentByte) % 256 }
  (s.updateZeroAndNegativeFlags (s.A == 0) ((s.A &&& SIGN_BIT_MASK) != 0), false)

/-- Embeds `Cpu6502::INC`. -/
def INC (s : Cpu6502) : Cpu6502 × Bool :=
  let s := { s with currentByte := s.read s.currentAddress }
  let s := { s with tempByte := (s.currentByte + 1) % 256 }
  let s := s.write s.currentAddress (s.tempByte &&& LOW_BYTE_MASK)
  (s.updateZeroAndNegativeFlags ((s.tempByte &&& LOW_BYTE_MASK) == 0)
    ((s.tempByte &&& SIGN_BIT_MASK) != 0), false)

/-- Embeds `Cpu6502::INX`. -/
def INX (s : Cpu6502) : Cpu6502 × Bool :=
  let s := { s with X := (s.X + 1) % 256 }
  (s.updateZeroAndNegativeFlags (s.X == 0) ((s.X &&& SIGN_BIT_MASK) != 0), false)

/-- Embeds `Cpu6502::INY`. -/
def INY (s : Cpu6502) : Cpu6502 × Bool :=
  let s := { s with Y := (s.Y + 1) % 256 }
  (s.updateZeroAndNegativeFlags (s.Y == 0) ((s.Y &&& SIGN_BIT_MASK) != 0), false)

/-- Embeds `Cpu6502::JMP`. -/
def JMP (s : Cpu6502) : Cpu6502 × Bool :=
  ({ s with PC := s.currentAddress }, false)

/-- Embeds `Cpu6502::JSR`. -/
def JSR (s : Cpu6502) : Cpu6502 × Bool :=
  let s := { s with PC := (s.PC + 65536 - 1) % 65536 }
  let s := { s.write ((0x0100 + s.SP) % 65536) ((s.PC >>> 8) &&& LOW_BYTE_MASK) with
      SP := (s.SP + 256 - 1) % 256 }
  let s := { s.write ((0x0100 + s.SP) % 65536) (s.PC &&& LOW_BYTE_MASK) with
      SP := (s.SP + 256 - 1) % 256 }
  ({ s with PC := s.currentAddress }, false)

/-- Embeds `Cpu6502::LDA`. -/
def LDA (s : Cpu6502) : Cpu6502 × Bool :=
  let s := { s with currentByte := s.read s.currentAddress }
  let s := { s with A := s.currentByte }
  (s.updateZeroAndNegativeFlags (s.A == 0) ((s.A &&& SIGN_BIT_MASK) != 0), false)

/-- Embeds `Cpu6502::LDX`. -/
def LDX (s : Cpu6502) : Cpu6502 × Bool :=
  let s := { s with currentByte := s.read s.currentAddress }
  let s := { s with X := s.currentByte }
  (s.updateZeroAndNegativeFlags (s.X == 0) ((s.X &&& SIGN_BIT_MASK) != 0), false)

/-- Embeds `Cpu6502::LDY`. -/
def LDY (s : Cpu6502) : Cpu6502 × Bool :=
  let s := { s with currentByte := s.read s.currentAddress }
  let s := { s with Y := s.currentByte }
  (s.updateZeroAndNegativeFlags (s.Y == 0) ((s.Y &&& SIGN_BIT_MASK) != 0), false)

/-- Embeds `Cpu6502::LSR`. -/
def LSR (s : Cpu6502) : Cpu6502 × Bool :=
  let s := { s with currentByte := s.read s.currentAddress }
  let s := s.updateFlag ((s.currentByte &&& 0x01) != 0) Flags.C
  let s := { s with tempByte := (s.currentByte >>> 1) % 256 }
  let s := s.updateZeroAndNegativeFlags ((s.tempByte &&& LOW_BYTE_MASK) == 0)
    ((s.tempByte &&& SIGN_BIT_MASK) != 0)
  if s.currentAddressingMode = AddressingMode.IMP then
    ({ s with A := (s.tempByte &&& LOW_BYTE_MASK) % 256 }, false)
  else
    (s.write s.currentAddress ((s.tempByte &&& LOW_BYTE_MASK) % 256), false)

/-- Embeds `Cpu6502::NOP`. -/
def NOP (s : Cpu6502) : Cpu6502 × Bool :=
  (s, false)

/-- Embeds `Cpu6502::ORA`. -/
def ORA (s : Cpu6502) : Cpu6502 × Bool :=
  let s := { s with currentByte := s.read s.currentAddress }
  let s := { s with A := (s.A ||| s.currentByte) % 256 }
  (s.updateZeroAndNegativeFlags (s.A == 0) ((s.A &&& SIGN_BIT_MASK) != 0), false)

/-- Embeds `Cpu6502::PHA`. -/
def PHA (s : Cpu6502) : Cpu6502 × Bool :=
  ({ s.write ((STACK_BASE_ADDRESS + s.SP) % 65536) s.A with SP := (s.SP + 256 - 1) % 256 },
    false)

/-- Embeds `Cpu6502::PHP`. -/
def PHP (s : Cpu6502) : Cpu6502 × Bool :=
  ({ s.write ((STACK_BASE_ADDRESS + s.SP) % 65536)
      (s.status ||| Flags.B.mask ||| Flags.U.mask) with SP := (s.SP + 256 - 1) % 256 }, false)

/-- Embeds `Cpu6502::PLA`. -/
def PLA (s : Cpu6502) : Cpu6502 × Bool :=
  let s := { s with SP := (s.SP + 1) % 256 }
  let s := { s with A := s.bus.read (STACK_BASE_ADDRESS + s.SP) }
  (s.updateZeroAndNegativeFlags (s.A == 0) ((s.A &&& SIGN_BIT_MASK) != 0), false)

/-- Embeds `Cpu6502::PLP`. -/
def PLP (s : Cpu6502) : Cpu6502 × Bool :=
  let s := { s with SP := (s.SP + 1) % 256 }
  let s := { s with status := s.bus.read (STACK_BASE_ADDRESS + s.SP) }
  ({ s with status := setFlag s.status Flags.U }, false)

/-- Embeds `Cpu6502::ROL`. -/
def ROL (s : Cpu6502) : Cpu6502 × Bool :=
  let value := if s.currentAddressingMode = AddressingMode.IMP then s.A
    else s.read s.currentAddress
  let oldCarry := s.getFlag Flags.C
  let newCarry := (value &&& SIGN_BIT_MASK) != 0
  let value := ((value <<< 1) ||| (if oldCarry then 1 else 0)) % 256
  let s := s.updateFlag newCarry Flags.C
  let s := s.updateZeroAndNegativeFlags (value == 0) ((value &&& SIGN_BIT_MASK) != 0)
  if s.currentAddressingMode = AddressingMode.IMP then ({ s with A := value }, false)
  else (s.write s.currentAddress value, false)

/-- Embeds `Cpu6502::ROR`. -/
def ROR (s : Cpu6502) : Cpu6502 × Bool :=
  let value := if s.currentAddressingMode = AddressingMode.IMP then s.A
    else s.read s.currentAddress
  let oldCarry := s.getFlag Flags.C
  let newCarry := (value &&& 0x01) != 0
  let value := ((value >>> 1) ||| (if oldCarry then 0x80 else 0x00)) % 256
  let s := s.updateFlag newCarry Flags.C
  let s := s.updateZeroAndNegativeFlags (value == 0) ((value &&& SIGN_BIT_MASK) != 0)
  if s.currentAddressingMode = AddressingMode.IMP then ({ s with A := value }, false)
  else (s.write s.currentAddress value, false)

/-- Embeds `Cpu6502::RTI`. -/
def RTI (s : Cpu6502) : Cpu6502 × Bool :=
  let s := { s with SP := (s.SP + 1) % 256 }
  let s := { s with status := s.bus.read (STACK_BASE_ADDRESS + s.SP) }
  let s := { s with status := clearFlag s.status Flags.B }
  let s := { s with status := setFlag s.status Flags.U }
  let s := { s with SP := (s.SP + 1) % 256 }
  let s := { s with PC := (getAbsolute (s.bus.read (STACK_BASE_ADDRESS + s.SP))
      (s.bus.read (STACK_BASE_ADDRESS + s.SP + 1))) }
  ({ s with SP := (s.SP + 1) % 256 }, false)

/-- Embeds `Cpu6502::RTS`. -/
def RTS (s : Cpu6502) : Cpu6502 × Bool :=
  let s := { s with SP := (s.SP + 1) % 256 }
  let s := { s with PC := (getAbsolute (s.bus.read (STACK_BASE_ADDRESS + s.SP))
      (s.bus.read (STACK_BASE_ADDRESS + s.SP + 1))) }
  let s := { s with SP := (s.SP + 1) % 256 }
  ({ s with PC := (s.PC + 1) % 65536 }, false)

/-- Embeds `Cpu6502::SBC`. -/
def SBC (s : Cpu6502) : Cpu6502 × Bool :=
  let s := { s with currentByte := s.read s.currentAddress }
  let value_inv := (s.currentByte ^^^ LOW_BYTE_MASK) % 65536
  let s := { s with tempWord := (s.A + value_inv + (s.getFlag Flags.C).toNat) % 65536 }
  let s := s.updateFlag ((s.tempWord &&& HIGH_BYTE_MASK) != 0) Flags.C
  let s := s.updateZeroAndNegativeFlags ((s.tempWord &&& LOW_BYTE_MASK) == 0)
    ((s.tempWord &&& SIGN_BIT_MASK) != 0)
  let s := s.updateFlag
    ((((s.tempWord ^^^ s.A) &&& (s.tempWord ^^^ value_inv)) &&& SIGN_BIT_MASK) != 0) Flags.V
  ({ s with A := (s.tempWord &&& LOW_BYTE_MASK) % 256 }, false)

/-- Embeds `Cpu6502::SEC`. -/
def SEC (s : Cpu6502) : Cpu6502 × Bool :=
  ({ s with status := setFlag s.status Flags.C }, false)

/-- Embeds `Cpu6502::SED`. -/
def SED (s : Cpu6502) : Cpu6502 × Bool :=
  ({ s with status := setFlag s.status Flags.D }, false)

/-- Embeds `Cpu6502::SEI`. -/
def SEI (s : Cpu6502) : Cpu6502 × Bool :=
  ({ s with status := setFlag s.status Flags.I }, false)

/-- Embeds `Cpu6502::STA`. -/
def STA (s : Cpu6502) : Cpu6502 × Bool :=
  (s.write s.currentAddress s.A, false)

/-- Embeds `Cpu6502::STX`. -/
def STX (s : Cpu6502) : Cpu6502 × Bool :=
  (s.write s.currentAddress s.X, false)

/-- Embeds `Cpu6502::STY`. -/
def STY (s : Cpu6502) : Cpu6502 × Bool :=
  (s.write s.currentAddress s.Y, false)

/-- Embeds `Cpu6502::TAX`. -/
def TAX (s : Cpu6502) : Cpu6502 × Bool :=
  let s := { s with X := s.A }
  (s.updateZeroAndNegativeFlags (s.X == 0) ((s.X &&& SIGN_BIT_MASK) != 0), false)

/-- Embeds `Cpu6502::TAY`. -/
def TAY (s : Cpu6502) : Cpu6502 × Bool :=
  let s := { s with Y := s.A }
  (s.updateZeroAndNegativeFlags (s.Y == 0) ((s.Y &&& SIGN_BIT_MASK) != 0), false)

/-- Embeds `Cpu6502::TSX`. -/
def TSX (s : Cpu6502) : Cpu6502 × Bool :=
  let s := { s with X := s.SP }
  (s.updateZeroAndNegativeFlags (s.X == 0) ((s.X &&& SIGN_BIT_MASK) != 0), false)

/-- Embeds `Cpu6502::TXA`. -/
def TXA (s : Cpu6502) : Cpu6502 × Bool :=
  let s := { s with A := s.X }
  (s.updateZeroAndNegativeFlags (s.A == 0) ((s.A &&& SIGN_BIT_MASK) != 0), false)

/-- Embeds `Cpu6502::TXS`. -/
def TXS (s : Cpu6502) : Cpu6502 × Bool :=
  ({ s with SP := s.X }, false)

/-- Embeds `Cpu6502::TYA`. -/
def TYA (s : Cpu6502) : Cpu6502 × Bool :=
  let s := { s with A := s.Y }
  (s.updateZeroAndNegativeFlags (s.A == 0) ((s.A &&& SIGN_BIT_MASK) != 0), false)

/-- Embeds `Cpu6502::XXX`. -/
def XXX (s : Cpu6502) : Cpu6502 × Bool :=
  (s, false)

/-- Calling through an `operate` member-function pointer. -/
def runOperation : Operation → Cpu6502 → Cpu6502 × Bool
  | .ADC => ADC | .AND => AND | .ASL => ASL | .BCC => BCC | .BCS => BCS | .BEQ => BEQ
  | .BIT => BIT | .BMI => BMI | .BNE => BNE | .BPL => BPL | .BRK => BRK | .BVC => BVC
  | .BVS => BVS | .CLC => CLC | .CLD => CLD | .CLI => CLI | .CLV => CLV | .CMP => CMP
  | .CPX => CPX | .CPY => CPY | .DEC => DEC | .DEX => DEX | .DEY => DEY | .EOR => EOR
  | .INC => INC | .INX => INX | .INY => INY | .JMP => JMP | .JSR => JSR | .LDA => LDA
  | .LDX => LDX | .LDY => LDY | .LSR => LSR | .NOP => NOP | .ORA => ORA | .PHA => PHA
  | .PHP => PHP | .PLA => PLA | .PLP => PLP | .ROL => ROL | .ROR => ROR | .RTI => RTI
  | .RTS => RTS | .SBC => SBC | .SEC => SEC | .SED => SED | .SEI => SEI | .STA => STA
  | .STX => STX | .STY => STY | .TAX => TAX | .TAY => TAY | .TSX => TSX | .TXA => TXA
  | .TXS => TXS | .TYA => TYA | .XXX => XXX

/-! ## Lines 122-158: the execution engine -/

/-- The first half of the fetch branch of `Cpu6502::clock` (lines 127-140):
fetch the opcode, advance `PC`, force `U`, load the entry's baseline into
`cycles` and record the mode tag. -/
def fetchDecode (OPCODES_6502 : Nat → Opcode6502) (s : Cpu6502) : Cpu6502 :=
  let s := { s with opcode := s.bus.read s.PC }
  let s := { s with PC := (s.PC + 1) % 65536 }
  let s := s.updateFlag true Flags.U
  let instruction := OPCODES_6502 s.opcode
  let s := { s with cycles := instruction.cycles }
  { s with currentAddressingMode := mapAddressMode instruction.addrmode }

/-- The test `isStoreInstruction` of `Cpu6502::clock` (lines 150-152). -/
def isStoreInstruction (operate : Operation) : Bool :=
  operate == Operation.STA || operate == Operation.STX || operate == Operation.STY

/-- Embeds `Cpu6502::clock`: one master-clock tick, for the opcode table
`OPCODES_6502`. -/
def clock (OPCODES_6502 : Nat → Opcode6502) (s : Cpu6502) : Cpu6502 :=
  let s :=
    if s.cycles = 0 then
      let s := s.fetchDecode OPCODES_6502
      let instruction := OPCODES_6502 s.opcode
      let r := runAddrFn instruction.addrmode s
      let additionalCycleAddressingMode := r.2
      let s := (runOperation instruction.operate r.1).1
      if additionalCycleAddressingMode && !isStoreInstruction instruction.operate then
        { s with cycles := (s.cycles + 1) % 256 }
      else s
    else s
  { s with cycles := (s.cycles + 256 - 1) % 256 }

end Cpu6502

/-- The eight conditional-branch handlers. -/
def Operation.isBranch (operate : Operation) : Bool :=
  operate == .BCC || operate == .BCS || operate == .BEQ || operate == .BNE ||
  operate == .BMI || operate == .BPL || operate == .BVC || operate == .BVS

/-! ## Sample machines

Concrete RAM images, processor states and a table fragment on which the
theorems below are instantiated. -/

/-- A RAM image holding the listed `(address, byte)` cells and zero elsewhere. -/
def ramOfList (cells : List (Nat × Nat)) : RAM :=
  { memory := fun a => ((cells.lookup a).getD 0) % 256 }

/-- A processor at an instruction boundary (`cycles = 0`) with the given
registers, attached to the RAM image `cells`. -/
def cpuOf (A X Y SP PC status : Nat) (cells : List (Nat × Nat)) : Cpu6502 :=
  { A := A, X := X, Y := Y, SP := SP, PC := PC, status := status,
    bus := { ram := ramOfList cells },
    currentByte := 0, opcode := 0, currentAddressingMode := AddressingMode.IMP,
    cycles := 0, currentAddress := 0, relativeAddress := 0, readFlag := false,
    tempByte := 0, tempWord := 0 }

/-- The state in which `clock` calls an instruction handler after the mode
`mode` has produced the effective address `addr`. -/
def cpuAt (mode : AddressingMode) (addr : Nat) (s : Cpu6502) : Cpu6502 :=
  { s with currentAddressingMode := mode, currentAddress := addr }

/-- A fragment of an opcode table with the customary entries of a few official
opcodes; every other byte is an illegal opcode. -/
def sampleTable (opcode : Nat) : Opcode6502 :=
  if opcode = 0xF0 then ⟨"BEQ", 2, Operation.BEQ, AddrFn.REL⟩
  else if opcode = 0xD0 then ⟨"BNE", 2, Operation.BNE, AddrFn.REL⟩
  else if opcode = 0x69 then ⟨"ADC", 2, Operation.ADC, AddrFn.IMM⟩
  else if opcode = 0xA9 then ⟨"LDA", 2, Operation.LDA, AddrFn.IMM⟩
  else if opcode = 0xBD then ⟨"LDA", 4, Operation.LDA, AddrFn.ABX⟩
  else if opcode = 0x9D then ⟨"STA", 5, Operation.STA, AddrFn.ABX⟩
  else if opcode = 0xEA then ⟨"NOP", 2, Operation.NOP, AddrFn.IMP⟩
  else ⟨"???", 2, Operation.XXX, AddrFn.IMP⟩

/-- A second table fragment, with the customary entries of the stack, jump and
rotate opcodes; every other byte is an illegal opcode. -/
def stackTable (opcode : Nat) : Opcode6502 :=
  if opcode = 0x00 then ⟨"BRK", 7, Operation.BRK, AddrFn.IMP⟩
  else if opcode = 0x40 then ⟨"RTI", 6, Operation.RTI, AddrFn.IMP⟩
  else if opcode = 0x60 then ⟨"RTS", 6, Operation.RTS, AddrFn.IMP⟩
  else if opcode = 0x20 then ⟨"JSR", 6, Operation.JSR, AddrFn.ABS⟩
  else if opcode = 0x6C then ⟨"JMP", 5, Operation.JMP, AddrFn.IND⟩
  else if opcode = 0x48 then ⟨"PHA", 3, Operation.PHA, AddrFn.IMP⟩
  else if opcode = 0x68 then ⟨"PLA", 4, Operation.PLA, AddrFn.IMP⟩
  else if opcode = 0x2A then ⟨"ROL", 2, Operation.ROL, AddrFn.IMP⟩
  else if opcode = 0x6A then ⟨"ROR", 2, Operation.ROR, AddrFn.IMP⟩
  else ⟨"???", 2, Operation.XXX, AddrFn.IMP⟩

/-! ## Arithmetic facts about bytes and words -/

theorem and_pow_eq (x k : Nat) : x &&& 2 ^ k = (x / 2 ^ k % 2) * 2 ^ k := by
  rw [Nat.and_two_pow, Nat.testBit_to_div_mod]
  by_cases h : x / 2 ^ k % 2 = 1
  · simp [h]
  · have h0 : x / 2 ^ k % 2 = 0 := by omega
    simp [h0]

theorem and_pow_test (x k : Nat) : ((x &&& 2 ^ k) != 0) = x.testBit k := by
  rw [Nat.and_two_pow]
  have hp : 2 ^ k ≠ 0 := Nat.pos_iff_ne_zero.1 (Nat.two_pow_pos k)
  cases x.testBit k <;> simp [hp]

theorem set_bit_test (st k j : Nat) (hj : j < 8) :
    ((st ||| 2 ^ k) % 256).testBit j = (decide (k = j) || st.testBit j) := by
  have e : (256 : Nat) = 2 ^ 8 := by norm_num
  rw [e, Nat.testBit_mod_two_pow, Nat.testBit_or, Nat.testBit_two_pow]
  simp [hj, Bool.or_comm]

theorem clear_bit_test (st k j : Nat) (hj : j < 8) :
    ((st &&& (0xFFFFFFFF ^^^ 2 ^ k)) % 256).testBit j = (!decide (k = j) && st.testBit j) := by
  have e : (256 : Nat) = 2 ^ 8 := by norm_num
  have e2 : (0xFFFFFFFF : Nat) = 2 ^ 32 - 1 := by norm_num
  have hj2 : j < 32 := by omega
  rw [e, e2, Nat.testBit_mod_two_pow, Nat.testBit_and, Nat.testBit_xor,
    Nat.testBit_two_pow_sub_one, Nat.testBit_two_pow]
  simp [hj, hj2, Bool.and_comm]

theorem and_low_byte (x : Nat) : x &&& 0xFF = x % 256 :=
  Nat.and_pow_two_sub_one_eq_mod x 8

theorem shiftRight_eight (x : Nat) : x >>> 8 = x / 256 := by
  rw [Nat.shiftRight_eq_div_pow]

theorem or_shiftLeft_eight (lo hi : Nat) (hlo : lo < 256) :
    lo ||| (hi <<< 8) = lo + 256 * hi := by
  rw [Nat.shiftLeft_eq, Nat.lor_comm, Nat.mul_comm hi (2 ^ 8),
    ← Nat.mul_add_lt_is_or (by simpa using hlo) hi]
  omega

theorem and_high_byte (x : Nat) : x &&& 0xFF00 = (x / 256 % 256) * 256 := by
  apply Nat.eq_of_testBit_eq
  intro i
  rw [Nat.testBit_and]
  have h1 : (0xFF00 : Nat) = 2 ^ 8 * (2 ^ 8 - 1) := by norm_num
  have h2 : (x / 256 % 256) * 256 = 2 ^ 8 * (x >>> 8 % 2 ^ 8) := by
    rw [Nat.shiftRight_eq_div_pow]; norm_num; ring
  rw [h1, h2, Nat.testBit_mul_pow_two, Nat.testBit_mul_pow_two]
  simp only [Nat.testBit_two_pow_sub_one, Nat.testBit_mod_two_pow, Nat.testBit_shiftRight]
  by_cases h : 8 ≤ i
  · have e : 8 + (i - 8) = i := by omega
    simp [h, e, Bool.and_comm]
  · simp [h]

theorem ramOfList_lt (cells : List (Nat × Nat)) (a : Nat) :
    (ramOfList cells).memory a < 256 :=
  Nat.mod_lt _ (by decide)

/-! ## Flag updates on a status byte -/

theorem Flags.mask_eq (f : Flags) : f.mask = 2 ^ f.bit := by
  cases f <;> rfl

theorem Flags.bit_lt (f : Flags) : f.bit < 8 := by
  cases f <;> decide

theorem Flags.bit_inj (f g : Flags) : f.bit = g.bit ↔ f = g := by
  cases f <;> cases g <;> decide

theorem flag_update_test (st : Nat) (c : Bool) (f g : Flags) :
    (((if c then Cpu6502.setFlag st f else Cpu6502.clearFlag st f) &&& g.mask) != 0) =
      if f = g then c else ((st &&& g.mask) != 0) := by
  have hinj := Flags.bit_inj f g
  cases c
  · simp only [Bool.false_eq_true, if_false, Cpu6502.clearFlag, Flags.mask_eq, and_pow_test,
      clear_bit_test st f.bit g.bit g.bit_lt]
    by_cases h : f = g
    · simp [h]
    · have h2 : ¬ f.bit = g.bit := fun e => h (hinj.1 e)
      simp [h, h2]
  · simp only [if_true, Cpu6502.setFlag, Flags.mask_eq, and_pow_test,
      set_bit_test st f.bit g.bit g.bit_lt]
    by_cases h : f = g
    · simp [h]
    · have h2 : ¬ f.bit = g.bit := fun e => h (hinj.1 e)
      simp [h, h2]

/-! ## Frame facts about the helpers -/

theorem updateFlag_eq (s : Cpu6502) (c : Bool) (f : Flags) :
    s.updateFlag c f =
      { s with status := if c then Cpu6502.setFlag s.status f
                         else Cpu6502.clearFlag s.status f } := by
  cases c <;> rfl

theorem checkPageCrossing_eq (s : Cpu6502) :
    s.checkPageCrossing =
      { s with cycles := if (s.currentAddress &&& HIGH_BYTE_MASK) ≠ (s.PC &&& HIGH_BYTE_MASK)
                         then (s.cycles + 1) % 256 else s.cycles } := by
  unfold Cpu6502.checkPageCrossing
  split <;> rfl

theorem runAddrFn_cycles (m : AddrFn) (s : Cpu6502) :
    (Cpu6502.runAddrFn m s).1.cycles = s.cycles := by
  cases m <;>
    simp only [Cpu6502.runAddrFn, Cpu6502.IMP, Cpu6502.IMM, Cpu6502.ZP0, Cpu6502.ZPX,
      Cpu6502.ZPY, Cpu6502.REL, Cpu6502.ABS, Cpu6502.ABX, Cpu6502.ABY, Cpu6502.IND,
      Cpu6502.IZX, Cpu6502.IZY] <;>
    (try split) <;> rfl

theorem runOperation_cycles (op : Operation) (s : Cpu6502) (h : op.isBranch = false) :
    (Cpu6502.runOperation op s).1.cycles = s.cycles := by
  cases op <;> first
    | (exact absurd h (by decide))
    | (simp only [Cpu6502.runOperation, Cpu6502.ADC, Cpu6502.AND, Cpu6502.ASL, Cpu6502.BIT,
        Cpu6502.BRK, Cpu6502.CLC, Cpu6502.CLD, Cpu6502.CLI, Cpu6502.CLV,
        Cpu6502.CMP, Cpu6502.CPX, Cpu6502.CPY, Cpu6502.CompareLogic, Cpu6502.DEC, Cpu6502.DEX,
        Cpu6502.DEY, Cpu6502.EOR, Cpu6502.INC, Cpu6502.INX, Cpu6502.INY, Cpu6502.JMP,
        Cpu6502.JSR, Cpu6502.LDA, Cpu6502.LDX, Cpu6502.LDY, Cpu6502.LSR, Cpu6502.NOP,
        Cpu6502.ORA, Cpu6502.PHA, Cpu6502.PHP, Cpu6502.PLA, Cpu6502.PLP, Cpu6502.ROL,
        Cpu6502.ROR, Cpu6502.RTI, Cpu6502.RTS, Cpu6502.SBC, Cpu6502.SEC, Cpu6502.SED,
        Cpu6502.SEI, Cpu6502.STA, Cpu6502.STX, Cpu6502.STY, Cpu6502.TAX, Cpu6502.TAY,
        Cpu6502.TSX, Cpu6502.TXA, Cpu6502.TXS, Cpu6502.TYA, Cpu6502.XXX,
        Cpu6502.updateZeroAndNegativeFlags, updateFlag_eq, Cpu6502.write]
       try (split <;> rfl))

/-! ## Reset (C1) -/

/-- C1: whatever the processor state and whatever bytes the RAM holds,
`reset` loads `PC` with the little-endian word at 0xFFFC/0xFFFD, zeroes `A`,
`X` and `Y`, sets `SP` to 0xFD, leaves only `U` set in the status byte
(0x20) and charges 8 cycles; with 0x34 and 0x12 at the vector `PC` is
0x1234. -/
theorem reset_loads_vector (s : Cpu6502) (hmem : ∀ a, s.bus.ram.memory a < 256) :
    (s.reset.PC = s.bus.read 0xFFFC ||| (s.bus.read 0xFFFD <<< 8)) ∧
    s.reset.A = 0 ∧ s.reset.X = 0 ∧ s.reset.Y = 0 ∧ s.reset.SP = 0xFD ∧
    s.reset.status = 0x20 ∧ s.reset.cycles = 8 ∧ s.reset.bus = s.bus ∧
    (s.bus.read 0xFFFC = 0x34 → s.bus.read 0xFFFD = 0x12 → s.reset.PC = 0x1234) := by
  have hlo : s.bus.read 0xFFFC < 256 := hmem _
  have hhi : s.bus.read 0xFFFD < 256 := hmem _
  have hpc : s.reset.PC = s.bus.read 0xFFFC ||| (s.bus.read 0xFFFD <<< 8) := by
    show (s.bus.read 0xFFFC ||| (s.bus.read 0xFFFD <<< 8)) % 65536 = _
    rw [or_shiftLeft_eight _ _ hlo]
    omega
  refine ⟨hpc, rfl, rfl, rfl, rfl, rfl, rfl, rfl, ?_⟩
  intro h1 h2
  rw [hpc, h1, h2]
  rfl

/-- The seed scenario of C1: 0x34 at 0xFFFC and 0x12 at 0xFFFD. -/
theorem reset_loads_vector_witness :
    (∀ a, (cpuOf 7 8 9 0 0 0xFF [(0xFFFC, 0x34), (0xFFFD, 0x12)]).bus.ram.memory a < 256) ∧
    (cpuOf 7 8 9 0 0 0xFF [(0xFFFC, 0x34), (0xFFFD, 0x12)]).reset.PC = 0x1234 ∧
    (cpuOf 7 8 9 0 0 0xFF [(0xFFFC, 0x34), (0xFFFD, 0x12)]).reset.status = 0x20 :=
  ⟨ramOfList_lt _,
   (reset_loads_vector _ (ramOfList_lt _)).2.2.2.2.2.2.2.2 (by decide) (by decide),
   (reset_loads_vector _ (ramOfList_lt _)).2.2.2.2.2.1⟩

/-! ## The execution engine while an instruction is in flight (C2) -/

/-- C2: a tick with `cycles > 0` only decrements `cycles`: the resulting state
is the old one with `cycles - 1`, so registers, status, transient fields and
the RAM are all untouched. -/
theorem clock_in_flight (T : Nat → Opcode6502) (s : Cpu6502)
    (hpos : 0 < s.cycles) (hlt : s.cycles < 256) :
    s.clock T = { s with cycles := s.cycles - 1 } := by
  have hne : ¬ s.cycles = 0 := by omega
  have hdec : (s.cycles + 256 - 1) % 256 = s.cycles - 1 := by omega
  simp only [Cpu6502.clock, hne, if_false, hdec]

/-- A tick of a processor with three cycles left (C2). -/
theorem clock_in_flight_witness :
    0 < ({ cpuOf 1 2 3 0xFD 0x8000 0x24 [(0x8000, 0xA9)] with cycles := 3 } : Cpu6502).cycles ∧
    ({ cpuOf 1 2 3 0xFD 0x8000 0x24 [(0x8000, 0xA9)] with cycles := 3 } : Cpu6502).clock
        sampleTable =
      { cpuOf 1 2 3 0xFD 0x8000 0x24 [(0x8000, 0xA9)] with cycles := 2 } :=
  ⟨by decide, clock_in_flight sampleTable _ (by decide) (by decide)⟩

/-! ## Cycle accounting of non-branch instructions (C3) -/

theorem fetchDecode_cycles (T : Nat → Opcode6502) (s : Cpu6502) :
    (s.fetchDecode T).cycles = (T (s.bus.read s.PC)).cycles := by
  simp only [Cpu6502.fetchDecode, updateFlag_eq]

theorem fetchDecode_opcode (T : Nat → Opcode6502) (s : Cpu6502) :
    (s.fetchDecode T).opcode = s.bus.read s.PC := by
  simp only [Cpu6502.fetchDecode, updateFlag_eq]

/-- C3: at an instruction boundary, for a table entry with baseline `n ≥ 1`
whose operation is not a branch, the fetching tick leaves
`cycles = n - 1 + p`, where `p = 1` exactly when the entry's addressing mode
reported a page cross and the operation is none of `STA`, `STX`, `STY`, and
`p = 0` otherwise; hence a store never pays the page-cross cycle. -/
theorem clock_page_cross_penalty (T : Nat → Opcode6502) (s : Cpu6502)
    (h0 : s.cycles = 0)
    (hn : 1 ≤ (T (s.bus.read s.PC)).cycles) (hlt : (T (s.bus.read s.PC)).cycles < 256)
    (hnb : (T (s.bus.read s.PC)).operate.isBranch = false) :
    (s.clock T).cycles =
        (T (s.bus.read s.PC)).cycles - 1 +
          (if (Cpu6502.runAddrFn (T (s.bus.read s.PC)).addrmode (s.fetchDecode T)).2 = true ∧
              (T (s.bus.read s.PC)).operate ≠ Operation.STA ∧
              (T (s.bus.read s.PC)).operate ≠ Operation.STX ∧
              (T (s.bus.read s.PC)).operate ≠ Operation.STY then 1 else 0) ∧
    (((T (s.bus.read s.PC)).operate = Operation.STA ∨
      (T (s.bus.read s.PC)).operate = Operation.STX ∨
      (T (s.bus.read s.PC)).operate = Operation.STY) →
        (s.clock T).cycles = (T (s.bus.read s.PC)).cycles - 1) := by
  have hop : (Cpu6502.runOperation (T (s.bus.read s.PC)).operate
      (Cpu6502.runAddrFn (T (s.bus.read s.PC)).addrmode (s.fetchDecode T)).1).1.cycles =
      (T (s.bus.read s.PC)).cycles := by
    rw [runOperation_cycles _ _ hnb, runAddrFn_cycles, fetchDecode_cycles]
  have hstore : Cpu6502.isStoreInstruction (T (s.bus.read s.PC)).operate = true ↔
      ((T (s.bus.read s.PC)).operate = Operation.STA ∨
       (T (s.bus.read s.PC)).operate = Operation.STX ∨
       (T (s.bus.read s.PC)).operate = Operation.STY) := by
    simp [Cpu6502.isStoreInstruction, or_assoc]
  have key : (s.clock T).cycles =
      (T (s.bus.read s.PC)).cycles - 1 +
        (if (Cpu6502.runAddrFn (T (s.bus.read s.PC)).addrmode (s.fetchDecode T)).2 = true ∧
            ¬ Cpu6502.isStoreInstruction (T (s.bus.read s.PC)).operate = true then 1 else 0) := by
    simp only [Cpu6502.clock, h0, if_true, fetchDecode_opcode]
    by_cases hc : (Cpu6502.runAddrFn (T (s.bus.read s.PC)).addrmode (s.fetchDecode T)).2 = true
    · by_cases hs : Cpu6502.isStoreInstruction (T (s.bus.read s.PC)).operate = true
      · simp only [hc, hs, Bool.not_true, Bool.and_false, hop, not_true, and_false, if_false]
        simp only [Bool.false_eq_true, if_false, hop]
        omega
      · simp only [hc, hs, Bool.not_eq_true] at *
        simp only [hs, Bool.not_false, Bool.and_true, if_true, hop, and_self]
        omega
    · simp only [Bool.not_eq_true] at hc
      simp only [hc, Bool.false_and, Bool.false_eq_true, if_false, hop, false_and]
      omega
  constructor
  · rw [key]
    congr 2
    rw [hstore]
    simp only [not_or, eq_iff_iff]
  · intro hst
    rw [key, if_neg]
    · rfl
    · rw [hstore]
      exact fun h => h.2 hst

/-- C3 on `LDA $10FF,X` with `X = 1` (baseline 4, page crossed: 4 cycles
left) and on `STA $10FF,X` (baseline 5, page crossed, no penalty: 4 left). -/
theorem clock_page_cross_penalty_witness :
    (cpuOf 0 1 0 0xFD 0x8000 0x24 [(0x8000, 0xBD), (0x8001, 0xFF), (0x8002, 0x10)]).cycles = 0 ∧
    ((cpuOf 0 1 0 0xFD 0x8000 0x24 [(0x8000, 0xBD), (0x8001, 0xFF), (0x8002, 0x10)]).clock
      sampleTable).cycles = 4 ∧
    ((cpuOf 0 1 0 0xFD 0x8000 0x24 [(0x8000, 0x9D), (0x8001, 0xFF), (0x8002, 0x10)]).clock
      sampleTable).cycles = 4 :=
  ⟨rfl,
   (clock_page_cross_penalty sampleTable
      (cpuOf 0 1 0 0xFD 0x8000 0x24 [(0x8000, 0xBD), (0x8001, 0xFF), (0x8002, 0x10)])
      rfl (by decide) (by decide) (by decide)).1.trans (by decide),
   (clock_page_cross_penalty sampleTable
      (cpuOf 0 1 0 0xFD 0x8000 0x24 [(0x8000, 0x9D), (0x8001, 0xFF), (0x8002, 0x10)])
      rfl (by decide) (by decide) (by decide)).2 (by decide)⟩

/-! ## Relative branches (C4) -/

theorem byte_and_sign (d : Nat) (hd : d < 256) : d &&& 0x80 = (d / 128) * 128 := by
  have h := and_pow_eq d 7
  simp only [Nat.reducePow] at h
  rw [h]
  omega

theorem byte_or_high (d : Nat) (hd : d < 256) : d ||| 0xFF00 = d + 0xFF00 := by
  have h := Nat.mul_add_lt_is_or (show d < 2 ^ 8 by simpa using hd) 255
  rw [Nat.lor_comm]
  have e : 2 ^ 8 * 255 = 0xFF00 := by decide
  rw [e] at h
  omega

theorem REL_eq (s : Cpu6502) (hd : s.bus.read s.PC < 256) :
    (Cpu6502.REL s).1 =
      { s with
        relativeAddress :=
          if s.bus.read s.PC < 128 then s.bus.read s.PC else s.bus.read s.PC + 0xFF00
        PC := (s.PC + 1) % 65536 } := by
  simp only [Cpu6502.REL, SIGN_BIT_MASK, HIGH_BYTE_MASK, byte_and_sign _ hd,
    byte_or_high _ hd]
  by_cases h : s.bus.read s.PC < 128
  · have h2 : ¬ (s.bus.read s.PC / 128 * 128 ≠ 0) := by omega
    simp only [h, h2, if_true, if_false]
  · have h2 : s.bus.read s.PC / 128 * 128 ≠ 0 := by omega
    have h3 : (s.bus.read s.PC + 65280) % 65536 = s.bus.read s.PC + 65280 := by omega
    simp only [h, h2, if_true, if_false, h3, ne_eq, not_false_eq_true]

theorem branchTaken_frame (s : Cpu6502) :
    s.branchTaken.PC = (s.PC + s.relativeAddress) % 65536 ∧
    s.branchTaken.A = s.A ∧ s.branchTaken.X = s.X ∧ s.branchTaken.Y = s.Y ∧
    s.branchTaken.SP = s.SP ∧ s.branchTaken.status = s.status ∧
    s.branchTaken.bus = s.bus := by
  simp only [Cpu6502.branchTaken, checkPageCrossing_eq, and_self]

/-- C4: let a branch handler run right after `REL` has read the offset byte
`d` at `PC`, and let `p` be the `PC` behind the operand.  For each of the eight
branches with its flag and the value that flag must have (`BCC`: C = 0,
`BCS`: C = 1, `BEQ`: Z = 1, `BNE`: Z = 0, `BMI`: N = 1, `BPL`: N = 0,
`BVC`: V = 0, `BVS`: V = 1): if the flag has that value `PC` becomes
`(p + signext8 d) mod 2^16`, otherwise `PC` stays `p`; `A`, `X`, `Y`, `SP`
and the status byte are unchanged either way. -/
theorem branch_after_REL (s : Cpu6502) (op : Operation) (flag : Flags) (v : Bool)
    (hop : (op, flag, v) ∈
      [(Operation.BCC, Flags.C, false), (Operation.BCS, Flags.C, true),
       (Operation.BEQ, Flags.Z, true), (Operation.BNE, Flags.Z, false),
       (Operation.BMI, Flags.N, true), (Operation.BPL, Flags.N, false),
       (Operation.BVC, Flags.V, false), (Operation.BVS, Flags.V, true)])
    (hd : s.bus.read s.PC < 256) :
    (Cpu6502.REL s).1.PC = (s.PC + 1) % 65536 ∧
    (s.getFlag flag = v →
      ((Cpu6502.runOperation op (Cpu6502.REL s).1).1.PC : Int) =
        ((((s.PC + 1) % 65536 : Nat) : Int) +
          (if s.bus.read s.PC < 128 then (s.bus.read s.PC : Int)
           else (s.bus.read s.PC : Int) - 256)) % 65536) ∧
    (s.getFlag flag ≠ v →
      (Cpu6502.runOperation op (Cpu6502.REL s).1).1.PC = (s.PC + 1) % 65536) ∧
    (Cpu6502.runOperation op (Cpu6502.REL s).1).1.A = s.A ∧
    (Cpu6502.runOperation op (Cpu6502.REL s).1).1.X = s.X ∧
    (Cpu6502.runOperation op (Cpu6502.REL s).1).1.Y = s.Y ∧
    (Cpu6502.runOperation op (Cpu6502.REL s).1).1.SP = s.SP ∧
    (Cpu6502.runOperation op (Cpu6502.REL s).1).1.status = s.status := by
  have hf : ∀ f, (Cpu6502.REL s).1.getFlag f = s.getFlag f := by
    intro f; rw [REL_eq s hd]; rfl
  have hfr := branchTaken_frame (Cpu6502.REL s).1
  have hPC : (Cpu6502.REL s).1.PC = (s.PC + 1) % 65536 := by rw [REL_eq s hd]
  have hrel : (Cpu6502.REL s).1.relativeAddress =
      if s.bus.read s.PC < 128 then s.bus.read s.PC else s.bus.read s.PC + 0xFF00 := by
    rw [REL_eq s hd]
  have hA : (Cpu6502.REL s).1.A = s.A := by rw [REL_eq s hd]
  have hX : (Cpu6502.REL s).1.X = s.X := by rw [REL_eq s hd]
  have hY : (Cpu6502.REL s).1.Y = s.Y := by rw [REL_eq s hd]
  have hSP : (Cpu6502.REL s).1.SP = s.SP := by rw [REL_eq s hd]
  have hst : (Cpu6502.REL s).1.status = s.status := by rw [REL_eq s hd]
  refine ⟨hPC, ?_⟩
  fin_cases hop <;>
    (simp only [Cpu6502.runOperation, Cpu6502.BCC, Cpu6502.BCS, Cpu6502.BEQ, Cpu6502.BNE,
      Cpu6502.BMI, Cpu6502.BPL, Cpu6502.BVC, Cpu6502.BVS, hf]
     cases hfl : s.getFlag _
     all_goals simp [hfr, hPC, hrel, hA, hX, hY, hSP, hst]
     all_goals (split <;> omega))

/-- C4 on the seed scenario: `BEQ` fetched at 0x8000 with offset 0xFB and `Z`
set ends at 0x7FFD; with `Z` clear `PC` stays 0x8002. -/
theorem branch_after_REL_witness :
    (cpuOf 0 0 0 0xFD 0x8001 0x22 [(0x8000, 0xF0), (0x8001, 0xFB)]).bus.read 0x8001 < 256 ∧
    ((Cpu6502.runOperation Operation.BEQ
      (Cpu6502.REL (cpuOf 0 0 0 0xFD 0x8001 0x22 [(0x8000, 0xF0), (0x8001, 0xFB)])).1).1.PC
        : Int) = 0x7FFD ∧
    (Cpu6502.runOperation Operation.BEQ
      (Cpu6502.REL (cpuOf 0 0 0 0xFD 0x8001 0x20 [(0x8000, 0xF0), (0x8001, 0xFB)])).1).1.PC
        = 0x8002 :=
  ⟨by decide,
   ((branch_after_REL (cpuOf 0 0 0 0xFD 0x8001 0x22 [(0x8000, 0xF0), (0x8001, 0xFB)])
      Operation.BEQ Flags.Z true (by decide) (by decide)).2.1 (by decide)).trans (by decide),
   ((branch_after_REL (cpuOf 0 0 0 0xFD 0x8001 0x20 [(0x8000, 0xF0), (0x8001, 0xFB)])
      Operation.BEQ Flags.Z true (by decide) (by decide)).2.2.1 (by decide)).trans (by decide)⟩

/-! ## Cycle accounting of branches (C5) -/

theorem fetchDecode_eq (T : Nat → Opcode6502) (s : Cpu6502) :
    s.fetchDecode T =
      { s with
        opcode := s.bus.read s.PC
        PC := (s.PC + 1) % 65536
        status := Cpu6502.setFlag s.status Flags.U
        cycles := (T (s.bus.read s.PC)).cycles
        currentAddressingMode := Cpu6502.mapAddressMode (T (s.bus.read s.PC)).addrmode } := by
  simp only [Cpu6502.fetchDecode, updateFlag_eq, if_true]

theorem read_mod (b : FlatBus) (a : Nat) : b.read (a % 65536) = b.read a := by
  simp only [FlatBus.read, Nat.mod_mod]

theorem getFlag_setFlag_U (s : Cpu6502) (f : Flags) (hf : f ≠ Flags.U) :
    ({ s with status := Cpu6502.setFlag s.status Flags.U } : Cpu6502).getFlag f =
      s.getFlag f := by
  have h := flag_update_test s.status true Flags.U f
  have hne : ¬ Flags.U = f := fun e => hf e.symm
  simp only [if_true, hne, if_false] at h
  exact h

theorem branch_page_arith (p d : Nat) (hp : p < 65536) (hd : d < 256) :
    ((p + (if d < 128 then d else d + 0xFF00)) % 65536 / 256 % 256 * 256 ≠
        p / 256 % 256 * 256) ↔
      (((p : Int) + (if d < 128 then (d : Int) else (d : Int) - 256)) % 65536 / 256 ≠
        (p : Int) / 256) := by
  by_cases h : d < 128
  · simp only [h, if_true]
    omega
  · simp only [h, if_false]
    omega

theorem branch_cycles (s : Cpu6502) (op : Operation) (flag : Flags) (v : Bool)
    (hop : (op, flag, v) ∈
      [(Operation.BCC, Flags.C, false), (Operation.BCS, Flags.C, true),
       (Operation.BEQ, Flags.Z, true), (Operation.BNE, Flags.Z, false),
       (Operation.BMI, Flags.N, true), (Operation.BPL, Flags.N, false),
       (Operation.BVC, Flags.V, false), (Operation.BVS, Flags.V, true)]) :
    (Cpu6502.runOperation op s).1.cycles =
      if s.getFlag flag = v then
        (if ((s.PC + s.relativeAddress) % 65536) / 256 % 256 * 256 ≠ s.PC / 256 % 256 * 256
         then ((s.cycles + 1) % 256 + 1) % 256 else (s.cycles + 1) % 256)
      else s.cycles := by
  fin_cases hop <;>
    (simp only [Cpu6502.runOperation, Cpu6502.BCC, Cpu6502.BCS, Cpu6502.BEQ, Cpu6502.BNE,
      Cpu6502.BMI, Cpu6502.BPL, Cpu6502.BVC, Cpu6502.BVS]
     cases hfl : s.getFlag _
     all_goals simp [Cpu6502.branchTaken, checkPageCrossing_eq, HIGH_BYTE_MASK, and_high_byte])

/-- C5: a branch entry (one of the eight branch handlers, `REL` mode, baseline
`n` with `1 ≤ n` and `n + 1` within the 8-bit counter) fetched at an
instruction boundary, with `p` the `PC` behind the operand and the target
`(p + signext8 d) mod 2^16`: the fetching tick leaves `cycles = n - 1` when
the branch is not taken, `n` when it is taken and target and `p` have the same
high byte, and `n + 1` when it is taken and the high bytes differ. -/
theorem clock_branch_cycles (T : Nat → Opcode6502) (s : Cpu6502)
    (op : Operation) (flag : Flags) (v : Bool) (n d : Nat)
    (hop : (op, flag, v) ∈
      [(Operation.BCC, Flags.C, false), (Operation.BCS, Flags.C, true),
       (Operation.BEQ, Flags.Z, true), (Operation.BNE, Flags.Z, false),
       (Operation.BMI, Flags.N, true), (Operation.BPL, Flags.N, false),
       (Operation.BVC, Flags.V, false), (Operation.BVS, Flags.V, true)])
    (h0 : s.cycles = 0)
    (hoperate : (T (s.bus.read s.PC)).operate = op)
    (haddrmode : (T (s.bus.read s.PC)).addrmode = AddrFn.REL)
    (hcycles : (T (s.bus.read s.PC)).cycles = n) (hn1 : 1 ≤ n) (hn2 : n + 1 < 256)
    (hd : s.bus.read (s.PC + 1) = d) (hdlt : d < 256) :
    (s.getFlag flag ≠ v → (s.clock T).cycles = n - 1) ∧
    (s.getFlag flag = v →
      ((((s.PC + 2) % 65536 : Nat) : Int) +
          (if d < 128 then (d : Int) else (d : Int) - 256)) % 65536 / 256 =
        (((s.PC + 2) % 65536 : Nat) : Int) / 256 →
      (s.clock T).cycles = n) ∧
    (s.getFlag flag = v →
      ((((s.PC + 2) % 65536 : Nat) : Int) +
          (if d < 128 then (d : Int) else (d : Int) - 256)) % 65536 / 256 ≠
        (((s.PC + 2) % 65536 : Nat) : Int) / 256 →
      (s.clock T).cycles = n + 1) := by
  have hflag_ne : flag ≠ Flags.U := by
    fin_cases hop <;> decide
  have hstore : Cpu6502.isStoreInstruction op = false := by
    fin_cases hop <;> rfl
  have hd1 : (s.fetchDecode T).bus.read (s.fetchDecode T).PC < 256 := by
    rw [fetchDecode_eq]
    show s.bus.read ((s.PC + 1) % 65536) < 256
    rw [read_mod, hd]
    exact hdlt
  have hR := REL_eq (s.fetchDecode T) hd1
  have hbus : (s.fetchDecode T).bus.read (s.fetchDecode T).PC = d := by
    rw [fetchDecode_eq]
    show s.bus.read ((s.PC + 1) % 65536) = d
    rw [read_mod, hd]
  rw [hbus] at hR
  have hgf : (Cpu6502.REL (s.fetchDecode T)).1.getFlag flag = s.getFlag flag := by
    rw [hR, fetchDecode_eq]
    exact getFlag_setFlag_U s flag hflag_ne
  have hPC : (Cpu6502.REL (s.fetchDecode T)).1.PC = (s.PC + 2) % 65536 := by
    rw [hR, fetchDecode_eq]
    show ((s.PC + 1) % 65536 + 1) % 65536 = _
    omega
  have hrel : (Cpu6502.REL (s.fetchDecode T)).1.relativeAddress =
      if d < 128 then d else d + 0xFF00 := by
    rw [hR]
  have hcyc : (Cpu6502.REL (s.fetchDecode T)).1.cycles = n := by
    rw [hR, fetchDecode_eq]
    exact hcycles
  have hb := branch_cycles (Cpu6502.REL (s.fetchDecode T)).1 op flag v hop
  rw [hgf, hPC, hrel, hcyc] at hb
  have key : (s.clock T).cycles =
      ((Cpu6502.runOperation op (Cpu6502.REL (s.fetchDecode T)).1).1.cycles + 256 - 1) % 256 := by
    simp only [Cpu6502.clock, h0, if_true, fetchDecode_opcode, hoperate, haddrmode, hstore,
      Cpu6502.runAddrFn, Cpu6502.REL, Bool.false_and, Bool.false_eq_true, if_false]
  have hpg := branch_page_arith ((s.PC + 2) % 65536) d (Nat.mod_lt _ (by decide)) hdlt
  rw [key, hb]
  clear key hb hR hbus hgf hPC hrel hcyc hd1
  refine ⟨?_, ?_, ?_⟩
  · intro hne
    rw [if_neg hne]
    omega
  · intro heq hpage
    rw [if_pos heq, if_neg (fun h => (hpg.1 h) hpage)]
    omega
  · intro heq hpage
    rw [if_pos heq, if_pos (hpg.2 hpage)]
    omega

/-- C5 on the seed scenario: `BEQ $FB` at 0x8000 with `Z` set (baseline 2,
taken, target 0x7FFD in another page than 0x8002) leaves 3 cycles after the
fetching tick, i.e. baseline + 2 ticks in all; with `Z` clear it leaves 1. -/
theorem clock_branch_cycles_witness :
    (cpuOf 0 0 0 0xFD 0x8000 0x22 [(0x8000, 0xF0), (0x8001, 0xFB)]).cycles = 0 ∧
    (sampleTable ((cpuOf 0 0 0 0xFD 0x8000 0x22 [(0x8000, 0xF0), (0x8001, 0xFB)]).bus.read
      0x8000)).cycles = 2 ∧
    ((cpuOf 0 0 0 0xFD 0x8000 0x22 [(0x8000, 0xF0), (0x8001, 0xFB)]).clock sampleTable).cycles
      = 2 + 1 ∧
    ((cpuOf 0 0 0 0xFD 0x8000 0x20 [(0x8000, 0xF0), (0x8001, 0xFB)]).clock sampleTable).cycles
      = 2 - 1 :=
  ⟨rfl, by decide,
   (clock_branch_cycles sampleTable
      (cpuOf 0 0 0 0xFD 0x8000 0x22 [(0x8000, 0xF0), (0x8001, 0xFB)])
      Operation.BEQ Flags.Z true 2 0xFB (by decide) rfl (by decide) (by decide) (by decide)
      (by decide) (by decide) (by decide) (by decide)).2.2 (by decide) (by decide),
   (clock_branch_cycles sampleTable
      (cpuOf 0 0 0 0xFD 0x8000 0x20 [(0x8000, 0xF0), (0x8001, 0xFB)])
      Operation.BEQ Flags.Z true 2 0xFB (by decide) rfl (by decide) (by decide) (by decide)
      (by decide) (by decide) (by decide) (by decide)).1 (by decide)⟩

/-! ## ADC (C6) -/

/-- C6: with accumulator `A`, memory operand `M` (the byte `read` delivers for
the effective address) and carry-in `c`, `ADC` leaves `A = (A + M + c) mod 256`,
`C` set exactly when `A + M + c > 255`, `Z` set exactly when the new `A` is 0
and `N` equal to bit 7 of the new `A`; `X`, `Y`, `SP`, `PC` and the bus are
unchanged. -/
theorem ADC_spec (s : Cpu6502) (hA : s.A < 256) (hM : s.read s.currentAddress < 256) :
    (Cpu6502.ADC s).1.A =
      (s.A + s.read s.currentAddress + (s.getFlag Flags.C).toNat) % 256 ∧
    ((Cpu6502.ADC s).1.getFlag Flags.C = true ↔
      s.A + s.read s.currentAddress + (s.getFlag Flags.C).toNat > 255) ∧
    ((Cpu6502.ADC s).1.getFlag Flags.Z = true ↔ (Cpu6502.ADC s).1.A = 0) ∧
    ((Cpu6502.ADC s).1.getFlag Flags.N = true ↔ (Cpu6502.ADC s).1.A / 128 % 2 = 1) ∧
    (Cpu6502.ADC s).1.X = s.X ∧ (Cpu6502.ADC s).1.Y = s.Y ∧ (Cpu6502.ADC s).1.SP = s.SP ∧
    (Cpu6502.ADC s).1.PC = s.PC ∧ (Cpu6502.ADC s).1.bus = s.bus := by
  have hc : (s.status &&& Flags.C.mask != 0).toNat ≤ 1 := by
    cases (s.status &&& Flags.C.mask != 0) <;> decide
  have hsum : (s.A + s.read s.currentAddress + (s.status &&& Flags.C.mask != 0).toNat) % 65536 =
      s.A + s.read s.currentAddress + (s.status &&& Flags.C.mask != 0).toNat := by omega
  have h80 := and_pow_eq
    (s.A + s.read s.currentAddress + (s.status &&& Flags.C.mask != 0).toNat) 7
  simp only [Nat.reducePow] at h80
  simp only [Cpu6502.ADC, Cpu6502.updateZeroAndNegativeFlags, updateFlag_eq, Cpu6502.getFlag,
    flag_update_test, LOW_BYTE_MASK, SIGN_BIT_MASK, and_low_byte, Nat.mod_mod, hsum, h80]
  refine ⟨trivial, ?_, ?_, ?_, trivial, trivial, trivial, trivial, trivial⟩
  · simp
  · simp
  · simp
    omega

/-- C6 on the seed scenario `ADC #$50` with `A = 0x50` and carry clear:
`A = 0xA0`, `C = 0`, `Z = 0`, `N = 1`, `V = 1`. -/
theorem ADC_spec_witness :
    (cpuAt AddressingMode.IMM 0x8001
      (cpuOf 0x50 0 0 0xFD 0x8002 0x20 [(0x8000, 0x69), (0x8001, 0x50)])).read 0x8001 = 0x50 ∧
    (Cpu6502.ADC (cpuAt AddressingMode.IMM 0x8001
      (cpuOf 0x50 0 0 0xFD 0x8002 0x20 [(0x8000, 0x69), (0x8001, 0x50)]))).1.A = 0xA0 ∧
    (Cpu6502.ADC (cpuAt AddressingMode.IMM 0x8001
      (cpuOf 0x50 0 0 0xFD 0x8002 0x20 [(0x8000, 0x69), (0x8001, 0x50)]))).1.getFlag Flags.N
        = true ∧
    (Cpu6502.ADC (cpuAt AddressingMode.IMM 0x8001
      (cpuOf 0x50 0 0 0xFD 0x8002 0x20 [(0x8000, 0x69), (0x8001, 0x50)]))).1.getFlag Flags.C
        = false ∧
    (Cpu6502.ADC (cpuAt AddressingMode.IMM 0x8001
      (cpuOf 0x50 0 0 0xFD 0x8002 0x20 [(0x8000, 0x69), (0x8001, 0x50)]))).1.getFlag Flags.Z
        = false ∧
    (Cpu6502.ADC (cpuAt AddressingMode.IMM 0x8001
      (cpuOf 0x50 0 0 0xFD 0x8002 0x20 [(0x8000, 0x69), (0x8001, 0x50)]))).1.getFlag Flags.V
        = true :=
  ⟨by decide,
   (ADC_spec (cpuAt AddressingMode.IMM 0x8001
      (cpuOf 0x50 0 0 0xFD 0x8002 0x20 [(0x8000, 0x69), (0x8001, 0x50)]))
      (by decide) (by decide)).1.trans (by decide),
   (ADC_spec (cpuAt AddressingMode.IMM 0x8001
      (cpuOf 0x50 0 0 0xFD 0x8002 0x20 [(0x8000, 0x69), (0x8001, 0x50)]))
      (by decide) (by decide)).2.2.2.1.2 (by decide),
   by decide, by decide, by decide⟩

/-! ## Interrupts (C7-C10) -/

theorem read_write (b : FlatBus) (a d x : Nat) :
    (b.write a d).read x = if x % 65536 = a % 65536 then d % 256 else b.read x := by
  simp only [FlatBus.read, FlatBus.write, RAM.read, RAM.write]

theorem stack_or (x : Nat) (hx : x < 256) : 0x0100 ||| x = 0x0100 + x := by
  have h := Nat.mul_add_lt_is_or (show x < 2 ^ 8 by simpa using hx) 1
  simp only [Nat.reducePow, Nat.mul_one] at h
  exact h.symm

theorem executeInterrupt_eq (s : Cpu6502) :
    s.executeInterrupt =
      { s with
        bus := ((s.bus.write ((0x0100 + s.SP) % 65536) (s.PC / 256 % 256 % 256)).write
                  ((0x0100 + (s.SP + 256 - 1) % 256) % 65536) (s.PC % 256 % 256)).write
                  ((0x0100 + ((s.SP + 256 - 1) % 256 + 256 - 1) % 256) % 65536)
                  (Cpu6502.setFlag (Cpu6502.clearFlag s.status Flags.B) Flags.U)
        SP := (((s.SP + 256 - 1) % 256 + 256 - 1) % 256 + 256 - 1) % 256
        status := Cpu6502.setFlag
          (Cpu6502.setFlag (Cpu6502.clearFlag s.status Flags.B) Flags.U) Flags.I
        PC := ((((s.bus.write ((0x0100 + s.SP) % 65536) (s.PC / 256 % 256 % 256)).write
                  ((0x0100 + (s.SP + 256 - 1) % 256) % 65536) (s.PC % 256 % 256)).write
                  ((0x0100 + ((s.SP + 256 - 1) % 256 + 256 - 1) % 256) % 65536)
                  (Cpu6502.setFlag (Cpu6502.clearFlag s.status Flags.B) Flags.U)).read 0xFFFE |||
               ((((s.bus.write ((0x0100 + s.SP) % 65536) (s.PC / 256 % 256 % 256)).write
                  ((0x0100 + (s.SP + 256 - 1) % 256) % 65536) (s.PC % 256 % 256)).write
                  ((0x0100 + ((s.SP + 256 - 1) % 256 + 256 - 1) % 256) % 65536)
                  (Cpu6502.setFlag (Cpu6502.clearFlag s.status Flags.B) Flags.U)).read 0xFFFF
                    <<< 8)) % 65536 } := by
  simp only [Cpu6502.executeInterrupt, Cpu6502.write, updateFlag_eq, STACK_BASE_ADDRESS,
    LOW_BYTE_MASK, and_low_byte, shiftRight_eight, if_true, Bool.false_eq_true, if_false]

theorem executeInterrupt_effect (s : Cpu6502) (hSP : s.SP < 256) :
    s.executeInterrupt.bus.read (0x0100 + s.SP) = s.PC / 256 % 256 ∧
    s.executeInterrupt.bus.read (0x0100 + (s.SP + 256 - 1) % 256) = s.PC % 256 ∧
    s.executeInterrupt.bus.read (0x0100 + (s.SP + 256 - 2) % 256) =
      Cpu6502.setFlag (Cpu6502.clearFlag s.status Flags.B) Flags.U ∧
    (∀ x, ¬ (0x0100 ≤ x % 65536 ∧ x % 65536 < 0x0200) →
      s.executeInterrupt.bus.read x = s.bus.read x) ∧
    s.executeInterrupt.SP = (s.SP + 256 - 3) % 256 ∧
    s.executeInterrupt.status =
      Cpu6502.setFlag (Cpu6502.setFlag (Cpu6502.clearFlag s.status Flags.B) Flags.U) Flags.I ∧
    s.executeInterrupt.PC = (s.bus.read 0xFFFE ||| (s.bus.read 0xFFFF <<< 8)) % 65536 ∧
    s.executeInterrupt.A = s.A ∧ s.executeInterrupt.X = s.X ∧ s.executeInterrupt.Y = s.Y ∧
    s.executeInterrupt.cycles = s.cycles := by
  have hU : Cpu6502.setFlag (Cpu6502.clearFlag s.status Flags.B) Flags.U % 256 =
      Cpu6502.setFlag (Cpu6502.clearFlag s.status Flags.B) Flags.U :=
    Nat.mod_eq_of_lt (Nat.mod_lt _ (by decide))
  have hout : ∀ x, ¬ (0x0100 ≤ x % 65536 ∧ x % 65536 < 0x0200) →
      s.executeInterrupt.bus.read x = s.bus.read x := by
    intro x hx
    rw [executeInterrupt_eq]
    simp only [read_write]
    rw [if_neg (by omega), if_neg (by omega), if_neg (by omega)]
  refine ⟨?_, ?_, ?_, hout, ?_, ?_, ?_, ?_, ?_, ?_, ?_⟩
  · rw [executeInterrupt_eq]
    simp only [read_write]
    rw [if_neg (by omega), if_neg (by omega), if_pos (by omega)]
    omega
  · rw [executeInterrupt_eq]
    simp only [read_write]
    rw [if_neg (by omega), if_pos (by omega)]
    omega
  · rw [executeInterrupt_eq]
    simp only [read_write]
    rw [if_pos (by omega), hU]
  · rw [executeInterrupt_eq]
    show (((s.SP + 256 - 1) % 256 + 256 - 1) % 256 + 256 - 1) % 256 = _
    omega
  · rw [executeInterrupt_eq]
  · have h1 := hout 0xFFFE (by decide)
    have h2 := hout 0xFFFF (by decide)
    rw [← h1, ← h2]
    rw [executeInterrupt_eq]
  · rw [executeInterrupt_eq]
  · rw [executeInterrupt_eq]
  · rw [executeInterrupt_eq]
  · rw [executeInterrupt_eq]

theorem setFlag_test (st : Nat) (f g : Flags) :
    ((Cpu6502.setFlag st f &&& g.mask) != 0) = if f = g then true else ((st &&& g.mask) != 0) := by
  have h := flag_update_test st true f g
  simp only [if_true] at h
  exact h

theorem clearFlag_test (st : Nat) (f g : Flags) :
    ((Cpu6502.clearFlag st f &&& g.mask) != 0) =
      if f = g then false else ((st &&& g.mask) != 0) := by
  have h := flag_update_test st false f g
  simp only [Bool.false_eq_true, if_false] at h
  exact h

/-- C7: with `I` clear, `irq()` stores the high byte of `PC` at `0x0100|SP`,
the low byte at `0x0100|((SP-1) mod 256)` and, at `0x0100|((SP-2) mod 256)`,
the status byte with `B` cleared, `U` set and every other flag (so `I`, still
clear) as before; it lowers `SP` by 3 mod 256, sets `I`, loads `PC` from the
little-endian vector at 0xFFFE/0xFFFF and sets `cycles` to 7. -/
theorem interrupt_sequence (s : Cpu6502) (hI : s.getFlag Flags.I = false)
    (hSP : s.SP < 256) (hPC : s.PC < 65536) (hmem : ∀ a, s.bus.ram.memory a < 256) :
    s.interrupt.bus.read (0x0100 ||| s.SP) = s.PC / 256 ∧
    s.interrupt.bus.read (0x0100 ||| ((s.SP + 256 - 1) % 256)) = s.PC % 256 ∧
    (∀ g : Flags,
      ((s.interrupt.bus.read (0x0100 ||| ((s.SP + 256 - 2) % 256)) &&& g.mask) != 0) =
        if g = Flags.B then false else if g = Flags.U then true else s.getFlag g) ∧
    ((s.interrupt.bus.read (0x0100 ||| ((s.SP + 256 - 2) % 256)) &&& Flags.I.mask) != 0)
      = false ∧
    s.interrupt.SP = (s.SP + 256 - 3) % 256 ∧
    s.interrupt.getFlag Flags.I = true ∧
    s.interrupt.PC = s.bus.read 0xFFFE ||| (s.bus.read 0xFFFF <<< 8) ∧
    s.interrupt.cycles = 7 := by
  have hE := executeInterrupt_effect s hSP
  have hint : s.interrupt = { s.executeInterrupt with cycles := 7 } := by
    simp only [Cpu6502.interrupt, hI, Bool.not_false, if_true]
  have hbus : s.interrupt.bus = s.executeInterrupt.bus := by rw [hint]
  have hpushed : ∀ g : Flags,
      ((s.interrupt.bus.read (0x0100 ||| ((s.SP + 256 - 2) % 256)) &&& g.mask) != 0) =
        if g = Flags.B then false else if g = Flags.U then true else s.getFlag g := by
    intro g
    rw [hbus, stack_or _ (Nat.mod_lt _ (by decide)), hE.2.2.1, setFlag_test, clearFlag_test]
    by_cases hU : Flags.U = g
    · subst hU
      simp
    · by_cases hB : Flags.B = g
      · subst hB
        simp
      · have hU2 : ¬ g = Flags.U := fun e => hU e.symm
        have hB2 : ¬ g = Flags.B := fun e => hB e.symm
        simp only [hU, hB, hU2, hB2, if_false, Cpu6502.getFlag]
  refine ⟨?_, ?_, hpushed, ?_, ?_, ?_, ?_, ?_⟩
  · rw [hbus, stack_or _ hSP, hE.1]
    omega
  · rw [hbus, stack_or _ (Nat.mod_lt _ (by decide)), hE.2.1]
  · rw [hpushed Flags.I, hI]
    simp
  · rw [hint]
    exact hE.2.2.2.2.1
  · rw [hint]
    show (s.executeInterrupt.status &&& Flags.I.mask != 0) = true
    rw [hE.2.2.2.2.2.1, setFlag_test]
    simp
  · have hlo : s.bus.read 0xFFFE < 256 := hmem _
    have hhi : s.bus.read 0xFFFF < 256 := hmem _
    rw [hint]
    show s.executeInterrupt.PC = _
    rw [hE.2.2.2.2.2.2.1, or_shiftLeft_eight _ _ hlo]
    omega
  · rw [hint]

/-- C7 on a processor with `PC = 0x1234`, `SP = 0xFD`, status 0x30 and the
vector 0x9000: the stack receives 0x12, 0x34, 0x20 and `PC` becomes 0x9000. -/
theorem interrupt_sequence_witness :
    (cpuOf 1 2 3 0xFD 0x1234 0x30 [(0xFFFE, 0x00), (0xFFFF, 0x90)]).getFlag Flags.I = false ∧
    (cpuOf 1 2 3 0xFD 0x1234 0x30 [(0xFFFE, 0x00), (0xFFFF, 0x90)]).interrupt.bus.read 0x01FD
      = 0x12 ∧
    (cpuOf 1 2 3 0xFD 0x1234 0x30 [(0xFFFE, 0x00), (0xFFFF, 0x90)]).interrupt.bus.read 0x01FC
      = 0x34 ∧
    (cpuOf 1 2 3 0xFD 0x1234 0x30 [(0xFFFE, 0x00), (0xFFFF, 0x90)]).interrupt.bus.read 0x01FB
      = 0x20 ∧
    (cpuOf 1 2 3 0xFD 0x1234 0x30 [(0xFFFE, 0x00), (0xFFFF, 0x90)]).interrupt.SP = 0xFA ∧
    (cpuOf 1 2 3 0xFD 0x1234 0x30 [(0xFFFE, 0x00), (0xFFFF, 0x90)]).interrupt.PC = 0x9000 ∧
    (cpuOf 1 2 3 0xFD 0x1234 0x30 [(0xFFFE, 0x00), (0xFFFF, 0x90)]).interrupt.cycles = 7 :=
  ⟨by decide,
   (interrupt_sequence (cpuOf 1 2 3 0xFD 0x1234 0x30 [(0xFFFE, 0x00), (0xFFFF, 0x90)])
      (by decide) (by decide) (by decide) (ramOfList_lt _)).1,
   (interrupt_sequence (cpuOf 1 2 3 0xFD 0x1234 0x30 [(0xFFFE, 0x00), (0xFFFF, 0x90)])
      (by decide) (by decide) (by decide) (ramOfList_lt _)).2.1,
   by decide,
   (interrupt_sequence (cpuOf 1 2 3 0xFD 0x1234 0x30 [(0xFFFE, 0x00), (0xFFFF, 0x90)])
      (by decide) (by decide) (by decide) (ramOfList_lt _)).2.2.2.2.1,
   (interrupt_sequence (cpuOf 1 2 3 0xFD 0x1234 0x30 [(0xFFFE, 0x00), (0xFFFF, 0x90)])
      (by decide) (by decide) (by decide) (ramOfList_lt _)).2.2.2.2.2.2.1.trans (by decide),
   (interrupt_sequence (cpuOf 1 2 3 0xFD 0x1234 0x30 [(0xFFFE, 0x00), (0xFFFF, 0x90)])
      (by decide) (by decide) (by decide) (ramOfList_lt _)).2.2.2.2.2.2.2⟩

/-- C8: with `I` set, `irq()` is ignored: the processor state, and with it
`A`, `X`, `Y`, `SP`, `PC`, status, `cycles` and the whole RAM, is returned
unchanged. -/
theorem interrupt_masked (s : Cpu6502) (hI : s.getFlag Flags.I = true) :
    s.interrupt = s := by
  simp only [Cpu6502.interrupt, hI, Bool.not_true, Bool.false_eq_true, if_false]

/-- C8 on a processor with status 0x24 (`I` and `U` set) in mid-instruction. -/
theorem interrupt_masked_witness :
    ({ cpuOf 1 2 3 0xFD 0x1234 0x24 [(0xFFFE, 0x00), (0xFFFF, 0x90)] with cycles := 2 }
      : Cpu6502).getFlag Flags.I = true ∧
    ({ cpuOf 1 2 3 0xFD 0x1234 0x24 [(0xFFFE, 0x00), (0xFFFF, 0x90)] with cycles := 2 }
      : Cpu6502).interrupt =
      { cpuOf 1 2 3 0xFD 0x1234 0x24 [(0xFFFE, 0x00), (0xFFFF, 0x90)] with cycles := 2 } :=
  ⟨by decide, interrupt_masked _ (by decide)⟩

/-- C9, evaluated: with 0x8000 in the NMI vector (0xFFFA/0xFFFB) and 0x9000 in
the IRQ vector (0xFFFE/0xFFFF), `nmi()` pushes 0x12, 0x34 and the status 0x20,
sets `I`, charges 8 cycles, and loads `PC` with 0x9000, the word of the IRQ
vector, not with the 0x8000 of the NMI vector. -/
theorem nonMaskableInterrupt_reads_irq_vector :
    (cpuOf 1 2 3 0xFD 0x1234 0x30
      [(0xFFFA, 0x00), (0xFFFB, 0x80), (0xFFFE, 0x00), (0xFFFF, 0x90)]).bus.read 0xFFFA |||
      ((cpuOf 1 2 3 0xFD 0x1234 0x30
        [(0xFFFA, 0x00), (0xFFFB, 0x80), (0xFFFE, 0x00), (0xFFFF, 0x90)]).bus.read 0xFFFB <<< 8)
      = 0x8000 ∧
    (cpuOf 1 2 3 0xFD 0x1234 0x30
      [(0xFFFA, 0x00), (0xFFFB, 0x80), (0xFFFE, 0x00), (0xFFFF, 0x90)]).nonMaskableInterrupt.PC
      = 0x9000 ∧
    (cpuOf 1 2 3 0xFD 0x1234 0x30
      [(0xFFFA, 0x00), (0xFFFB, 0x80), (0xFFFE, 0x00),
       (0xFFFF, 0x90)]).nonMaskableInterrupt.bus.read 0x01FD = 0x12 ∧
    (cpuOf 1 2 3 0xFD 0x1234 0x30
      [(0xFFFA, 0x00), (0xFFFB, 0x80), (0xFFFE, 0x00),
       (0xFFFF, 0x90)]).nonMaskableInterrupt.bus.read 0x01FC = 0x34 ∧
    (cpuOf 1 2 3 0xFD 0x1234 0x30
      [(0xFFFA, 0x00), (0xFFFB, 0x80), (0xFFFE, 0x00),
       (0xFFFF, 0x90)]).nonMaskableInterrupt.bus.read 0x01FB = 0x20 ∧
    (cpuOf 1 2 3 0xFD 0x1234 0x30
      [(0xFFFA, 0x00), (0xFFFB, 0x80), (0xFFFE, 0x00), (0xFFFF, 0x90)]).nonMaskableInterrupt.SP
      = 0xFA ∧
    (cpuOf 1 2 3 0xFD 0x1234 0x30
      [(0xFFFA, 0x00), (0xFFFB, 0x80), (0xFFFE, 0x00),
       (0xFFFF, 0x90)]).nonMaskableInterrupt.getFlag Flags.I = true ∧
    (cpuOf 1 2 3 0xFD 0x1234 0x30
      [(0xFFFA, 0x00), (0xFFFB, 0x80), (0xFFFE, 0x00),
       (0xFFFF, 0x90)]).nonMaskableInterrupt.cycles = 8 := by
  decide

/-- C10 refuted: a processor in mid-instruction (`cycles = 3`) with `I` clear
receives `irq()`; the call itself moves `PC` from 0x1234 to 0x9000, `SP` from
0xFD to 0xFA, writes the stack page and overwrites `cycles` with 7. -/
theorem interrupt_not_deferred :
    0 < ({ cpuOf 1 2 3 0xFD 0x1234 0x20 [(0xFFFE, 0x00), (0xFFFF, 0x90)] with cycles := 3 }
      : Cpu6502).cycles ∧
    ({ cpuOf 1 2 3 0xFD 0x1234 0x20 [(0xFFFE, 0x00), (0xFFFF, 0x90)] with cycles := 3 }
      : Cpu6502).getFlag Flags.I = false ∧
    ¬ (({ cpuOf 1 2 3 0xFD 0x1234 0x20 [(0xFFFE, 0x00), (0xFFFF, 0x90)] with cycles := 3 }
          : Cpu6502).interrupt.PC = 0x1234 ∧
       ({ cpuOf 1 2 3 0xFD 0x1234 0x20 [(0xFFFE, 0x00), (0xFFFF, 0x90)] with cycles := 3 }
          : Cpu6502).interrupt.SP = 0xFD ∧
       ({ cpuOf 1 2 3 0xFD 0x1234 0x20 [(0xFFFE, 0x00), (0xFFFF, 0x90)] with cycles := 3 }
          : Cpu6502).interrupt.status = 0x20 ∧
       ({ cpuOf 1 2 3 0xFD 0x1234 0x20 [(0xFFFE, 0x00), (0xFFFF, 0x90)] with cycles := 3 }
          : Cpu6502).interrupt.bus.read 0x01FD = 0) ∧
    ({ cpuOf 1 2 3 0xFD 0x1234 0x20 [(0xFFFE, 0x00), (0xFFFF, 0x90)] with cycles := 3 }
      : Cpu6502).interrupt.PC = 0x9000 ∧
    ({ cpuOf 1 2 3 0xFD 0x1234 0x20 [(0xFFFE, 0x00), (0xFFFF, 0x90)] with cycles := 3 }
      : Cpu6502).interrupt.SP = 0xFA ∧
    ({ cpuOf 1 2 3 0xFD 0x1234 0x20 [(0xFFFE, 0x00), (0xFFFF, 0x90)] with cycles := 3 }
      : Cpu6502).interrupt.bus.read 0x01FD = 0x12 ∧
    ({ cpuOf 1 2 3 0xFD 0x1234 0x20 [(0xFFFE, 0x00), (0xFFFF, 0x90)] with cycles := 3 }
      : Cpu6502).interrupt.cycles = 7 := by
  decide

/-- C10 as amended: `irq()` with `I` clear, and `nmi()` always, act at the call
itself, whatever `cycles` holds (no hypothesis restricts it): the result does
not depend on `cycles`, `SP` has dropped by 3 mod 256 and so differs from the
old `SP`, `I` is set, the high byte of the old `PC` lies at `0x0100 + SP`, and
`cycles` is overwritten with 7 (`irq`) or 8 (`nmi`).  For `irq()` the new `PC`
is the word of the vector at 0xFFFE/0xFFFF; which vector `nmi()` reads is left
to C9 and is not part of this statement. -/
theorem interrupt_immediate (s : Cpu6502) (k : Nat) (hSP : s.SP < 256) :
    (s.getFlag Flags.I = false →
      ({ s with cycles := k } : Cpu6502).interrupt = s.interrupt ∧
      s.interrupt.SP = (s.SP + 256 - 3) % 256 ∧ s.interrupt.SP ≠ s.SP ∧
      s.interrupt.getFlag Flags.I = true ∧
      s.interrupt.PC = (s.bus.read 0xFFFE ||| (s.bus.read 0xFFFF <<< 8)) % 65536 ∧
      s.interrupt.bus.read (0x0100 + s.SP) = s.PC / 256 % 256 ∧
      s.interrupt.cycles = 7) ∧
    (({ s with cycles := k } : Cpu6502).nonMaskableInterrupt = s.nonMaskableInterrupt ∧
      s.nonMaskableInterrupt.SP = (s.SP + 256 - 3) % 256 ∧
      s.nonMaskableInterrupt.SP ≠ s.SP ∧
      s.nonMaskableInterrupt.getFlag Flags.I = true ∧
      s.nonMaskableInterrupt.bus.read (0x0100 + s.SP) = s.PC / 256 % 256 ∧
      s.nonMaskableInterrupt.cycles = 8) := by
  have hE := executeInterrupt_effect s hSP
  have hIset : (s.executeInterrupt.status &&& Flags.I.mask != 0) = true := by
    rw [hE.2.2.2.2.2.1, setFlag_test]
    simp
  have hSPne : (s.SP + 256 - 3) % 256 ≠ s.SP := by omega
  constructor
  · intro hI
    have hI2 : ({ s with cycles := k } : Cpu6502).getFlag Flags.I = false := hI
    have h1 : s.interrupt = { s.executeInterrupt with cycles := 7 } := by
      simp only [Cpu6502.interrupt, hI, Bool.not_false, if_true]
    have h2 : ({ s with cycles := k } : Cpu6502).interrupt =
        { ({ s with cycles := k } : Cpu6502).executeInterrupt with cycles := 7 } := by
      simp only [Cpu6502.interrupt, hI2, Bool.not_false, if_true]
    refine ⟨?_, ?_, ?_, ?_, ?_, ?_, ?_⟩
    · rw [h1, h2, executeInterrupt_eq, executeInterrupt_eq]
    · rw [h1]; exact hE.2.2.2.2.1
    · rw [h1]; show s.executeInterrupt.SP ≠ s.SP
      rw [hE.2.2.2.2.1]; exact hSPne
    · rw [h1]; exact hIset
    · rw [h1]; exact hE.2.2.2.2.2.2.1
    · rw [h1]; exact hE.1
    · rw [h1]
  · refine ⟨?_, ?_, ?_, ?_, ?_, ?_⟩
    · simp only [Cpu6502.nonMaskableInterrupt, executeInterrupt_eq]
    · exact hE.2.2.2.2.1
    · show s.executeInterrupt.SP ≠ s.SP
      rw [hE.2.2.2.2.1]; exact hSPne
    · exact hIset
    · exact hE.1
    · rfl

/-- The amended C10 on a processor with three cycles still to run. -/
theorem interrupt_immediate_witness :
    ({ cpuOf 1 2 3 0xFD 0x1234 0x20 [(0xFFFE, 0x00), (0xFFFF, 0x90)] with cycles := 3 }
      : Cpu6502).SP < 256 ∧
    ({ cpuOf 1 2 3 0xFD 0x1234 0x20 [(0xFFFE, 0x00), (0xFFFF, 0x90)] with cycles := 3 }
      : Cpu6502).interrupt.cycles = 7 ∧
    ({ cpuOf 1 2 3 0xFD 0x1234 0x20 [(0xFFFE, 0x00), (0xFFFF, 0x90)] with cycles := 3 }
      : Cpu6502).nonMaskableInterrupt.SP = 0xFA :=
  ⟨by decide,
   ((interrupt_immediate
      ({ cpuOf 1 2 3 0xFD 0x1234 0x20 [(0xFFFE, 0x00), (0xFFFF, 0x90)] with cycles := 3 })
      0 (by decide)).1 (by decide)).2.2.2.2.2.2,
   (interrupt_immediate
      ({ cpuOf 1 2 3 0xFD 0x1234 0x20 [(0xFFFE, 0x00), (0xFFFF, 0x90)] with cycles := 3 })
      0 (by decide)).2.2.1⟩

/-! ## BRK (C11, C12) -/

theorem getAbsolute_eq (lo hi : Nat) (hlo : lo < 256) (hhi : hi < 256) :
    Cpu6502.getAbsolute lo hi = lo ||| (hi <<< 8) := by
  unfold Cpu6502.getAbsolute
  rw [Nat.mod_eq_of_lt hlo, Nat.mod_eq_of_lt hhi, Nat.lor_comm, or_shiftLeft_eight _ _ hlo]
  omega

theorem BRK_bus (s : Cpu6502) :
    (Cpu6502.BRK s).1.bus =
      ((s.bus.write ((0x0100 + s.SP) % 65536) ((s.PC + 1) % 65536 / 256 % 256)).write
        ((0x0100 + (s.SP + 256 - 1) % 256) % 65536) ((s.PC + 1) % 65536 % 256)).write
        ((0x0100 + ((s.SP + 256 - 1) % 256 + 256 - 1) % 256) % 65536)
        (Cpu6502.setFlag (Cpu6502.setFlag s.status Flags.I) Flags.B) := by
  simp only [Cpu6502.BRK, Cpu6502.write, LOW_BYTE_MASK, and_low_byte, shiftRight_eight]

theorem BRK_regs (s : Cpu6502) :
    (Cpu6502.BRK s).1.SP = (((s.SP + 256 - 1) % 256 + 256 - 1) % 256 + 256 - 1) % 256 ∧
    (Cpu6502.BRK s).1.status =
      Cpu6502.setFlag
        (Cpu6502.clearFlag (Cpu6502.setFlag (Cpu6502.setFlag s.status Flags.I) Flags.B) Flags.B)
        Flags.I ∧
    (Cpu6502.BRK s).1.PC =
      Cpu6502.getAbsolute ((Cpu6502.BRK s).1.bus.read 0xFFFE)
        ((Cpu6502.BRK s).1.bus.read 0xFFFF) ∧
    (Cpu6502.BRK s).1.A = s.A ∧ (Cpu6502.BRK s).1.X = s.X ∧ (Cpu6502.BRK s).1.Y = s.Y := by
  simp only [Cpu6502.BRK, Cpu6502.write, and_self]

theorem BRK_stack (s : Cpu6502) (hSP : s.SP < 256) :
    (Cpu6502.BRK s).1.bus.read (0x0100 + s.SP) = (s.PC + 1) % 65536 / 256 ∧
    (Cpu6502.BRK s).1.bus.read (0x0100 + (s.SP + 256 - 1) % 256) = (s.PC + 1) % 65536 % 256 ∧
    (Cpu6502.BRK s).1.bus.read (0x0100 + (s.SP + 256 - 2) % 256) =
      Cpu6502.setFlag (Cpu6502.setFlag s.status Flags.I) Flags.B ∧
    (∀ x, x % 65536 ≠ 0x0100 + s.SP → x % 65536 ≠ 0x0100 + (s.SP + 256 - 1) % 256 →
      x % 65536 ≠ 0x0100 + (s.SP + 256 - 2) % 256 →
      (Cpu6502.BRK s).1.bus.read x = s.bus.read x) := by
  have hB : Cpu6502.setFlag (Cpu6502.setFlag s.status Flags.I) Flags.B % 256 =
      Cpu6502.setFlag (Cpu6502.setFlag s.status Flags.I) Flags.B :=
    Nat.mod_eq_of_lt (Nat.mod_lt _ (by decide))
  rw [BRK_bus]
  simp only [read_write]
  refine ⟨?_, ?_, ?_, ?_⟩
  · rw [if_neg (by omega), if_neg (by omega), if_pos (by omega)]
    omega
  · rw [if_neg (by omega), if_pos (by omega)]
    omega
  · rw [if_pos (by omega), hB]
  · intro x h1 h2 h3
    rw [if_neg (by omega), if_neg (by omega), if_neg (by omega)]

/-- C11: entered with `PC = p`, `BRK` stores the high byte of `p + 1` at
`0x0100|SP`, the low byte of `p + 1` at `0x0100|((SP-1) mod 256)` and one
status byte at `0x0100|((SP-2) mod 256)`, writes no other cell, leaves `SP`
lowered by 3 mod 256 and `I` set, and loads `PC` with the little-endian word
at 0xFFFE/0xFFFF (0x9000 for the bytes 0x00, 0x90). -/
theorem BRK_sequence (s : Cpu6502) (hSP : s.SP < 256)
    (hmem : ∀ a, s.bus.ram.memory a < 256) :
    (Cpu6502.BRK s).1.bus.read (0x0100 ||| s.SP) = (s.PC + 1) % 65536 / 256 ∧
    (Cpu6502.BRK s).1.bus.read (0x0100 ||| ((s.SP + 256 - 1) % 256)) =
      (s.PC + 1) % 65536 % 256 ∧
    (Cpu6502.BRK s).1.bus.read (0x0100 ||| ((s.SP + 256 - 2) % 256)) =
      Cpu6502.setFlag (Cpu6502.setFlag s.status Flags.I) Flags.B ∧
    (∀ x, x % 65536 ≠ (0x0100 ||| s.SP) → x % 65536 ≠ (0x0100 ||| ((s.SP + 256 - 1) % 256)) →
      x % 65536 ≠ (0x0100 ||| ((s.SP + 256 - 2) % 256)) →
      (Cpu6502.BRK s).1.bus.read x = s.bus.read x) ∧
    (Cpu6502.BRK s).1.SP = (s.SP + 256 - 3) % 256 ∧
    (Cpu6502.BRK s).1.getFlag Flags.I = true ∧
    (Cpu6502.BRK s).1.PC = s.bus.read 0xFFFE ||| (s.bus.read 0xFFFF <<< 8) ∧
    (s.bus.read 0xFFFE = 0x00 → s.bus.read 0xFFFF = 0x90 → (Cpu6502.BRK s).1.PC = 0x9000) := by
  have hS := BRK_stack s hSP
  have hR := BRK_regs s
  have hlo : s.bus.read 0xFFFE < 256 := hmem _
  have hhi : s.bus.read 0xFFFF < 256 := hmem _
  have h1 : ((0xFFFE : Nat) % 65536 ≠ 0x0100 + s.SP) := by omega
  have h2 : ((0xFFFF : Nat) % 65536 ≠ 0x0100 + s.SP) := by omega
  have hPC : (Cpu6502.BRK s).1.PC = s.bus.read 0xFFFE ||| (s.bus.read 0xFFFF <<< 8) := by
    rw [hR.2.2.1, hS.2.2.2 0xFFFE h1 (by omega) (by omega),
      hS.2.2.2 0xFFFF h2 (by omega) (by omega), getAbsolute_eq _ _ hlo hhi]
  rw [stack_or _ hSP, stack_or _ (Nat.mod_lt _ (by decide)),
    stack_or _ (Nat.mod_lt _ (by decide))]
  refine ⟨hS.1, hS.2.1, hS.2.2.1, hS.2.2.2, ?_, ?_, hPC, ?_⟩
  · rw [hR.1]
    omega
  · show ((Cpu6502.BRK s).1.status &&& Flags.I.mask != 0) = true
    rw [hR.2.1, setFlag_test]
    simp
  · intro e1 e2
    rw [hPC, e1, e2]
    rfl

/-- C11 on a processor with `PC = 0x8001` behind the opcode, `SP = 0xFD`,
status 0x20 and the vector 0x9000: the stack receives 0x80, 0x02 and one
status byte, `SP` ends at 0xFA and `PC` at 0x9000. -/
theorem BRK_sequence_witness :
    (cpuOf 1 2 3 0xFD 0x8001 0x20 [(0x8000, 0x00), (0xFFFE, 0x00), (0xFFFF, 0x90)]).SP < 256 ∧
    (Cpu6502.BRK (cpuOf 1 2 3 0xFD 0x8001 0x20
      [(0x8000, 0x00), (0xFFFE, 0x00), (0xFFFF, 0x90)])).1.bus.read 0x01FD = 0x80 ∧
    (Cpu6502.BRK (cpuOf 1 2 3 0xFD 0x8001 0x20
      [(0x8000, 0x00), (0xFFFE, 0x00), (0xFFFF, 0x90)])).1.bus.read 0x01FC = 0x02 ∧
    (Cpu6502.BRK (cpuOf 1 2 3 0xFD 0x8001 0x20
      [(0x8000, 0x00), (0xFFFE, 0x00), (0xFFFF, 0x90)])).1.SP = 0xFA ∧
    (Cpu6502.BRK (cpuOf 1 2 3 0xFD 0x8001 0x20
      [(0x8000, 0x00), (0xFFFE, 0x00), (0xFFFF, 0x90)])).1.PC = 0x9000 :=
  ⟨by decide,
   (BRK_sequence (cpuOf 1 2 3 0xFD 0x8001 0x20
      [(0x8000, 0x00), (0xFFFE, 0x00), (0xFFFF, 0x90)]) (by decide) (ramOfList_lt _)).1,
   (BRK_sequence (cpuOf 1 2 3 0xFD 0x8001 0x20
      [(0x8000, 0x00), (0xFFFE, 0x00), (0xFFFF, 0x90)]) (by decide) (ramOfList_lt _)).2.1,
   (BRK_sequence (cpuOf 1 2 3 0xFD 0x8001 0x20
      [(0x8000, 0x00), (0xFFFE, 0x00), (0xFFFF, 0x90)]) (by decide) (ramOfList_lt _)).2.2.2.2.1,
   (BRK_sequence (cpuOf 1 2 3 0xFD 0x8001 0x20
      [(0x8000, 0x00), (0xFFFE, 0x00), (0xFFFF, 0x90)]) (by decide)
      (ramOfList_lt _)).2.2.2.2.2.2.2 (by decide) (by decide)⟩

/-- C12, evaluated: a processor at an instruction boundary with status 0x20
(`I` clear) fetches `BRK` at 0x8000 through `clock`.  The third push, at
0x01FB, is 0x34: `B` and `U` set and also `I` set, because `BRK` sets `I`
before it pushes; the status before the `BRK` with `B` and `U` forced set is
0x30.  The return address 0x8002 lies at 0x01FD/0x01FC and `I` is set in the
register afterwards. -/
theorem clock_BRK_pushes_I_set :
    (cpuOf 1 2 3 0xFD 0x8000 0x20 [(0x8000, 0x00), (0xFFFE, 0x00), (0xFFFF, 0x90)]).cycles = 0 ∧
    (cpuOf 1 2 3 0xFD 0x8000 0x20 [(0x8000, 0x00), (0xFFFE, 0x00), (0xFFFF, 0x90)]).getFlag
      Flags.I = false ∧
    (cpuOf 1 2 3 0xFD 0x8000 0x20 [(0x8000, 0x00), (0xFFFE, 0x00), (0xFFFF, 0x90)]).status
      ||| Flags.B.mask ||| Flags.U.mask = 0x30 ∧
    ((cpuOf 1 2 3 0xFD 0x8000 0x20 [(0x8000, 0x00), (0xFFFE, 0x00), (0xFFFF, 0x90)]).clock
      stackTable).bus.read 0x01FB = 0x34 ∧
    (0x34 &&& Flags.I.mask) ≠ 0 ∧
    ((cpuOf 1 2 3 0xFD 0x8000 0x20 [(0x8000, 0x00), (0xFFFE, 0x00), (0xFFFF, 0x90)]).clock
      stackTable).bus.read 0x01FD = 0x80 ∧
    ((cpuOf 1 2 3 0xFD 0x8000 0x20 [(0x8000, 0x00), (0xFFFE, 0x00), (0xFFFF, 0x90)]).clock
      stackTable).bus.read 0x01FC = 0x02 ∧
    ((cpuOf 1 2 3 0xFD 0x8000 0x20 [(0x8000, 0x00), (0xFFFE, 0x00), (0xFFFF, 0x90)]).clock
      stackTable).getFlag Flags.I = true ∧
    ((cpuOf 1 2 3 0xFD 0x8000 0x20 [(0x8000, 0x00), (0xFFFE, 0x00), (0xFFFF, 0x90)]).clock
      stackTable).PC = 0x9000 := by
  decide

/-! ## Returns (C13, C14) -/

theorem RTI_effect (s : Cpu6502) :
    (Cpu6502.RTI s).1.status =
      Cpu6502.setFlag (Cpu6502.clearFlag (s.bus.read (0x0100 + (s.SP + 1) % 256)) Flags.B)
        Flags.U ∧
    (Cpu6502.RTI s).1.PC =
      Cpu6502.getAbsolute (s.bus.read (0x0100 + (s.SP + 2) % 256))
        (s.bus.read (0x0100 + (s.SP + 2) % 256 + 1)) ∧
    (Cpu6502.RTI s).1.SP = (s.SP + 3) % 256 ∧
    (Cpu6502.RTI s).1.A = s.A ∧ (Cpu6502.RTI s).1.X = s.X ∧ (Cpu6502.RTI s).1.Y = s.Y ∧
    (Cpu6502.RTI s).1.bus = s.bus := by
  have h2 : ((s.SP + 1) % 256 + 1) % 256 = (s.SP + 2) % 256 := by omega
  have h3 : ((s.SP + 2) % 256 + 1) % 256 = (s.SP + 3) % 256 := by omega
  simp only [Cpu6502.RTI, STACK_BASE_ADDRESS, h2, h3, and_self]

theorem RTS_effect (s : Cpu6502) :
    (Cpu6502.RTS s).1.PC =
      (Cpu6502.getAbsolute (s.bus.read (0x0100 + (s.SP + 1) % 256))
        (s.bus.read (0x0100 + (s.SP + 1) % 256 + 1)) + 1) % 65536 ∧
    (Cpu6502.RTS s).1.SP = (s.SP + 2) % 256 ∧
    (Cpu6502.RTS s).1.A = s.A ∧ (Cpu6502.RTS s).1.X = s.X ∧ (Cpu6502.RTS s).1.Y = s.Y ∧
    (Cpu6502.RTS s).1.status = s.status ∧ (Cpu6502.RTS s).1.bus = s.bus := by
  have h2 : ((s.SP + 1) % 256 + 1) % 256 = (s.SP + 2) % 256 := by omega
  simp only [Cpu6502.RTS, STACK_BASE_ADDRESS, h2, and_self]

/-- C13, evaluated: `RTI` with `SP = 0xFD`, the stack cells 0x01FE = 0xD3,
0x01FF = 0x34, 0x0100 = 0x12 (the cell `0x0100|((SP+3) mod 256)`) and
0x0200 = 0x56.  Status becomes 0xE3 (0xD3 with `B` cleared and `U` set), `SP`
becomes 0x00 and `A`, `X`, `Y` and the RAM are unchanged, but `PC` becomes
0x5634: its high byte is the cell 0x0200 behind the stack page, not the third
popped byte 0x12. -/
theorem RTI_high_byte_behind_stack_page :
    (cpuOf 1 2 3 0xFD 0x9000 0x24
      [(0x01FE, 0xD3), (0x01FF, 0x34), (0x0100, 0x12), (0x0200, 0x56)]).bus.read
        (0x0100 ||| ((0xFD + 3) % 256)) = 0x12 ∧
    (Cpu6502.RTI (cpuOf 1 2 3 0xFD 0x9000 0x24
      [(0x01FE, 0xD3), (0x01FF, 0x34), (0x0100, 0x12), (0x0200, 0x56)])).1.PC = 0x5634 ∧
    (Cpu6502.RTI (cpuOf 1 2 3 0xFD 0x9000 0x24
      [(0x01FE, 0xD3), (0x01FF, 0x34), (0x0100, 0x12), (0x0200, 0x56)])).1.status = 0xE3 ∧
    (Cpu6502.RTI (cpuOf 1 2 3 0xFD 0x9000 0x24
      [(0x01FE, 0xD3), (0x01FF, 0x34), (0x0100, 0x12), (0x0200, 0x56)])).1.SP = 0x00 ∧
    (Cpu6502.RTI (cpuOf 1 2 3 0xFD 0x9000 0x24
      [(0x01FE, 0xD3), (0x01FF, 0x34), (0x0100, 0x12), (0x0200, 0x56)])).1.A = 1 ∧
    (Cpu6502.RTI (cpuOf 1 2 3 0xFD 0x9000 0x24
      [(0x01FE, 0xD3), (0x01FF, 0x34), (0x0100, 0x12), (0x0200, 0x56)])).1.X = 2 ∧
    (Cpu6502.RTI (cpuOf 1 2 3 0xFD 0x9000 0x24
      [(0x01FE, 0xD3), (0x01FF, 0x34), (0x0100, 0x12), (0x0200, 0x56)])).1.Y = 3 := by
  decide

/-- C14, evaluated: `RTS` with `SP = 0xFE` and `RTI` with `SP = 0xFD` read the
`PC` low byte at 0x01FF and then the high byte at 0x0200, outside the stack
page, instead of wrapping to 0x0100.  With 0x01FF = 0x21, 0x0100 = 0x43 and
0x0200 = 0x65, `RTS` yields `PC = 0x6522` (not 0x4322) and `RTI` yields
`PC = 0x6521` (not 0x4321); changing only the cell 0x0200 to 0x77 changes the
results to 0x7722 and 0x7721. -/
theorem returns_read_behind_stack_page :
    (Cpu6502.RTS (cpuOf 0 0 0 0xFE 0x9000 0x24
      [(0x01FF, 0x21), (0x0100, 0x43), (0x0200, 0x65)])).1.PC = 0x6522 ∧
    (Cpu6502.RTS (cpuOf 0 0 0 0xFE 0x9000 0x24
      [(0x01FF, 0x21), (0x0100, 0x43), (0x0200, 0x77)])).1.PC = 0x7722 ∧
    (Cpu6502.RTS (cpuOf 0 0 0 0xFE 0x9000 0x24
      [(0x01FF, 0x21), (0x0100, 0x43), (0x0200, 0x65)])).1.SP = 0x00 ∧
    (Cpu6502.RTI (cpuOf 0 0 0 0xFD 0x9000 0x24
      [(0x01FF, 0x21), (0x0100, 0x43), (0x0200, 0x65)])).1.PC = 0x6521 ∧
    (Cpu6502.RTI (cpuOf 0 0 0 0xFD 0x9000 0x24
      [(0x01FF, 0x21), (0x0100, 0x43), (0x0200, 0x77)])).1.PC = 0x7721 ∧
    (Cpu6502.RTI (cpuOf 0 0 0 0xFD 0x9000 0x24
      [(0x01FF, 0x21), (0x0100, 0x43), (0x0200, 0x65)])).1.SP = 0x00 ∧
    (0x0100 ||| ((0xFE + 2) % 256)) = 0x0100 ∧ (0x0100 ||| ((0xFD + 3) % 256)) = 0x0100 := by
  decide

/-! ## Stack round trip (C15) -/

theorem nz_flags (s : Cpu6502) (z n : Bool) :
    (s.updateZeroAndNegativeFlags z n).getFlag Flags.Z = z ∧
    (s.updateZeroAndNegativeFlags z n).getFlag Flags.N = n ∧
    (∀ g, g ≠ Flags.Z → g ≠ Flags.N →
      (s.updateZeroAndNegativeFlags z n).getFlag g = s.getFlag g) := by
  simp only [Cpu6502.updateZeroAndNegativeFlags, updateFlag_eq, Cpu6502.getFlag,
    flag_update_test]
  refine ⟨by simp, by simp, ?_⟩
  intro g hZ hN
  have h1 : ¬ Flags.N = g := fun e => hN e.symm
  have h2 : ¬ Flags.Z = g := fun e => hZ e.symm
  simp only [h1, h2, if_false]

theorem sign_test (r : Nat) : ((r &&& SIGN_BIT_MASK) != 0) = decide (r / 128 % 2 = 1) := by
  have h := and_pow_test r 7
  rw [Nat.testBit_to_div_mod] at h
  simpa [SIGN_BIT_MASK] using h

/-- C15: for every byte `A` and every `SP` (0x00 included, where the pointer
wraps to 0xFF and back), `PHA` stores `A` at `0x0100|SP`, and `PLA` right
after it leaves `A` and `SP` as they were before the `PHA`, with `Z` set
exactly when `A = 0` and `N` equal to bit 7 of `A`. -/
theorem PHA_PLA_roundtrip (s : Cpu6502) (hA : s.A < 256) (hSP : s.SP < 256) :
    (Cpu6502.PHA s).1.bus.read (0x0100 ||| s.SP) = s.A ∧
    (Cpu6502.PHA s).1.SP = (s.SP + 256 - 1) % 256 ∧
    (Cpu6502.PLA (Cpu6502.PHA s).1).1.A = s.A ∧
    (Cpu6502.PLA (Cpu6502.PHA s).1).1.SP = s.SP ∧
    (Cpu6502.PLA (Cpu6502.PHA s).1).1.bus.read (0x0100 ||| s.SP) = s.A ∧
    ((Cpu6502.PLA (Cpu6502.PHA s).1).1.getFlag Flags.Z = true ↔ s.A = 0) ∧
    ((Cpu6502.PLA (Cpu6502.PHA s).1).1.getFlag Flags.N = true ↔ s.A / 128 % 2 = 1) := by
  have hpush : (Cpu6502.PHA s).1.bus.read (0x0100 + s.SP) = s.A := by
    simp only [Cpu6502.PHA, Cpu6502.write, STACK_BASE_ADDRESS, read_write]
    rw [if_pos (by omega)]
    omega
  have hsp : ((s.SP + 256 - 1) % 256 + 1) % 256 = s.SP := by omega
  have hpop : (Cpu6502.PLA (Cpu6502.PHA s).1).1 =
      ({ (Cpu6502.PHA s).1 with SP := s.SP, A := s.A } : Cpu6502).updateZeroAndNegativeFlags
        (s.A == 0) ((s.A &&& SIGN_BIT_MASK) != 0) := by
    have h1 : (Cpu6502.PHA s).1.SP = (s.SP + 256 - 1) % 256 := rfl
    simp only [Cpu6502.PLA, h1, hsp, STACK_BASE_ADDRESS]
    have h2 : ({ (Cpu6502.PHA s).1 with SP := s.SP } : Cpu6502).bus.read (0x0100 + s.SP) = s.A :=
      hpush
    rw [h2]
  have hnz := nz_flags ({ (Cpu6502.PHA s).1 with SP := s.SP, A := s.A } : Cpu6502)
    (s.A == 0) ((s.A &&& SIGN_BIT_MASK) != 0)
  rw [stack_or _ hSP, hpop]
  refine ⟨hpush, rfl, ?_, ?_, ?_, ?_, ?_⟩
  · simp only [Cpu6502.updateZeroAndNegativeFlags, updateFlag_eq]
  · simp only [Cpu6502.updateZeroAndNegativeFlags, updateFlag_eq]
  · simp only [Cpu6502.updateZeroAndNegativeFlags, updateFlag_eq]
    exact hpush
  · rw [hnz.1]
    simp
  · rw [hnz.2.1, sign_test]
    simp

/-- C15 at `SP = 0x00` with `A = 0x80`: the byte goes to 0x0100, `SP` is 0xFF
between the two operations and 0x00 again afterwards, `N` is set. -/
theorem PHA_PLA_roundtrip_witness :
    (cpuOf 0x80 2 3 0x00 0x8000 0x20 []).SP < 256 ∧
    (Cpu6502.PHA (cpuOf 0x80 2 3 0x00 0x8000 0x20 [])).1.bus.read 0x0100 = 0x80 ∧
    (Cpu6502.PHA (cpuOf 0x80 2 3 0x00 0x8000 0x20 [])).1.SP = 0xFF ∧
    (Cpu6502.PLA (Cpu6502.PHA (cpuOf 0x80 2 3 0x00 0x8000 0x20 [])).1).1.A = 0x80 ∧
    (Cpu6502.PLA (Cpu6502.PHA (cpuOf 0x80 2 3 0x00 0x8000 0x20 [])).1).1.SP = 0x00 ∧
    (Cpu6502.PLA (Cpu6502.PHA (cpuOf 0x80 2 3 0x00 0x8000 0x20 [])).1).1.getFlag Flags.N
      = true :=
  ⟨by decide,
   (PHA_PLA_roundtrip (cpuOf 0x80 2 3 0x00 0x8000 0x20 []) (by decide) (by decide)).1,
   (PHA_PLA_roundtrip (cpuOf 0x80 2 3 0x00 0x8000 0x20 []) (by decide) (by decide)).2.1,
   (PHA_PLA_roundtrip (cpuOf 0x80 2 3 0x00 0x8000 0x20 []) (by decide) (by decide)).2.2.1,
   (PHA_PLA_roundtrip (cpuOf 0x80 2 3 0x00 0x8000 0x20 []) (by decide) (by decide)).2.2.2.1,
   (PHA_PLA_roundtrip (cpuOf 0x80 2 3 0x00 0x8000 0x20 [])
      (by decide) (by decide)).2.2.2.2.2.2.2 (by decide)⟩

/-! ## N and Z after register-targeting operations (C16) -/

theorem nz_frame (s : Cpu6502) (z n : Bool) :
    (s.updateZeroAndNegativeFlags z n).A = s.A ∧
    (s.updateZeroAndNegativeFlags z n).X = s.X ∧
    (s.updateZeroAndNegativeFlags z n).Y = s.Y ∧
    (s.updateZeroAndNegativeFlags z n).SP = s.SP ∧
    (s.updateZeroAndNegativeFlags z n).PC = s.PC ∧
    (s.updateZeroAndNegativeFlags z n).bus = s.bus := by
  simp only [Cpu6502.updateZeroAndNegativeFlags, updateFlag_eq, and_self]

/-- C16: for each of `LDA`, `LDX`, `LDY`, `TAX`, `TAY`, `TSX`, `TXA`, `TYA`,
`INX`, `INY`, `DEX`, `DEY`, `AND`, `ORA`, `EOR` and `PLA`, paired with its
destination register, in every state: after the operation `N` is set exactly
when bit 7 of the value left in that register is 1 and `Z` exactly when that
value is 0.  `INX`/`INY` leave `(reg + 1) mod 256`, `DEX`/`DEY` leave
`(reg - 1) mod 256`.  `TXS` sets `SP = X` and leaves the status byte as it
was. -/
theorem nz_after_register_operation (s : Cpu6502) (p : Operation × (Cpu6502 → Nat))
    (hp : p ∈
      [(Operation.LDA, Cpu6502.A), (Operation.LDX, Cpu6502.X), (Operation.LDY, Cpu6502.Y),
       (Operation.TAX, Cpu6502.X), (Operation.TAY, Cpu6502.Y), (Operation.TSX, Cpu6502.X),
       (Operation.TXA, Cpu6502.A), (Operation.TYA, Cpu6502.A), (Operation.INX, Cpu6502.X),
       (Operation.INY, Cpu6502.Y), (Operation.DEX, Cpu6502.X), (Operation.DEY, Cpu6502.Y),
       (Operation.AND, Cpu6502.A), (Operation.ORA, Cpu6502.A), (Operation.EOR, Cpu6502.A),
       (Operation.PLA, Cpu6502.A)]) :
    ((Cpu6502.runOperation p.1 s).1.getFlag Flags.N = true ↔
      p.2 (Cpu6502.runOperation p.1 s).1 / 128 % 2 = 1) ∧
    ((Cpu6502.runOperation p.1 s).1.getFlag Flags.Z = true ↔
      p.2 (Cpu6502.runOperation p.1 s).1 = 0) ∧
    (Cpu6502.INX s).1.X = (s.X + 1) % 256 ∧
    (Cpu6502.INY s).1.Y = (s.Y + 1) % 256 ∧
    (((Cpu6502.DEX s).1.X : Nat) : Int) = ((s.X : Int) - 1) % 256 ∧
    (((Cpu6502.DEY s).1.Y : Nat) : Int) = ((s.Y : Int) - 1) % 256 ∧
    (Cpu6502.TXS s).1.SP = s.X ∧ (Cpu6502.TXS s).1.status = s.status := by
  refine ⟨?_, ?_, ?_, ?_, ?_, ?_, rfl, rfl⟩
  · fin_cases hp <;>
      simp only [Cpu6502.runOperation, Cpu6502.LDA, Cpu6502.LDX, Cpu6502.LDY, Cpu6502.TAX,
        Cpu6502.TAY, Cpu6502.TSX, Cpu6502.TXA, Cpu6502.TYA, Cpu6502.INX, Cpu6502.INY,
        Cpu6502.DEX, Cpu6502.DEY, Cpu6502.AND, Cpu6502.ORA, Cpu6502.EOR, Cpu6502.PLA,
        (nz_flags _ _ _).2.1, nz_frame, sign_test, decide_eq_true_eq]
  · fin_cases hp <;>
      simp only [Cpu6502.runOperation, Cpu6502.LDA, Cpu6502.LDX, Cpu6502.LDY, Cpu6502.TAX,
        Cpu6502.TAY, Cpu6502.TSX, Cpu6502.TXA, Cpu6502.TYA, Cpu6502.INX, Cpu6502.INY,
        Cpu6502.DEX, Cpu6502.DEY, Cpu6502.AND, Cpu6502.ORA, Cpu6502.EOR, Cpu6502.PLA,
        (nz_flags _ _ _).1, nz_frame, beq_iff_eq]
  · simp only [Cpu6502.INX, nz_frame]
  · simp only [Cpu6502.INY, nz_frame]
  · simp only [Cpu6502.DEX, nz_frame]
    omega
  · simp only [Cpu6502.DEY, nz_frame]
    omega

/-- C16 on `INX` with `X = 0xFF` (result 0x00: `Z` set, `N` clear) and on
`DEX` with `X = 0x00` (result 0xFF: `N` set). -/
theorem nz_after_register_operation_witness :
    (Cpu6502.INX (cpuOf 1 0xFF 3 0xFD 0x8000 0x20 [])).1.X = 0 ∧
    (Cpu6502.INX (cpuOf 1 0xFF 3 0xFD 0x8000 0x20 [])).1.getFlag Flags.Z = true ∧
    (Cpu6502.DEX (cpuOf 1 0x00 3 0xFD 0x8000 0x20 [])).1.getFlag Flags.N = true :=
  ⟨(nz_after_register_operation (cpuOf 1 0xFF 3 0xFD 0x8000 0x20 [])
      (Operation.INX, Cpu6502.X) (by simp)).2.2.1,
   (nz_after_register_operation (cpuOf 1 0xFF 3 0xFD 0x8000 0x20 [])
      (Operation.INX, Cpu6502.X) (by simp)).2.1.2 (by decide),
   (nz_after_register_operation (cpuOf 1 0x00 3 0xFD 0x8000 0x20 [])
      (Operation.DEX, Cpu6502.X) (by simp)).1.2 (by decide)⟩

/-! ## Compares (C17) -/

theorem CompareLogic_flags (s : Cpu6502) (r : Nat) (hr : r < 256) (hM : s.currentByte < 256) :
    ((s.CompareLogic r).getFlag Flags.C = true ↔ r ≥ s.currentByte) ∧
    ((s.CompareLogic r).getFlag Flags.Z = true ↔ r = s.currentByte) ∧
    ((s.CompareLogic r).getFlag Flags.N = true ↔
      (((r : Int) - (s.currentByte : Int)) % 256) / 128 % 2 = 1) ∧
    (s.CompareLogic r).getFlag Flags.V = s.getFlag Flags.V ∧
    (s.CompareLogic r).A = s.A ∧ (s.CompareLogic r).X = s.X ∧ (s.CompareLogic r).Y = s.Y ∧
    (s.CompareLogic r).SP = s.SP ∧ (s.CompareLogic r).bus = s.bus := by
  have h80 := and_pow_eq ((r + 65536 - s.currentByte) % 65536) 7
  simp only [Nat.reducePow] at h80
  simp only [Cpu6502.CompareLogic, Cpu6502.updateZeroAndNegativeFlags, updateFlag_eq,
    Cpu6502.getFlag, flag_update_test, LOW_BYTE_MASK, SIGN_BIT_MASK, and_low_byte, h80]
  refine ⟨?_, ?_, ?_, ?_, trivial, trivial, trivial, trivial, trivial⟩
  · simp
  · simp
    omega
  · simp
    omega
  · simp

/-- C17: for `CMP`, `CPX`, `CPY`, with `r` the byte in `A`, `X`, `Y`
respectively and `M` the operand byte `read` delivers for the effective
address: afterwards `C` is set exactly when `r ≥ M`, `Z` exactly when `r = M`,
`N` equals bit 7 of `(r - M) mod 256`, and `A`, `X`, `Y`, `SP`, the `V` flag
and the bus are unchanged. -/
theorem compare_spec (s : Cpu6502) (p : Operation × (Cpu6502 → Nat))
    (hp : p ∈ [(Operation.CMP, Cpu6502.A), (Operation.CPX, Cpu6502.X),
      (Operation.CPY, Cpu6502.Y)])
    (hr : p.2 s < 256) (hM : s.read s.currentAddress < 256) :
    ((Cpu6502.runOperation p.1 s).1.getFlag Flags.C = true ↔
      p.2 s ≥ s.read s.currentAddress) ∧
    ((Cpu6502.runOperation p.1 s).1.getFlag Flags.Z = true ↔
      p.2 s = s.read s.currentAddress) ∧
    ((Cpu6502.runOperation p.1 s).1.getFlag Flags.N = true ↔
      (((p.2 s : Int) - (s.read s.currentAddress : Int)) % 256) / 128 % 2 = 1) ∧
    (Cpu6502.runOperation p.1 s).1.getFlag Flags.V = s.getFlag Flags.V ∧
    (Cpu6502.runOperation p.1 s).1.A = s.A ∧ (Cpu6502.runOperation p.1 s).1.X = s.X ∧
    (Cpu6502.runOperation p.1 s).1.Y = s.Y ∧ (Cpu6502.runOperation p.1 s).1.SP = s.SP ∧
    (Cpu6502.runOperation p.1 s).1.bus = s.bus := by
  have h := fun r hr => CompareLogic_flags
    ({ s with currentByte := s.read s.currentAddress } : Cpu6502) r hr hM
  fin_cases hp
  · exact h s.A hr
  · exact h s.X hr
  · exact h s.Y hr

/-- C17 on `CMP #$50` with `A = 0x30` (borrow: `C` clear, `Z` clear,
`(0x30 - 0x50) mod 256 = 0xE0`, so `N` set) and on `CPX #$30` with
`X = 0x30` (`C` and `Z` set). -/
theorem compare_spec_witness :
    (cpuAt AddressingMode.IMM 0x8001 (cpuOf 0x30 0x30 0 0xFD 0x8002 0x20 [(0x8001, 0x50)])).A
      < 256 ∧
    (Cpu6502.CMP (cpuAt AddressingMode.IMM 0x8001
      (cpuOf 0x30 0x30 0 0xFD 0x8002 0x20 [(0x8001, 0x50)]))).1.getFlag Flags.N = true ∧
    (Cpu6502.CMP (cpuAt AddressingMode.IMM 0x8001
      (cpuOf 0x30 0x30 0 0xFD 0x8002 0x20 [(0x8001, 0x50)]))).1.getFlag Flags.C = false ∧
    (Cpu6502.CPX (cpuAt AddressingMode.IMM 0x8001
      (cpuOf 0x30 0x30 0 0xFD 0x8002 0x20 [(0x8001, 0x30)]))).1.getFlag Flags.Z = true ∧
    (Cpu6502.CPX (cpuAt AddressingMode.IMM 0x8001
      (cpuOf 0x30 0x30 0 0xFD 0x8002 0x20 [(0x8001, 0x30)]))).1.getFlag Flags.C = true :=
  ⟨by decide,
   (compare_spec (cpuAt AddressingMode.IMM 0x8001
      (cpuOf 0x30 0x30 0 0xFD 0x8002 0x20 [(0x8001, 0x50)]))
      (Operation.CMP, Cpu6502.A) (by simp) (by decide) (by decide)).2.2.1.2 (by decide),
   by decide,
   (compare_spec (cpuAt AddressingMode.IMM 0x8001
      (cpuOf 0x30 0x30 0 0xFD 0x8002 0x20 [(0x8001, 0x30)]))
      (Operation.CPX, Cpu6502.X) (by simp) (by decide) (by decide)).2.1.2 (by decide),
   (compare_spec (cpuAt AddressingMode.IMM 0x8001
      (cpuOf 0x30 0x30 0 0xFD 0x8002 0x20 [(0x8001, 0x30)]))
      (Operation.CPX, Cpu6502.X) (by simp) (by decide) (by decide)).1.2 (by decide)⟩

/-! ## Indirect addressing (C18) -/

theorem getAbsolute_bytes (lo hi : Nat) (hlo : lo < 256) (hhi : hi < 256) :
    Cpu6502.getAbsolute lo hi % 256 = lo ∧ Cpu6502.getAbsolute lo hi / 256 = hi := by
  rw [getAbsolute_eq lo hi hlo hhi, or_shiftLeft_eight _ _ hlo]
  omega

/-- C18: with `ptr` the 16-bit pointer `IND` reads behind the opcode, the
effective address has low byte `mem[ptr]`; its high byte is `mem[ptr & 0xFF00]`
when the low byte of `ptr` is 0xFF and `mem[ptr + 1]` otherwise; `PC` advances
by 2, no page cross is reported, and `JMP` then sets `PC` to that address. -/
theorem IND_effective_address (s : Cpu6502) (ptr : Nat)
    (hmem : ∀ a, s.bus.ram.memory a < 256)
    (hptr : ptr = s.bus.read s.PC ||| (s.bus.read (s.PC + 1) <<< 8)) :
    (Cpu6502.IND s).1.currentAddress % 256 = s.bus.read ptr ∧
    (ptr % 256 = 0xFF → (Cpu6502.IND s).1.currentAddress / 256 = s.bus.read (ptr &&& 0xFF00)) ∧
    (ptr % 256 ≠ 0xFF → (Cpu6502.IND s).1.currentAddress / 256 = s.bus.read (ptr + 1)) ∧
    (Cpu6502.IND s).1.PC = (s.PC + 2) % 65536 ∧
    (Cpu6502.IND s).2 = false ∧
    (Cpu6502.JMP (Cpu6502.IND s).1).1.PC = (Cpu6502.IND s).1.currentAddress := by
  have hb : ∀ a, s.bus.read a < 256 := fun a => hmem _
  have hp : Cpu6502.getAbsolute (s.bus.read s.PC) (s.bus.read (s.PC + 1)) = ptr := by
    rw [hptr, getAbsolute_eq _ _ (hb _) (hb _)]
  by_cases hff : ptr % 256 = 0xFF
  · have hI : Cpu6502.IND s =
        ({ s with PC := (s.PC + 2) % 65536,
                  currentAddress := Cpu6502.getAbsolute (s.bus.read ptr)
                    (s.bus.read (ptr &&& 0xFF00)) }, false) := by
      simp only [Cpu6502.IND, hp, LOW_BYTE_MASK, ZERO_PAGE_BOUNDARY, HIGH_BYTE_MASK,
        and_low_byte, hff, if_true]
    have hg := getAbsolute_bytes _ _ (hb ptr) (hb (ptr &&& 0xFF00))
    rw [hI]
    exact ⟨hg.1, fun _ => hg.2, fun h => absurd hff h, rfl, rfl, rfl⟩
  · have hI : Cpu6502.IND s =
        ({ s with PC := (s.PC + 2) % 65536,
                  currentAddress := Cpu6502.getAbsolute (s.bus.read ptr)
                    (s.bus.read (ptr + 1)) }, false) := by
      simp only [Cpu6502.IND, hp, LOW_BYTE_MASK, ZERO_PAGE_BOUNDARY, HIGH_BYTE_MASK,
        and_low_byte, hff, if_false]
    have hg := getAbsolute_bytes _ _ (hb ptr) (hb (ptr + 1))
    rw [hI]
    exact ⟨hg.1, fun h => absurd h hff, fun _ => hg.2, rfl, rfl, rfl⟩

/-- C18 on the seed scenario `JMP ($30FF)`: with 0x80 at 0x30FF, 0x50 at
0x3000 and 0x40 at 0x3100 the jump goes to 0x5080. -/
theorem IND_effective_address_witness :
    (0x30FF : Nat) =
      (cpuOf 0 0 0 0xFD 0x8001 0x20 [(0x8000, 0x6C), (0x8001, 0xFF), (0x8002, 0x30),
        (0x30FF, 0x80), (0x3000, 0x50), (0x3100, 0x40)]).bus.read 0x8001 |||
      ((cpuOf 0 0 0 0xFD 0x8001 0x20 [(0x8000, 0x6C), (0x8001, 0xFF), (0x8002, 0x30),
        (0x30FF, 0x80), (0x3000, 0x50), (0x3100, 0x40)]).bus.read (0x8001 + 1) <<< 8) ∧
    (Cpu6502.IND (cpuOf 0 0 0 0xFD 0x8001 0x20 [(0x8000, 0x6C), (0x8001, 0xFF),
      (0x8002, 0x30), (0x30FF, 0x80), (0x3000, 0x50), (0x3100, 0x40)])).1.currentAddress / 256
      = 0x50 ∧
    (Cpu6502.IND (cpuOf 0 0 0 0xFD 0x8001 0x20 [(0x8000, 0x6C), (0x8001, 0xFF),
      (0x8002, 0x30), (0x30FF, 0x80), (0x3000, 0x50), (0x3100, 0x40)])).1.currentAddress % 256
      = 0x80 ∧
    (Cpu6502.JMP (Cpu6502.IND (cpuOf 0 0 0 0xFD 0x8001 0x20 [(0x8000, 0x6C), (0x8001, 0xFF),
      (0x8002, 0x30), (0x30FF, 0x80), (0x3000, 0x50), (0x3100, 0x40)])).1).1.PC = 0x5080 :=
  ⟨by decide,
   (IND_effective_address (cpuOf 0 0 0 0xFD 0x8001 0x20 [(0x8000, 0x6C), (0x8001, 0xFF),
      (0x8002, 0x30), (0x30FF, 0x80), (0x3000, 0x50), (0x3100, 0x40)]) 0x30FF
      (ramOfList_lt _) (by decide)).2.1 (by decide),
   (IND_effective_address (cpuOf 0 0 0 0xFD 0x8001 0x20 [(0x8000, 0x6C), (0x8001, 0xFF),
      (0x8002, 0x30), (0x30FF, 0x80), (0x3000, 0x50), (0x3100, 0x40)]) 0x30FF
      (ramOfList_lt _) (by decide)).1,
   (IND_effective_address (cpuOf 0 0 0 0xFD 0x8001 0x20 [(0x8000, 0x6C), (0x8001, 0xFF),
      (0x8002, 0x30), (0x30FF, 0x80), (0x3000, 0x50), (0x3100, 0x40)]) 0x30FF
      (ramOfList_lt _) (by decide)).2.2.2.2.2.trans (by decide)⟩

/-! ## Zero-page indexed modes (C19) -/

theorem zeroPage_eq (a : Nat) : Cpu6502.zeroPage a = a &&& 0xFF := by
  simp only [Cpu6502.zeroPage, LOW_BYTE_MASK, and_low_byte, Nat.mod_mod]
  omega

/-- C19: with `op` the operand byte at `PC`, `ZPX` sets the effective address
to `(op + X) AND 0xFF` and `ZPY` to `(op + Y) AND 0xFF`, both below 0x0100;
`IZX` forms its address from the pointer low byte at `(op + X) AND 0xFF` and
the pointer high byte at `(op + X + 1) AND 0xFF`. -/
theorem zero_page_indexed (s : Cpu6502) (hmem : ∀ a, s.bus.ram.memory a < 256) :
    (Cpu6502.ZPX s).1.currentAddress = (s.bus.read s.PC + s.X) &&& 0xFF ∧
    (Cpu6502.ZPX s).1.currentAddress < 0x0100 ∧
    (Cpu6502.ZPY s).1.currentAddress = (s.bus.read s.PC + s.Y) &&& 0xFF ∧
    (Cpu6502.ZPY s).1.currentAddress < 0x0100 ∧
    (Cpu6502.IZX s).1.currentAddress % 256 =
      s.bus.read ((s.bus.read s.PC + s.X) &&& 0xFF) ∧
    (Cpu6502.IZX s).1.currentAddress / 256 =
      s.bus.read ((s.bus.read s.PC + s.X + 1) &&& 0xFF) ∧
    ((s.bus.read s.PC + s.X) &&& 0xFF) < 0x0100 ∧
    ((s.bus.read s.PC + s.X + 1) &&& 0xFF) < 0x0100 := by
  have hb : ∀ a, s.bus.read a < 256 := fun a => hmem _
  have hX : (Cpu6502.ZPX s).1.currentAddress = (s.bus.read s.PC + s.X) &&& 0xFF := by
    simp only [Cpu6502.ZPX, zeroPage_eq]
  have hY : (Cpu6502.ZPY s).1.currentAddress = (s.bus.read s.PC + s.Y) &&& 0xFF := by
    simp only [Cpu6502.ZPY, zeroPage_eq]
  have hI : (Cpu6502.IZX s).1.currentAddress =
      Cpu6502.getAbsolute (s.bus.read ((s.bus.read s.PC + s.X) &&& 0xFF))
        (s.bus.read ((s.bus.read s.PC + s.X + 1) &&& 0xFF)) := by
    simp only [Cpu6502.IZX, zeroPage_eq, and_low_byte, Nat.mod_mod, Nat.add_mod_mod,
      Nat.mod_add_mod]
  have hg := getAbsolute_bytes _ _ (hb ((s.bus.read s.PC + s.X) &&& 0xFF))
    (hb ((s.bus.read s.PC + s.X + 1) &&& 0xFF))
  refine ⟨hX, ?_, hY, ?_, ?_, ?_, ?_, ?_⟩
  · rw [hX, and_low_byte]; omega
  · rw [hY, and_low_byte]; omega
  · rw [hI]; exact hg.1
  · rw [hI]; exact hg.2
  · rw [and_low_byte]; omega
  · rw [and_low_byte]; omega

/-- C19 with operand 0xFF and `X = Y = 2`: `ZPX` and `ZPY` wrap to 0x0001, and
with operand 0xFF and `X = 0` `IZX` takes its low byte from 0x00FF and its high
byte from 0x0000. -/
theorem zero_page_indexed_witness :
    (Cpu6502.ZPX (cpuOf 0 2 2 0xFD 0x8001 0x20 [(0x8001, 0xFF)])).1.currentAddress = 0x0001 ∧
    (Cpu6502.ZPY (cpuOf 0 2 2 0xFD 0x8001 0x20 [(0x8001, 0xFF)])).1.currentAddress = 0x0001 ∧
    (Cpu6502.IZX (cpuOf 0 0 0 0xFD 0x8001 0x20
      [(0x8001, 0xFF), (0x00FF, 0x34), (0x0000, 0x12), (0x0100, 0x56)])).1.currentAddress / 256
      = 0x12 ∧
    (Cpu6502.IZX (cpuOf 0 0 0 0xFD 0x8001 0x20
      [(0x8001, 0xFF), (0x00FF, 0x34), (0x0000, 0x12), (0x0100, 0x56)])).1.currentAddress % 256
      = 0x34 :=
  ⟨(zero_page_indexed (cpuOf 0 2 2 0xFD 0x8001 0x20 [(0x8001, 0xFF)])
      (ramOfList_lt _)).1.trans (by decide),
   (zero_page_indexed (cpuOf 0 2 2 0xFD 0x8001 0x20 [(0x8001, 0xFF)])
      (ramOfList_lt _)).2.2.1.trans (by decide),
   (zero_page_indexed (cpuOf 0 0 0 0xFD 0x8001 0x20
      [(0x8001, 0xFF), (0x00FF, 0x34), (0x0000, 0x12), (0x0100, 0x56)])
      (ramOfList_lt _)).2.2.2.2.2.1.trans (by decide),
   (zero_page_indexed (cpuOf 0 0 0 0xFD 0x8001 0x20
      [(0x8001, 0xFF), (0x00FF, 0x34), (0x0000, 0x12), (0x0100, 0x56)])
      (ramOfList_lt _)).2.2.2.2.1.trans (by decide)⟩

/-! ## Rotates through carry (C20) -/

theorem shl_or_carry (a : Nat) (c : Bool) :
    (a <<< 1) ||| (if c = true then 1 else 0) = 2 * a + c.toNat := by
  have h := Nat.mul_add_lt_is_or (show c.toNat < 2 ^ 1 by cases c <;> decide) a
  rw [Nat.shiftLeft_eq, Nat.mul_comm a (2 ^ 1)]
  cases c
  · simp
  · simpa using h.symm

theorem shr_or_carry (a : Nat) (ha : a < 256) (c : Bool) :
    (a >>> 1) ||| (if c = true then 0x80 else 0x00) = a / 2 + 128 * c.toNat := by
  have h := Nat.mul_add_lt_is_or (show a / 2 < 2 ^ 7 by norm_num; omega) c.toNat
  rw [Nat.shiftRight_eq_div_pow, Nat.lor_comm]
  cases c
  · simp
  · simp only [Nat.reducePow, Bool.toNat_true, Nat.mul_one, if_true, Nat.pow_one] at h ⊢
    omega

theorem ROL_accumulator (s : Cpu6502) (hmode : s.currentAddressingMode = AddressingMode.IMP) :
    (Cpu6502.ROL s).1.A = (2 * s.A + (s.getFlag Flags.C).toNat) % 256 ∧
    (Cpu6502.ROL s).1.getFlag Flags.C = decide (s.A / 128 % 2 = 1) ∧
    (Cpu6502.ROL s).1.currentAddressingMode = AddressingMode.IMP := by
  simp only [Cpu6502.ROL, Cpu6502.updateZeroAndNegativeFlags, updateFlag_eq, hmode, if_true,
    shl_or_carry, Cpu6502.getFlag, flag_update_test, ← sign_test]
  simp

theorem ROR_accumulator (s : Cpu6502) (hA : s.A < 256)
    (hmode : s.currentAddressingMode = AddressingMode.IMP) :
    (Cpu6502.ROR s).1.A = (s.A / 2 + 128 * (s.getFlag Flags.C).toNat) % 256 ∧
    (Cpu6502.ROR s).1.getFlag Flags.C = decide (s.A % 2 = 1) ∧
    (Cpu6502.ROR s).1.currentAddressingMode = AddressingMode.IMP := by
  simp only [Cpu6502.ROR, Cpu6502.updateZeroAndNegativeFlags, updateFlag_eq, hmode, if_true,
    shr_or_carry _ hA, Cpu6502.getFlag, flag_update_test, Nat.and_one_is_mod]
  by_cases h : s.A % 2 = 1 <;> simp [h]

/-- C20: in accumulator form, for every byte `b` in `A` and every carry `c`:
`ROL` leaves `(2b + c) mod 256` with carry bit 7 of `b`, `ROR` leaves
`b / 2 + 128c` with carry bit 0 of `b`; `ROL` followed by `ROR`, and `ROR`
followed by `ROL`, each fed the carry the first rotate produced, return the
accumulator to `b` and the carry flag to `c`. -/
theorem rotate_roundtrip (s : Cpu6502) (hA : s.A < 256)
    (hmode : s.currentAddressingMode = AddressingMode.IMP) :
    (Cpu6502.ROL s).1.A = (2 * s.A + (s.getFlag Flags.C).toNat) % 256 ∧
    ((Cpu6502.ROL s).1.getFlag Flags.C = true ↔ s.A / 128 % 2 = 1) ∧
    (Cpu6502.ROR s).1.A = s.A / 2 + 128 * (s.getFlag Flags.C).toNat ∧
    ((Cpu6502.ROR s).1.getFlag Flags.C = true ↔ s.A % 2 = 1) ∧
    (Cpu6502.ROR (Cpu6502.ROL s).1).1.A = s.A ∧
    (Cpu6502.ROR (Cpu6502.ROL s).1).1.getFlag Flags.C = s.getFlag Flags.C ∧
    (Cpu6502.ROL (Cpu6502.ROR s).1).1.A = s.A ∧
    (Cpu6502.ROL (Cpu6502.ROR s).1).1.getFlag Flags.C = s.getFlag Flags.C := by
  have hL := ROL_accumulator s hmode
  have hR := ROR_accumulator s hA hmode
  have hLA : (Cpu6502.ROL s).1.A < 256 := by rw [hL.1]; exact Nat.mod_lt _ (by decide)
  have hRA : (Cpu6502.ROR s).1.A < 256 := by rw [hR.1]; exact Nat.mod_lt _ (by decide)
  have hRL := ROR_accumulator (Cpu6502.ROL s).1 hLA hL.2.2
  have hLR := ROL_accumulator (Cpu6502.ROR s).1 hR.2.2
  rw [hL.1, hL.2.1] at hRL
  rw [hR.1, hR.2.1] at hLR
  have hc : (s.getFlag Flags.C).toNat ≤ 1 := by cases s.getFlag Flags.C <;> decide
  refine ⟨hL.1, ?_, ?_, ?_, ?_, ?_, ?_, ?_⟩
  · rw [hL.2.1]; simp
  · rw [hR.1]; omega
  · rw [hR.2.1]; simp
  · rw [hRL.1]
    by_cases h7 : s.A / 128 % 2 = 1 <;> simp [h7] <;> omega
  · rw [hRL.2.1]
    cases hC : s.getFlag Flags.C <;> simp <;> omega
  · rw [hLR.1]
    by_cases h0 : s.A % 2 = 1 <;> simp [h0] <;> omega
  · rw [hLR.2.1]
    cases hC : s.getFlag Flags.C <;> simp <;> omega

/-- C20 with `A = 0x81` and the carry set: `ROL` gives 0x03 with carry set,
`ROR` gives 0xC0 with carry set, and both round trips return 0x81 with the
carry set. -/
theorem rotate_roundtrip_witness :
    (cpuOf 0x81 0 0 0xFD 0x8001 0x21 []).currentAddressingMode = AddressingMode.IMP ∧
    (Cpu6502.ROL (cpuOf 0x81 0 0 0xFD 0x8001 0x21 [])).1.A = 0x03 ∧
    (Cpu6502.ROR (cpuOf 0x81 0 0 0xFD 0x8001 0x21 [])).1.A = 0xC0 ∧
    (Cpu6502.ROR (Cpu6502.ROL (cpuOf 0x81 0 0 0xFD 0x8001 0x21 [])).1).1.A = 0x81 ∧
    (Cpu6502.ROR (Cpu6502.ROL (cpuOf 0x81 0 0 0xFD 0x8001 0x21 [])).1).1.getFlag Flags.C
      = true ∧
    (Cpu6502.ROL (Cpu6502.ROR (cpuOf 0x81 0 0 0xFD 0x8001 0x21 [])).1).1.A = 0x81 ∧
    (Cpu6502.ROL (Cpu6502.ROR (cpuOf 0x81 0 0 0xFD 0x8001 0x21 [])).1).1.getFlag Flags.C
      = true :=
  ⟨rfl,
   (rotate_roundtrip (cpuOf 0x81 0 0 0xFD 0x8001 0x21 []) (by decide) rfl).1.trans (by decide),
   (rotate_roundtrip (cpuOf 0x81 0 0 0xFD 0x8001 0x21 []) (by decide) rfl).2.2.1.trans
      (by decide),
   (rotate_roundtrip (cpuOf 0x81 0 0 0xFD 0x8001 0x21 []) (by decide) rfl).2.2.2.2.1,
   (rotate_roundtrip (cpuOf 0x81 0 0 0xFD 0x8001 0x21 []) (by decide) rfl).2.2.2.2.2.1.trans
      (by decide),
   (rotate_roundtrip (cpuOf 0x81 0 0 0xFD 0x8001 0x21 []) (by decide) rfl).2.2.2.2.2.2.1,
   (rotate_roundtrip (cpuOf 0x81 0 0 0xFD 0x8001 0x21 []) (by decide) rfl).2.2.2.2.2.2.2.trans
      (by decide)⟩

/-! ## Shifts on the accumulator (C21) -/

theorem ASL_accumulator (s : Cpu6502) (hmode : s.currentAddressingMode = AddressingMode.IMP) :
    (Cpu6502.ASL (Cpu6502.IMP s).1).1.A = (2 * s.A) % 256 ∧
    (Cpu6502.ASL (Cpu6502.IMP s).1).1.getFlag Flags.C = decide (s.A / 128 % 2 = 1) ∧
    (Cpu6502.ASL (Cpu6502.IMP s).1).1.currentAddressingMode = AddressingMode.IMP := by
  simp only [Cpu6502.ASL, Cpu6502.IMP, Cpu6502.read, Cpu6502.updateZeroAndNegativeFlags,
    updateFlag_eq, hmode, if_true, Cpu6502.getFlag, flag_update_test, ← sign_test,
    Nat.shiftLeft_eq, Nat.mod_mod]
  refine ⟨by omega, by simp, trivial⟩

theorem LSR_accumulator (s : Cpu6502) (hA : s.A < 256)
    (hmode : s.currentAddressingMode = AddressingMode.IMP) :
    (Cpu6502.LSR (Cpu6502.IMP s).1).1.A = s.A / 2 ∧
    (Cpu6502.LSR (Cpu6502.IMP s).1).1.getFlag Flags.C = decide (s.A % 2 = 1) ∧
    (Cpu6502.LSR (Cpu6502.IMP s).1).1.currentAddressingMode = AddressingMode.IMP := by
  simp only [Cpu6502.LSR, Cpu6502.IMP, Cpu6502.read, Cpu6502.updateZeroAndNegativeFlags,
    updateFlag_eq, hmode, if_true, Cpu6502.getFlag, flag_update_test, LOW_BYTE_MASK,
    and_low_byte, Nat.and_one_is_mod, Nat.shiftRight_eq_div_pow, Nat.mod_mod]
  refine ⟨by omega, ?_, trivial⟩
  by_cases h : s.A % 2 = 1 <;> simp [h]

/-- C21: on the accumulator, with `IMP` run before each handler as `clock`
does, `ASL` leaves `2b mod 256` with carry bit 7 of `b`, and `LSR` after it
leaves `b AND 0x7F` with the carry clear, for every byte `b`; so the byte is
restored exactly when its bit 7 is clear. -/
theorem ASL_LSR_accumulator (s : Cpu6502) (hA : s.A < 256)
    (hmode : s.currentAddressingMode = AddressingMode.IMP) :
    (Cpu6502.ASL (Cpu6502.IMP s).1).1.A = (2 * s.A) % 256 ∧
    ((Cpu6502.ASL (Cpu6502.IMP s).1).1.getFlag Flags.C = true ↔ s.A / 128 % 2 = 1) ∧
    (Cpu6502.LSR (Cpu6502.IMP (Cpu6502.ASL (Cpu6502.IMP s).1).1).1).1.A = s.A &&& 0x7F ∧
    (Cpu6502.LSR (Cpu6502.IMP (Cpu6502.ASL (Cpu6502.IMP s).1).1).1).1.getFlag Flags.C = false ∧
    ((Cpu6502.LSR (Cpu6502.IMP (Cpu6502.ASL (Cpu6502.IMP s).1).1).1).1.A = s.A ↔
      s.A / 128 % 2 = 0) := by
  have hL := ASL_accumulator s hmode
  have hLA : (Cpu6502.ASL (Cpu6502.IMP s).1).1.A < 256 := by
    rw [hL.1]; exact Nat.mod_lt _ (by decide)
  have hR := LSR_accumulator (Cpu6502.ASL (Cpu6502.IMP s).1).1 hLA hL.2.2
  have h7f : s.A &&& 0x7F = s.A % 128 := Nat.and_pow_two_sub_one_eq_mod s.A 7
  rw [hL.1] at hR
  refine ⟨hL.1, ?_, ?_, ?_, ?_⟩
  · rw [hL.2.1]; simp
  · rw [hR.1, h7f]; omega
  · rw [hR.2.1]; simp; omega
  · rw [hR.1]; omega

/-- C21 on `b = 0x80`: `ASL` gives 0x00 with the carry set, `LSR` then gives
0x00 with the carry clear, not 0x80; `b = 0x41` comes back as 0x41. -/
theorem ASL_LSR_accumulator_witness :
    (cpuOf 0x80 0 0 0xFD 0x8001 0x20 []).currentAddressingMode = AddressingMode.IMP ∧
    (Cpu6502.LSR (Cpu6502.IMP (Cpu6502.ASL (Cpu6502.IMP
      (cpuOf 0x80 0 0 0xFD 0x8001 0x20 [])).1).1).1).1.A = 0x00 ∧
    (Cpu6502.LSR (Cpu6502.IMP (Cpu6502.ASL (Cpu6502.IMP
      (cpuOf 0x80 0 0 0xFD 0x8001 0x20 [])).1).1).1).1.getFlag Flags.C = false ∧
    (Cpu6502.LSR (Cpu6502.IMP (Cpu6502.ASL (Cpu6502.IMP
      (cpuOf 0x41 0 0 0xFD 0x8001 0x20 [])).1).1).1).1.A = 0x41 :=
  ⟨rfl,
   (ASL_LSR_accumulator (cpuOf 0x80 0 0 0xFD 0x8001 0x20 []) (by decide) rfl).2.2.1.trans
      (by decide),
   (ASL_LSR_accumulator (cpuOf 0x80 0 0 0xFD 0x8001 0x20 []) (by decide) rfl).2.2.2.1,
   (ASL_LSR_accumulator (cpuOf 0x41 0 0 0xFD 0x8001 0x20 []) (by decide) rfl).2.2.2.2.2
      (by decide)⟩

/-! ## ADC and SBC (C22-C25) -/

theorem xor_low_byte (m : Nat) (hm : m < 256) : m ^^^ 0xFF = 255 - m := by
  apply Nat.eq_of_testBit_eq
  intro i
  have e : (0xFF : Nat) = 2 ^ 8 - 1 := by norm_num
  have e2 : 255 - m = 2 ^ 8 - (m + 1) := by norm_num; omega
  rw [e2, Nat.testBit_two_pow_sub_succ (by simpa using hm), Nat.testBit_xor, e,
    Nat.testBit_two_pow_sub_one]
  by_cases hi : i < 8
  · cases m.testBit i <;> simp [hi]
  · have hlt : m < 2 ^ i :=
      Nat.lt_of_lt_of_le hm (by
        calc 256 = 2 ^ 8 := by norm_num
          _ ≤ 2 ^ i := Nat.pow_le_pow_right (by decide) (by omega))
    simp [hi, Nat.testBit_lt_two_pow hlt]

theorem ADC_read (s : Cpu6502) :
    (Cpu6502.ADC s).1.read (Cpu6502.ADC s).1.currentAddress = s.read s.currentAddress := by
  simp only [Cpu6502.ADC, Cpu6502.updateZeroAndNegativeFlags, updateFlag_eq, Cpu6502.read]
  split <;> rfl

theorem ADC_result (s : Cpu6502) (hA : s.A < 256) (hM : s.read s.currentAddress < 256) :
    (Cpu6502.ADC s).1.A =
      (s.A + s.read s.currentAddress + (s.getFlag Flags.C).toNat) % 256 ∧
    (Cpu6502.ADC s).1.getFlag Flags.C =
      decide (s.A + s.read s.currentAddress + (s.getFlag Flags.C).toNat > 255) := by
  have hc : (s.status &&& Flags.C.mask != 0).toNat ≤ 1 := by
    cases (s.status &&& Flags.C.mask != 0) <;> decide
  have hsum : (s.A + s.read s.currentAddress + (s.status &&& Flags.C.mask != 0).toNat) % 65536 =
      s.A + s.read s.currentAddress + (s.status &&& Flags.C.mask != 0).toNat := by omega
  simp only [Cpu6502.ADC, Cpu6502.updateZeroAndNegativeFlags, updateFlag_eq, Cpu6502.getFlag,
    flag_update_test, LOW_BYTE_MASK, and_low_byte, Nat.mod_mod, hsum]
  simp

theorem SBC_result (s : Cpu6502) (hA : s.A < 256) (hM : s.read s.currentAddress < 256) :
    (Cpu6502.SBC s).1.A =
      (s.A + (255 - s.read s.currentAddress) + (s.getFlag Flags.C).toNat) % 256 ∧
    (Cpu6502.SBC s).1.getFlag Flags.C =
      decide (s.A + (255 - s.read s.currentAddress) + (s.getFlag Flags.C).toNat > 255) := by
  have hc : (s.status &&& Flags.C.mask != 0).toNat ≤ 1 := by
    cases (s.status &&& Flags.C.mask != 0) <;> decide
  have hinv : (s.read s.currentAddress ^^^ 0xFF) % 65536 = 255 - s.read s.currentAddress := by
    rw [xor_low_byte _ hM]; omega
  have hsum : (s.A + (255 - s.read s.currentAddress) +
        (s.status &&& Flags.C.mask != 0).toNat) % 65536 =
      s.A + (255 - s.read s.currentAddress) + (s.status &&& Flags.C.mask != 0).toNat := by
    omega
  simp only [Cpu6502.SBC, Cpu6502.updateZeroAndNegativeFlags, updateFlag_eq, Cpu6502.getFlag,
    flag_update_test, LOW_BYTE_MASK, HIGH_BYTE_MASK, and_low_byte, and_high_byte, Nat.mod_mod,
    hinv, hsum]
  refine ⟨by simp, ?_⟩
  simp
  by_cases h : 255 < s.A + (255 - s.read s.currentAddress) +
      (s.status &&& Flags.C.mask != 0).toNat
  · simp only [h, decide_True, bne_iff_ne, ne_eq]
    omega
  · simp only [h, decide_False, bne_eq_false_iff_eq]
    omega

theorem carry_reset (t : Cpu6502) (c : Bool) :
    (t.updateFlag c Flags.C).getFlag Flags.C = c ∧
    (t.updateFlag c Flags.C).A = t.A ∧
    (t.updateFlag c Flags.C).read (t.updateFlag c Flags.C).currentAddress =
      t.read t.currentAddress := by
  simp only [updateFlag_eq, Cpu6502.getFlag, flag_update_test, Cpu6502.read, if_true, and_self]

/-- C22 refuted: `ADC #$05` from `A = 0x10` with the carry clear gives 0x15
with the carry clear; `SBC #$05` with the same carry-in (clear) then gives
0x0F with the carry set: neither the accumulator 0x10 nor the carry returns. -/
theorem ADC_SBC_same_carry_not_identity :
    (cpuAt AddressingMode.IMM 0x8001 (cpuOf 0x10 0 0 0xFD 0x8002 0x20 [(0x8001, 0x05)])).getFlag
      Flags.C = false ∧
    (Cpu6502.ADC (cpuAt AddressingMode.IMM 0x8001
      (cpuOf 0x10 0 0 0xFD 0x8002 0x20 [(0x8001, 0x05)]))).1.A = 0x15 ∧
    (Cpu6502.ADC (cpuAt AddressingMode.IMM 0x8001
      (cpuOf 0x10 0 0 0xFD 0x8002 0x20 [(0x8001, 0x05)]))).1.getFlag Flags.C = false ∧
    (Cpu6502.SBC ((Cpu6502.ADC (cpuAt AddressingMode.IMM 0x8001
      (cpuOf 0x10 0 0 0xFD 0x8002 0x20 [(0x8001, 0x05)]))).1.updateFlag false Flags.C)).1.A
      = 0x0F ∧
    (Cpu6502.SBC ((Cpu6502.ADC (cpuAt AddressingMode.IMM 0x8001
      (cpuOf 0x10 0 0 0xFD 0x8002 0x20 [(0x8001, 0x05)]))).1.updateFlag false
        Flags.C)).1.getFlag Flags.C = true ∧
    (Cpu6502.SBC (Cpu6502.ADC (cpuAt AddressingMode.IMM 0x8001
      (cpuOf 0x10 0 0 0xFD 0x8002 0x20 [(0x8001, 0x05)]))).1).1.A = 0x0F := by
  decide

/-- C22 as amended: with byte `A`, operand byte `M` and carry-in `c`, `ADC`
followed by `SBC` on the same operand with the carry put back to `c` leaves
`(A + 2c - 1) mod 256` in the accumulator, which is never `A`, and the carry
set exactly when `(A + M + c) mod 256 + c > M`.  With the carry put to the
complement `1 - c` instead, `SBC` returns the accumulator to `A`, and the
carry is then set exactly when the `ADC` did not carry out
(`A + M + c ≤ 255`). -/
theorem ADC_SBC_carry (s : Cpu6502) (hA : s.A < 256) (hM : s.read s.currentAddress < 256) :
    (((Cpu6502.SBC ((Cpu6502.ADC s).1.updateFlag (s.getFlag Flags.C) Flags.C)).1.A : Nat)
        : Int) =
      ((s.A : Int) + 2 * ((s.getFlag Flags.C).toNat : Int) - 1) % 256 ∧
    (Cpu6502.SBC ((Cpu6502.ADC s).1.updateFlag (s.getFlag Flags.C) Flags.C)).1.A ≠ s.A ∧
    ((Cpu6502.SBC ((Cpu6502.ADC s).1.updateFlag (s.getFlag Flags.C) Flags.C)).1.getFlag Flags.C
        = true ↔
      (s.A + s.read s.currentAddress + (s.getFlag Flags.C).toNat) % 256 +
        (s.getFlag Flags.C).toNat > s.read s.currentAddress) ∧
    (Cpu6502.SBC ((Cpu6502.ADC s).1.updateFlag (!s.getFlag Flags.C) Flags.C)).1.A = s.A ∧
    ((Cpu6502.SBC ((Cpu6502.ADC s).1.updateFlag (!s.getFlag Flags.C) Flags.C)).1.getFlag Flags.C
        = true ↔
      s.A + s.read s.currentAddress + (s.getFlag Flags.C).toNat ≤ 255) := by
  have hADC := ADC_result s hA hM
  have hrd := ADC_read s
  have hA1 : (Cpu6502.ADC s).1.A < 256 := by rw [hADC.1]; exact Nat.mod_lt _ (by decide)
  have key : ∀ c : Bool,
      (Cpu6502.SBC ((Cpu6502.ADC s).1.updateFlag c Flags.C)).1.A =
        ((s.A + s.read s.currentAddress + (s.getFlag Flags.C).toNat) % 256 +
          (255 - s.read s.currentAddress) + c.toNat) % 256 ∧
      (Cpu6502.SBC ((Cpu6502.ADC s).1.updateFlag c Flags.C)).1.getFlag Flags.C =
        decide ((s.A + s.read s.currentAddress + (s.getFlag Flags.C).toNat) % 256 +
          (255 - s.read s.currentAddress) + c.toNat > 255) := by
    intro c
    have hr := carry_reset (Cpu6502.ADC s).1 c
    have h := SBC_result ((Cpu6502.ADC s).1.updateFlag c Flags.C)
      (by rw [hr.2.1]; exact hA1) (by rw [hr.2.2, hrd]; exact hM)
    rw [hr.1, hr.2.1, hr.2.2, hrd, hADC.1] at h
    exact h
  have h1 := key (s.getFlag Flags.C)
  have h2 := key (!s.getFlag Flags.C)
  cases hc : s.getFlag Flags.C <;>
    simp only [hc, Bool.toNat_false, Bool.toNat_true, Bool.not_false, Bool.not_true] at h1 h2 ⊢ <;>
    rw [h1.1, h1.2, h2.1, h2.2] <;>
    simp only [decide_eq_true_eq] <;>
    omega

/-- The amended C22 on `A = 0x10`, `M = 0x05`, carry clear: with the carry
set before the `SBC` the accumulator is 0x10 again and the carry ends set. -/
theorem ADC_SBC_carry_witness :
    (cpuAt AddressingMode.IMM 0x8001 (cpuOf 0x10 0 0 0xFD 0x8002 0x20 [(0x8001, 0x05)])).A
      < 256 ∧
    (Cpu6502.SBC ((Cpu6502.ADC (cpuAt AddressingMode.IMM 0x8001
      (cpuOf 0x10 0 0 0xFD 0x8002 0x20 [(0x8001, 0x05)]))).1.updateFlag true Flags.C)).1.A
      = 0x10 ∧
    (Cpu6502.SBC ((Cpu6502.ADC (cpuAt AddressingMode.IMM 0x8001
      (cpuOf 0x10 0 0 0xFD 0x8002 0x20 [(0x8001, 0x05)]))).1.updateFlag true
        Flags.C)).1.getFlag Flags.C = true :=
  ⟨by decide,
   (ADC_SBC_carry (cpuAt AddressingMode.IMM 0x8001
      (cpuOf 0x10 0 0 0xFD 0x8002 0x20 [(0x8001, 0x05)])) (by decide) (by decide)).2.2.2.1,
   (ADC_SBC_carry (cpuAt AddressingMode.IMM 0x8001
      (cpuOf 0x10 0 0 0xFD 0x8002 0x20 [(0x8001, 0x05)])) (by decide) (by decide)).2.2.2.2.2
      (by decide)⟩

/-- C23: let two states differ only in the `D` bit of the status byte (every
other flag reads the same in both).  Then `ADC`, and likewise `SBC`, on the
same operand leaves the same accumulator and the same `C`, `Z`, `N`, `V` (and
every other flag but `D`) in both, and in each state the `D` bit is what it
was before the operation. -/
theorem decimal_flag_ignored (s : Cpu6502) (st : Nat) (p : Operation)
    (hp : p ∈ [Operation.ADC, Operation.SBC])
    (hst : ∀ g, g ≠ Flags.D → ((st &&& g.mask) != 0) = s.getFlag g) :
    (Cpu6502.runOperation p ({ s with status := st } : Cpu6502)).1.A =
      (Cpu6502.runOperation p s).1.A ∧
    (∀ g, g ≠ Flags.D →
      (Cpu6502.runOperation p ({ s with status := st } : Cpu6502)).1.getFlag g =
        (Cpu6502.runOperation p s).1.getFlag g) ∧
    (Cpu6502.runOperation p s).1.getFlag Flags.D = s.getFlag Flags.D ∧
    (Cpu6502.runOperation p ({ s with status := st } : Cpu6502)).1.getFlag Flags.D =
      ({ s with status := st } : Cpu6502).getFlag Flags.D := by
  simp only [Cpu6502.getFlag] at hst
  have hC := hst Flags.C (by decide)
  fin_cases hp
  · simp only [Cpu6502.runOperation, Cpu6502.ADC, Cpu6502.updateZeroAndNegativeFlags,
      updateFlag_eq, Cpu6502.getFlag, flag_update_test, Cpu6502.read, hC]
    refine ⟨trivial, ?_, by simp, by simp⟩
    intro g hg
    rw [hst g hg]
  · simp only [Cpu6502.runOperation, Cpu6502.SBC, Cpu6502.updateZeroAndNegativeFlags,
      updateFlag_eq, Cpu6502.getFlag, flag_update_test, Cpu6502.read, hC]
    refine ⟨trivial, ?_, by simp, by simp⟩
    intro g hg
    rw [hst g hg]

/-- C23 on `ADC #$50` with `A = 0x50`, once with status 0x20 and once with
0x28 (`D` set): both leave `A = 0xA0` and `V` set, and `D` stays clear in the
one and set in the other. -/
theorem decimal_flag_ignored_witness :
    (Cpu6502.ADC (cpuAt AddressingMode.IMM 0x8001
      (cpuOf 0x50 0 0 0xFD 0x8002 0x28 [(0x8001, 0x50)]))).1.A = 0xA0 ∧
    (Cpu6502.ADC (cpuAt AddressingMode.IMM 0x8001
      (cpuOf 0x50 0 0 0xFD 0x8002 0x28 [(0x8001, 0x50)]))).1.getFlag Flags.V = true ∧
    (Cpu6502.ADC (cpuAt AddressingMode.IMM 0x8001
      (cpuOf 0x50 0 0 0xFD 0x8002 0x28 [(0x8001, 0x50)]))).1.getFlag Flags.D = true ∧
    (Cpu6502.ADC (cpuAt AddressingMode.IMM 0x8001
      (cpuOf 0x50 0 0 0xFD 0x8002 0x20 [(0x8001, 0x50)]))).1.getFlag Flags.D = false :=
  ⟨(decimal_flag_ignored (cpuAt AddressingMode.IMM 0x8001
      (cpuOf 0x50 0 0 0xFD 0x8002 0x20 [(0x8001, 0x50)])) 0x28 Operation.ADC (by simp)
      (by intro g hg; cases g <;> first | rfl | exact absurd rfl hg)).1.trans (by decide),
   ((decimal_flag_ignored (cpuAt AddressingMode.IMM 0x8001
      (cpuOf 0x50 0 0 0xFD 0x8002 0x20 [(0x8001, 0x50)])) 0x28 Operation.ADC (by simp)
      (by intro g hg; cases g <;> first | rfl | exact absurd rfl hg)).2.1 Flags.V
      (by decide)).trans (by decide),
   (decimal_flag_ignored (cpuAt AddressingMode.IMM 0x8001
      (cpuOf 0x50 0 0 0xFD 0x8002 0x20 [(0x8001, 0x50)])) 0x28 Operation.ADC (by simp)
      (by intro g hg; cases g <;> first | rfl | exact absurd rfl hg)).2.2.2.trans (by decide),
   (decimal_flag_ignored (cpuAt AddressingMode.IMM 0x8001
      (cpuOf 0x50 0 0 0xFD 0x8002 0x20 [(0x8001, 0x50)])) 0x28 Operation.ADC (by simp)
      (by intro g hg; cases g <;> first | rfl | exact absurd rfl hg)).2.2.1.trans (by decide)⟩

theorem ADC_overflow_test (a m t : Nat) :
    (((0xFFFFFFFF ^^^ (a ^^^ m)) &&& (a ^^^ t) &&& SIGN_BIT_MASK) != 0) =
      (decide (a / 128 % 2 = m / 128 % 2) && decide (a / 128 % 2 ≠ t / 128 % 2)) := by
  have e : SIGN_BIT_MASK = 2 ^ 7 := rfl
  have e2 : (0xFFFFFFFF : Nat) = 2 ^ 32 - 1 := by norm_num
  rw [e, and_pow_test, Nat.testBit_and, Nat.testBit_xor, Nat.testBit_xor, Nat.testBit_xor, e2,
    Nat.testBit_two_pow_sub_one]
  simp only [Nat.testBit_to_div_mod, Nat.reducePow]
  have ha : a / 128 % 2 = 0 ∨ a / 128 % 2 = 1 := by omega
  have hm : m / 128 % 2 = 0 ∨ m / 128 % 2 = 1 := by omega
  have ht : t / 128 % 2 = 0 ∨ t / 128 % 2 = 1 := by omega
  rcases ha with ha | ha <;> rcases hm with hm | hm <;> rcases ht with ht | ht <;>
    simp [ha, hm, ht]

/-- C24: for bytes `A`, `M` and carry-in `c`, after `ADC` the `V` flag is set
exactly when the signed sum `s(A) + s(M) + c` lies outside `[-128, 127]`,
where `s` reads a byte as a two's-complement 8-bit integer. -/
theorem ADC_overflow (s : Cpu6502) (hA : s.A < 256) (hM : s.read s.currentAddress < 256) :
    (Cpu6502.ADC s).1.getFlag Flags.V = true ↔
      ((if s.A < 128 then (s.A : Int) else (s.A : Int) - 256) +
        (if s.read s.currentAddress < 128 then (s.read s.currentAddress : Int)
          else (s.read s.currentAddress : Int) - 256) +
        ((s.getFlag Flags.C).toNat : Int) < -128 ∨
       (if s.A < 128 then (s.A : Int) else (s.A : Int) - 256) +
        (if s.read s.currentAddress < 128 then (s.read s.currentAddress : Int)
          else (s.read s.currentAddress : Int) - 256) +
        ((s.getFlag Flags.C).toNat : Int) > 127) := by
  have hc : (s.status &&& Flags.C.mask != 0).toNat ≤ 1 := by
    cases (s.status &&& Flags.C.mask != 0) <;> decide
  have hsum : (s.A + s.read s.currentAddress + (s.status &&& Flags.C.mask != 0).toNat) % 65536 =
      s.A + s.read s.currentAddress + (s.status &&& Flags.C.mask != 0).toNat := by omega
  simp only [Cpu6502.ADC, Cpu6502.updateZeroAndNegativeFlags, updateFlag_eq, Cpu6502.getFlag,
    flag_update_test, if_true, hsum, ADC_overflow_test]
  simp only [Bool.and_eq_true, decide_eq_true_eq]
  by_cases h1 : s.A < 128 <;> by_cases h2 : s.read s.currentAddress < 128 <;>
    simp only [h1, h2, if_true, if_false] <;> omega

/-- C24 on the seed scenario: `0x50 + 0x50` is `80 + 80 = 160 > 127`, so `V` is
set; `0x50 + 0x10` is `96`, so `V` is clear. -/
theorem ADC_overflow_witness :
    (cpuAt AddressingMode.IMM 0x8001 (cpuOf 0x50 0 0 0xFD 0x8002 0x20 [(0x8001, 0x50)])).A
      < 256 ∧
    (Cpu6502.ADC (cpuAt AddressingMode.IMM 0x8001
      (cpuOf 0x50 0 0 0xFD 0x8002 0x20 [(0x8001, 0x50)]))).1.getFlag Flags.V = true ∧
    ¬ (Cpu6502.ADC (cpuAt AddressingMode.IMM 0x8001
      (cpuOf 0x50 0 0 0xFD 0x8002 0x20 [(0x8001, 0x10)]))).1.getFlag Flags.V = true :=
  ⟨by decide,
   (ADC_overflow (cpuAt AddressingMode.IMM 0x8001
      (cpuOf 0x50 0 0 0xFD 0x8002 0x20 [(0x8001, 0x50)])) (by decide) (by decide)).2
      (by decide),
   fun h => absurd ((ADC_overflow (cpuAt AddressingMode.IMM 0x8001
      (cpuOf 0x50 0 0 0xFD 0x8002 0x20 [(0x8001, 0x10)])) (by decide) (by decide)).1 h)
      (by decide)⟩

theorem SBC_overflow_test (a m t : Nat) :
    ((((t ^^^ a) &&& (t ^^^ m)) &&& SIGN_BIT_MASK) != 0) =
      (decide (a / 128 % 2 = m / 128 % 2) && decide (a / 128 % 2 ≠ t / 128 % 2)) := by
  have e : SIGN_BIT_MASK = 2 ^ 7 := rfl
  rw [e, and_pow_test, Nat.testBit_and, Nat.testBit_xor, Nat.testBit_xor]
  simp only [Nat.testBit_to_div_mod, Nat.reducePow]
  have ha : a / 128 % 2 = 0 ∨ a / 128 % 2 = 1 := by omega
  have hm : m / 128 % 2 = 0 ∨ m / 128 % 2 = 1 := by omega
  have ht : t / 128 % 2 = 0 ∨ t / 128 % 2 = 1 := by omega
  rcases ha with ha | ha <;> rcases hm with hm | hm <;> rcases ht with ht | ht <;>
    simp [ha, hm, ht]

theorem high_byte_test (x : Nat) :
    (((x % 65536) &&& HIGH_BYTE_MASK) != 0) = decide (x % 65536 > LOW_BYTE_MASK) := by
  simp only [HIGH_BYTE_MASK, LOW_BYTE_MASK, and_high_byte]
  by_cases h : x % 65536 > 255
  · simp only [h, decide_True, bne_iff_ne, ne_eq]
    omega
  · simp only [h, decide_False, bne_eq_false_iff_eq]
    omega

/-- C25: let `t` be the state `s` with the operand `M` (a byte) replaced by
`M XOR 0xFF`, i.e. `t` has the accumulator and status of `s` and `read`
delivers `M XOR 0xFF` in `t`.  Then `SBC` on `s` and `ADC` on `t` leave the
same accumulator and the same status byte, hence the same `C`, `Z`, `N`, `V`;
and `SBC`'s overflow test equals `ADC`'s overflow formula on the complemented
operand `m` for all `a`, `m` and sums `w`. -/
theorem SBC_as_ADC_of_complement (s t : Cpu6502) (hM : s.read s.currentAddress < 256)
    (hA : t.A = s.A) (hst : t.status = s.status)
    (hop : t.read t.currentAddress = s.read s.currentAddress ^^^ 0xFF) :
    (Cpu6502.SBC s).1.A = (Cpu6502.ADC t).1.A ∧
    (Cpu6502.SBC s).1.status = (Cpu6502.ADC t).1.status ∧
    (∀ g, (Cpu6502.SBC s).1.getFlag g = (Cpu6502.ADC t).1.getFlag g) ∧
    (∀ a m w : Nat,
      ((((w ^^^ a) &&& (w ^^^ m)) &&& SIGN_BIT_MASK) != 0) =
        (((0xFFFFFFFF ^^^ (a ^^^ m)) &&& (a ^^^ w) &&& SIGN_BIT_MASK) != 0)) := by
  have hinv : (s.read s.currentAddress ^^^ LOW_BYTE_MASK) % 65536 =
      s.read s.currentAddress ^^^ 0xFF := by
    show (s.read s.currentAddress ^^^ 0xFF) % 65536 = _
    rw [xor_low_byte _ hM]; omega
  have hstatus : (Cpu6502.SBC s).1.status = (Cpu6502.ADC t).1.status := by
    simp only [Cpu6502.SBC, Cpu6502.ADC, Cpu6502.updateZeroAndNegativeFlags, updateFlag_eq,
      Cpu6502.getFlag, hA, hst, hop, hinv, high_byte_test, SBC_overflow_test,
      ADC_overflow_test]
  refine ⟨?_, hstatus, ?_, ?_⟩
  · simp only [Cpu6502.SBC, Cpu6502.ADC, Cpu6502.updateZeroAndNegativeFlags, updateFlag_eq,
      Cpu6502.getFlag, hA, hst, hop, hinv]
  · intro g
    simp only [Cpu6502.getFlag, hstatus]
  · intro a m w
    rw [SBC_overflow_test, ADC_overflow_test]

/-- C25 on `SBC #$30` against `ADC #$CF`, both from `A = 0x50` with the carry
set: both leave `A = 0x20` and the same status byte. -/
theorem SBC_as_ADC_of_complement_witness :
    (cpuAt AddressingMode.IMM 0x8001
      (cpuOf 0x50 0 0 0xFD 0x8002 0x21 [(0x8001, 0xCF)])).read 0x8001 =
      (cpuAt AddressingMode.IMM 0x8001
        (cpuOf 0x50 0 0 0xFD 0x8002 0x21 [(0x8001, 0x30)])).read 0x8001 ^^^ 0xFF ∧
    (Cpu6502.SBC (cpuAt AddressingMode.IMM 0x8001
      (cpuOf 0x50 0 0 0xFD 0x8002 0x21 [(0x8001, 0x30)]))).1.A = 0x20 ∧
    (Cpu6502.SBC (cpuAt AddressingMode.IMM 0x8001
      (cpuOf 0x50 0 0 0xFD 0x8002 0x21 [(0x8001, 0x30)]))).1.status =
      (Cpu6502.ADC (cpuAt AddressingMode.IMM 0x8001
        (cpuOf 0x50 0 0 0xFD 0x8002 0x21 [(0x8001, 0xCF)]))).1.status :=
  ⟨by decide,
   (SBC_as_ADC_of_complement
      (cpuAt AddressingMode.IMM 0x8001 (cpuOf 0x50 0 0 0xFD 0x8002 0x21 [(0x8001, 0x30)]))
      (cpuAt AddressingMode.IMM 0x8001 (cpuOf 0x50 0 0 0xFD 0x8002 0x21 [(0x8001, 0xCF)]))
      (by decide) rfl rfl (by decide)).1.trans (by decide),
   (SBC_as_ADC_of_complement
      (cpuAt AddressingMode.IMM 0x8001 (cpuOf 0x50 0 0 0xFD 0x8002 0x21 [(0x8001, 0x30)]))
      (cpuAt AddressingMode.IMM 0x8001 (cpuOf 0x50 0 0 0xFD 0x8002 0x21 [(0x8001, 0xCF)]))
      (by decide) rfl rfl (by decide)).2.1⟩

/-! ## Page-cross reports of the addressing modes (C26) -/

theorem index_page_cross (base idx : Nat) (hi : idx < 256) :
    ((base &&& HIGH_BYTE_MASK) ≠ (((base + idx) % 65536) &&& HIGH_BYTE_MASK)) ↔
      (base &&& 0xFF) + idx ≥ 0x100 := by
  simp only [HIGH_BYTE_MASK, and_high_byte, and_low_byte]
  omega

/-- C26: with `X`, `Y` bytes, `ABX` and `ABY` (base: the little-endian word
behind the opcode) and `IZY` (base: the little-endian word at the zero-page
cells `op AND 0xFF`, `(op + 1) AND 0xFF`) report a page cross exactly when
`(base AND 0xFF) + index ≥ 0x100`, and their effective address is
`(base + index) mod 2^16`; the other nine modes always report `false`. -/
theorem page_cross_report (s : Cpu6502) (bAbs bInd : Nat)
    (hX : s.X < 256) (hY : s.Y < 256) (hmem : ∀ a, s.bus.ram.memory a < 256)
    (hbAbs : bAbs = s.bus.read s.PC ||| (s.bus.read (s.PC + 1) <<< 8))
    (hbInd : bInd = s.bus.read (s.bus.read s.PC &&& 0xFF) |||
      (s.bus.read ((s.bus.read s.PC + 1) &&& 0xFF) <<< 8)) :
    ((Cpu6502.ABX s).2 = true ↔ (bAbs &&& 0xFF) + s.X ≥ 0x100) ∧
    (Cpu6502.ABX s).1.currentAddress = (bAbs + s.X) % 65536 ∧
    ((Cpu6502.ABY s).2 = true ↔ (bAbs &&& 0xFF) + s.Y ≥ 0x100) ∧
    (Cpu6502.ABY s).1.currentAddress = (bAbs + s.Y) % 65536 ∧
    ((Cpu6502.IZY s).2 = true ↔ (bInd &&& 0xFF) + s.Y ≥ 0x100) ∧
    (Cpu6502.IZY s).1.currentAddress = (bInd + s.Y) % 65536 ∧
    (∀ m ∈ [AddrFn.IMP, AddrFn.IMM, AddrFn.ZP0, AddrFn.ZPX, AddrFn.ZPY, AddrFn.REL,
        AddrFn.ABS, AddrFn.IND, AddrFn.IZX], (Cpu6502.runAddrFn m s).2 = false) := by
  have hb : ∀ a, s.bus.read a < 256 := fun a => hmem _
  have h1 : Cpu6502.getAbsolute (s.bus.read s.PC) (s.bus.read (s.PC + 1)) = bAbs := by
    rw [hbAbs, getAbsolute_eq _ _ (hb _) (hb _)]
  have h2 : Cpu6502.getAbsolute (s.bus.read (Cpu6502.zeroPage (s.bus.read s.PC)))
      (s.bus.read (Cpu6502.zeroPage (s.bus.read s.PC + 1))) = bInd := by
    rw [hbInd, zeroPage_eq, zeroPage_eq, getAbsolute_eq _ _ (hb _) (hb _)]
  have hcX := index_page_cross bAbs s.X hX
  have hcY := index_page_cross bAbs s.Y hY
  have hcI := index_page_cross bInd s.Y hY
  refine ⟨?_, ?_, ?_, ?_, ?_, ?_, ?_⟩
  · simp only [Cpu6502.ABX, h1]
    rw [← hcX]
    split <;> simp_all
  · simp only [Cpu6502.ABX, h1]
    split <;> rfl
  · simp only [Cpu6502.ABY, h1]
    rw [← hcY]
    split <;> simp_all
  · simp only [Cpu6502.ABY, h1]
    split <;> rfl
  · simp only [Cpu6502.IZY, h2]
    rw [← hcI]
    split <;> simp_all
  · simp only [Cpu6502.IZY, h2]
    split <;> rfl
  · intro m hm
    fin_cases hm
    all_goals
      simp only [Cpu6502.runAddrFn, Cpu6502.IMP, Cpu6502.IMM, Cpu6502.ZP0, Cpu6502.ZPX,
        Cpu6502.ZPY, Cpu6502.REL, Cpu6502.ABS, Cpu6502.IND, Cpu6502.IZX]
    all_goals first
      | rfl
      | (split <;> rfl)

/-- C26 on the operand `$10FF`: with `X = 1` `ABX` reports a page cross and
yields 0x1100, with `Y = 0` `ABY` reports none and yields 0x10FF, and `ABS`
reports none. -/
theorem page_cross_report_witness :
    (0x10FF : Nat) =
      (cpuOf 0 1 0 0xFD 0x8001 0x20 [(0x8001, 0xFF), (0x8002, 0x10)]).bus.read 0x8001 |||
      ((cpuOf 0 1 0 0xFD 0x8001 0x20 [(0x8001, 0xFF), (0x8002, 0x10)]).bus.read (0x8001 + 1)
        <<< 8) ∧
    (Cpu6502.ABX (cpuOf 0 1 0 0xFD 0x8001 0x20 [(0x8001, 0xFF), (0x8002, 0x10)])).2 = true ∧
    (Cpu6502.ABX (cpuOf 0 1 0 0xFD 0x8001 0x20
      [(0x8001, 0xFF), (0x8002, 0x10)])).1.currentAddress = 0x1100 ∧
    ¬ (Cpu6502.ABY (cpuOf 0 1 0 0xFD 0x8001 0x20 [(0x8001, 0xFF), (0x8002, 0x10)])).2 = true ∧
    (Cpu6502.ABS (cpuOf 0 1 0 0xFD 0x8001 0x20 [(0x8001, 0xFF), (0x8002, 0x10)])).2 = false :=
  ⟨by decide,
   (page_cross_report (cpuOf 0 1 0 0xFD 0x8001 0x20 [(0x8001, 0xFF), (0x8002, 0x10)])
      0x10FF 0 (by decide) (by decide) (ramOfList_lt _) (by decide) (by decide)).1.2
      (by decide),
   (page_cross_report (cpuOf 0 1 0 0xFD 0x8001 0x20 [(0x8001, 0xFF), (0x8002, 0x10)])
      0x10FF 0 (by decide) (by decide) (ramOfList_lt _) (by decide) (by decide)).2.1.trans
      (by decide),
   fun h => absurd ((page_cross_report
      (cpuOf 0 1 0 0xFD 0x8001 0x20 [(0x8001, 0xFF), (0x8002, 0x10)])
      0x10FF 0 (by decide) (by decide) (ramOfList_lt _) (by decide) (by decide)).2.2.1.1 h)
      (by decide),
   (page_cross_report (cpuOf 0 1 0 0xFD 0x8001 0x20 [(0x8001, 0xFF), (0x8002, 0x10)])
      0x10FF 0 (by decide) (by decide) (ramOfList_lt _) (by decide)
      (by decide)).2.2.2.2.2.2 AddrFn.ABS (by decide)⟩

/-! ## The unused flag (C27) -/

theorem runAddrFn_frame (m : AddrFn) (s : Cpu6502) :
    (Cpu6502.runAddrFn m s).1.status = s.status ∧ (Cpu6502.runAddrFn m s).1.SP = s.SP ∧
    (Cpu6502.runAddrFn m s).1.bus = s.bus := by
  refine ⟨?_, ?_, ?_⟩ <;> cases m <;>
    simp only [Cpu6502.runAddrFn, Cpu6502.IMP, Cpu6502.IMM, Cpu6502.ZP0, Cpu6502.ZPX,
      Cpu6502.ZPY, Cpu6502.REL, Cpu6502.ABS, Cpu6502.ABX, Cpu6502.ABY, Cpu6502.IND,
      Cpu6502.IZX, Cpu6502.IZY] <;>
    (try split) <;> rfl

theorem runOperation_keeps_U (op : Operation) (s : Cpu6502) (h : s.getFlag Flags.U = true) :
    (Cpu6502.runOperation op s).1.getFlag Flags.U = true := by
  simp only [Cpu6502.getFlag] at h
  cases op
  all_goals
    simp only [Cpu6502.runOperation, Cpu6502.ADC, Cpu6502.AND, Cpu6502.ASL, Cpu6502.BCC,
      Cpu6502.BCS, Cpu6502.BEQ, Cpu6502.BIT, Cpu6502.BMI, Cpu6502.BNE, Cpu6502.BPL,
      Cpu6502.BRK, Cpu6502.BVC, Cpu6502.BVS, Cpu6502.CLC, Cpu6502.CLD, Cpu6502.CLI,
      Cpu6502.CLV, Cpu6502.CMP, Cpu6502.CPX, Cpu6502.CPY, Cpu6502.CompareLogic, Cpu6502.DEC,
      Cpu6502.DEX, Cpu6502.DEY, Cpu6502.EOR, Cpu6502.INC, Cpu6502.INX, Cpu6502.INY,
      Cpu6502.JMP, Cpu6502.JSR, Cpu6502.LDA, Cpu6502.LDX, Cpu6502.LDY, Cpu6502.LSR,
      Cpu6502.NOP, Cpu6502.ORA, Cpu6502.PHA, Cpu6502.PHP, Cpu6502.PLA, Cpu6502.PLP,
      Cpu6502.ROL, Cpu6502.ROR, Cpu6502.RTI, Cpu6502.RTS, Cpu6502.SBC, Cpu6502.SEC,
      Cpu6502.SED, Cpu6502.SEI, Cpu6502.STA, Cpu6502.STX, Cpu6502.STY, Cpu6502.TAX,
      Cpu6502.TAY, Cpu6502.TSX, Cpu6502.TXA, Cpu6502.TXS, Cpu6502.TYA, Cpu6502.XXX,
      Cpu6502.branchTaken, checkPageCrossing_eq, Cpu6502.updateZeroAndNegativeFlags,
      updateFlag_eq, Cpu6502.write, Cpu6502.getFlag]
  all_goals first
    | exact h
    | (simp only [flag_update_test, setFlag_test, clearFlag_test]; simp [h])
    | (split <;> simp only [flag_update_test, setFlag_test, clearFlag_test] <;> simp [h])

theorem clock_fetch_frame (T : Nat → Opcode6502) (s : Cpu6502) (h0 : s.cycles = 0) :
    (s.clock T).status =
      (Cpu6502.runOperation (T (s.bus.read s.PC)).operate
        (Cpu6502.runAddrFn (T (s.bus.read s.PC)).addrmode (s.fetchDecode T)).1).1.status ∧
    (s.clock T).bus =
      (Cpu6502.runOperation (T (s.bus.read s.PC)).operate
        (Cpu6502.runAddrFn (T (s.bus.read s.PC)).addrmode (s.fetchDecode T)).1).1.bus := by
  simp only [Cpu6502.clock, h0, if_true, fetchDecode_opcode]
  split <;> exact ⟨rfl, rfl⟩

theorem BRK_pushed_U (s : Cpu6502) (hSP : s.SP < 256) (hU : s.getFlag Flags.U = true) :
    (((Cpu6502.BRK s).1.bus.read (0x0100 ||| ((s.SP + 256 - 2) % 256)) &&& Flags.U.mask) != 0)
      = true := by
  simp only [Cpu6502.getFlag] at hU
  rw [stack_or _ (Nat.mod_lt _ (by decide)), (BRK_stack s hSP).2.2.1, setFlag_test,
    setFlag_test]
  simp [hU]

/-- C27: whatever the opcode table (so for every pairing of the 57 operation
handlers with the 12 addressing-mode handlers), the `clock` tick that fetches
and executes an instruction at an instruction boundary leaves `U` (bit 5) set
in the status byte.  The status byte `PHP` stores at `0x0100|SP` has `U` set
in every state; the one `BRK` stores at `0x0100|((SP-2) mod 256)` has `U` set
when `BRK` is executed through `clock`, and in any state whose `U` is set.
After `PLP` and after `RTI` the status has `U` set whatever byte was popped. -/
theorem unused_flag_invariant (T : Nat → Opcode6502) (s : Cpu6502)
    (h0 : s.cycles = 0) (hSP : s.SP < 256) :
    (s.clock T).getFlag Flags.U = true ∧
    (s.clock T).status / 32 % 2 = 1 ∧
    (((Cpu6502.PHP s).1.bus.read (0x0100 ||| s.SP) &&& Flags.U.mask) != 0) = true ∧
    ((T (s.bus.read s.PC)).operate = Operation.BRK →
      (((s.clock T).bus.read (0x0100 ||| ((s.SP + 256 - 2) % 256)) &&& Flags.U.mask) != 0)
        = true) ∧
    (s.getFlag Flags.U = true →
      (((Cpu6502.BRK s).1.bus.read (0x0100 ||| ((s.SP + 256 - 2) % 256)) &&& Flags.U.mask) != 0)
        = true) ∧
    (Cpu6502.PLP s).1.getFlag Flags.U = true ∧
    (Cpu6502.RTI s).1.getFlag Flags.U = true := by
  have hF := clock_fetch_frame T s h0
  have hM := runAddrFn_frame (T (s.bus.read s.PC)).addrmode (s.fetchDecode T)
  have hfd : (s.fetchDecode T).status = Cpu6502.setFlag s.status Flags.U ∧
      (s.fetchDecode T).SP = s.SP := by
    rw [fetchDecode_eq]
    exact ⟨rfl, rfl⟩
  have hU1 : (Cpu6502.runAddrFn (T (s.bus.read s.PC)).addrmode
      (s.fetchDecode T)).1.getFlag Flags.U = true := by
    simp only [Cpu6502.getFlag, hM.1, hfd.1, setFlag_test, if_true]
  have hclock : (s.clock T).getFlag Flags.U = true := by
    have h := runOperation_keeps_U (T (s.bus.read s.PC)).operate _ hU1
    simp only [Cpu6502.getFlag] at h ⊢
    rw [hF.1]
    exact h
  refine ⟨hclock, ?_, ?_, ?_, BRK_pushed_U s hSP, ?_, ?_⟩
  · have h := hclock
    unfold Cpu6502.getFlag at h
    rw [Flags.mask_eq, and_pow_test, Nat.testBit_to_div_mod] at h
    simpa [Flags.bit] using h
  · have hw : (Cpu6502.PHP s).1.bus.read (0x0100 + s.SP) =
        (s.status ||| Flags.B.mask ||| Flags.U.mask) % 256 := by
      simp only [Cpu6502.PHP, Cpu6502.write, STACK_BASE_ADDRESS, read_write]
      rw [if_pos (by omega)]
    rw [stack_or _ hSP, hw, Flags.mask_eq Flags.U, and_pow_test,
      set_bit_test _ _ _ (Flags.bit_lt Flags.U)]
    simp
  · intro hop
    have hSP1 : (Cpu6502.runAddrFn (T (s.bus.read s.PC)).addrmode (s.fetchDecode T)).1.SP
        < 256 := by rw [hM.2.1, hfd.2]; exact hSP
    have h := BRK_pushed_U _ hSP1 hU1
    rw [hM.2.1, hfd.2] at h
    rw [hF.2, hop]
    exact h
  · simp only [Cpu6502.PLP, Cpu6502.getFlag, setFlag_test, if_true]
  · simp only [Cpu6502.RTI, Cpu6502.getFlag, setFlag_test, if_true]

/-- C27 on a processor whose status byte is 0x00 (`U` clear) fetching `BRK`:
after the tick `U` is set, and the status byte at 0x01FB has `U` set; `RTI`
popping the byte 0x00 leaves `U` set. -/
theorem unused_flag_invariant_witness :
    (cpuOf 1 2 3 0xFD 0x8000 0x00 [(0x8000, 0x00), (0xFFFE, 0x00), (0xFFFF, 0x90)]).cycles = 0 ∧
    ((cpuOf 1 2 3 0xFD 0x8000 0x00 [(0x8000, 0x00), (0xFFFE, 0x00), (0xFFFF, 0x90)]).clock
      stackTable).getFlag Flags.U = true ∧
    ((((cpuOf 1 2 3 0xFD 0x8000 0x00 [(0x8000, 0x00), (0xFFFE, 0x00), (0xFFFF, 0x90)]).clock
      stackTable).bus.read 0x01FB &&& Flags.U.mask) != 0) = true ∧
    (Cpu6502.RTI (cpuOf 1 2 3 0xFD 0x8000 0x00
      [(0x8000, 0x00), (0xFFFE, 0x00), (0xFFFF, 0x90)])).1.getFlag Flags.U = true :=
  ⟨rfl,
   (unused_flag_invariant stackTable
      (cpuOf 1 2 3 0xFD 0x8000 0x00 [(0x8000, 0x00), (0xFFFE, 0x00), (0xFFFF, 0x90)])
      rfl (by decide)).1,
   (unused_flag_invariant stackTable
      (cpuOf 1 2 3 0xFD 0x8000 0x00 [(0x8000, 0x00), (0xFFFE, 0x00), (0xFFFF, 0x90)])
      rfl (by decide)).2.2.2.1 (by decide),
   (unused_flag_invariant stackTable
      (cpuOf 1 2 3 0xFD 0x8000 0x00 [(0x8000, 0x00), (0xFFFE, 0x00), (0xFFFF, 0x90)])
      rfl (by decide)).2.2.2.2.2.2⟩

/-! ## Subroutine call and return (C28) -/

theorem JSR_effect (s : Cpu6502) (hSP : s.SP < 256) :
    (Cpu6502.JSR s).1.bus.read (0x0100 + s.SP) = (s.PC + 65536 - 1) % 65536 / 256 ∧
    (Cpu6502.JSR s).1.bus.read (0x0100 + (s.SP + 256 - 1) % 256) =
      (s.PC + 65536 - 1) % 65536 % 256 ∧
    (Cpu6502.JSR s).1.SP = (s.SP + 256 - 2) % 256 ∧
    (Cpu6502.JSR s).1.PC = s.currentAddress := by
  have hbus : (Cpu6502.JSR s).1.bus =
      (s.bus.write ((0x0100 + s.SP) % 65536) ((s.PC + 65536 - 1) % 65536 / 256 % 256)).write
        ((0x0100 + (s.SP + 256 - 1) % 256) % 65536) ((s.PC + 65536 - 1) % 65536 % 256) := by
    simp only [Cpu6502.JSR, Cpu6502.write, LOW_BYTE_MASK, and_low_byte, shiftRight_eight]
  rw [hbus]
  simp only [read_write]
  refine ⟨?_, ?_, ?_, ?_⟩
  · rw [if_neg (by omega), if_pos (by omega)]
    omega
  · rw [if_pos (by omega)]
    omega
  · simp only [Cpu6502.JSR, Cpu6502.write]
    omega
  · simp only [Cpu6502.JSR, Cpu6502.write]

/-- C28: for every `SP` from 0x01 to 0xFF and every `PC = p` behind a `JSR`
operand, `JSR` stores the high byte of `(p - 1) mod 2^16` at `0x0100|SP` and
its low byte at `0x0100|((SP-1) mod 256)`, lowers `SP` by 2 and sets `PC` to
the effective address; `RTS` right after it restores `PC` to `p` and `SP` to
its value before the `JSR`. -/
theorem JSR_RTS_roundtrip (s : Cpu6502) (hSP0 : s.SP ≠ 0) (hSP : s.SP < 256)
    (hPC : s.PC < 65536) :
    (((Cpu6502.JSR s).1.bus.read (0x0100 ||| s.SP) : Nat) : Int) =
      ((s.PC : Int) - 1) % 65536 / 256 ∧
    (((Cpu6502.JSR s).1.bus.read (0x0100 ||| ((s.SP + 256 - 1) % 256)) : Nat) : Int) =
      ((s.PC : Int) - 1) % 65536 % 256 ∧
    (Cpu6502.JSR s).1.SP = (s.SP + 256 - 2) % 256 ∧
    (Cpu6502.JSR s).1.PC = s.currentAddress ∧
    (Cpu6502.RTS (Cpu6502.JSR s).1).1.PC = s.PC ∧
    (Cpu6502.RTS (Cpu6502.JSR s).1).1.SP = s.SP := by
  have hJ := JSR_effect s hSP
  have hR := RTS_effect (Cpu6502.JSR s).1
  have e1 : ((Cpu6502.JSR s).1.SP + 1) % 256 = (s.SP + 256 - 1) % 256 := by
    rw [hJ.2.2.1]; omega
  have e2 : 0x0100 + (s.SP + 256 - 1) % 256 + 1 = 0x0100 + s.SP := by omega
  have e3 : ((Cpu6502.JSR s).1.SP + 2) % 256 = s.SP := by
    rw [hJ.2.2.1]; omega
  rw [e1, e2, hJ.1, hJ.2.1] at hR
  have hg := getAbsolute_eq ((s.PC + 65536 - 1) % 65536 % 256)
    ((s.PC + 65536 - 1) % 65536 / 256) (by omega) (by omega)
  rw [or_shiftLeft_eight _ _ (by omega)] at hg
  rw [stack_or _ hSP, stack_or _ (Nat.mod_lt _ (by decide)), hJ.1, hJ.2.1]
  refine ⟨by omega, by omega, hJ.2.2.1, hJ.2.2.2, ?_, ?_⟩
  · rw [hR.1, hg]
    omega
  · rw [hR.2.1, e3]

/-- C28 on `JSR $9000` with `p = 0x8003` and `SP = 0xFD`: 0x80 and 0x02 go to
0x01FD and 0x01FC, `PC` becomes 0x9000, and `RTS` brings back `PC = 0x8003`
and `SP = 0xFD`. -/
theorem JSR_RTS_roundtrip_witness :
    (cpuAt AddressingMode.ABS 0x9000 (cpuOf 0 0 0 0xFD 0x8003 0x20 [])).SP ≠ 0 ∧
    (Cpu6502.JSR (cpuAt AddressingMode.ABS 0x9000
      (cpuOf 0 0 0 0xFD 0x8003 0x20 []))).1.bus.read 0x01FD = 0x80 ∧
    (Cpu6502.JSR (cpuAt AddressingMode.ABS 0x9000
      (cpuOf 0 0 0 0xFD 0x8003 0x20 []))).1.PC = 0x9000 ∧
    (Cpu6502.RTS (Cpu6502.JSR (cpuAt AddressingMode.ABS 0x9000
      (cpuOf 0 0 0 0xFD 0x8003 0x20 []))).1).1.PC = 0x8003 ∧
    (Cpu6502.RTS (Cpu6502.JSR (cpuAt AddressingMode.ABS 0x9000
      (cpuOf 0 0 0 0xFD 0x8003 0x20 []))).1).1.SP = 0xFD :=
  ⟨by decide, by decide,
   (JSR_RTS_roundtrip (cpuAt AddressingMode.ABS 0x9000 (cpuOf 0 0 0 0xFD 0x8003 0x20 []))
      (by decide) (by decide) (by decide)).2.2.2.1,
   (JSR_RTS_roundtrip (cpuAt AddressingMode.ABS 0x9000 (cpuOf 0 0 0 0xFD 0x8003 0x20 []))
      (by decide) (by decide) (by decide)).2.2.2.2.1,
   (JSR_RTS_roundtrip (cpuAt AddressingMode.ABS 0x9000 (cpuOf 0 0 0 0xFD 0x8003 0x20 []))
      (by decide) (by decide) (by decide)).2.2.2.2.2⟩

end Emu6502
